import Mathlib

/-!
Verification development for the panchang almanac engine.

The TypeScript source contains two structurally parallel implementations of
the same celestial engine: a free-function module (file `panchang.ts`, first
part: `normalizeAngle`, `convertMdyToJulian`, `computeDeltaT`,
`convertJulianToDate`, `solveKepler`, `computeNutation`, `calculateAyanamsa`,
`computeNewMoonJulian`, `computeMoonLongitude`, `computeSunLongitude`, the
segment solvers and `PanchangCalculator.calculate`) and a namespace variant
(`PanchangUtils.fix360`, `.mdy2julian`, `.dTime`, `.calData`, `.weekDay`,
`.kepler`, `.nutation`, `.calcayan`, `.moon`, `.sun`, `.tithi`, `.nakshatra`,
`.yoga`, `.novolun` plus the class `Panchang.calculate`).

Modelling conventions, chosen once and used throughout:
* JS numbers are modelled as real numbers; decimal literals are transcribed
  exactly (they denote exact decimal rationals here).
* `Math.floor` is `Int.floor`, producing an integer.
* Unbounded `while` loops are modelled either by well-founded recursion
  (when the loop provably terminates, as for angle normalization) or by an
  explicit fuel parameter returning `Option` (`none` means the loop has not
  exited within the given fuel), because the source has no iteration caps.
* A JS `Date` constructed from computed year, month, day, hour, minute and
  second fields is modelled as the record of those fields.
* The module-level mutable variables of `PanchangUtils` are modelled as an
  explicit state record threaded through the functions that touch them.
* The static name tables are outside the scope of the specification; results
  carry table indices rather than looked-up name strings.
-/

/-- Helper: the floor of an integer divided by a natural, over the reals,
is integer division. -/
lemma floor_intCast_div_natCast_real (p : ℤ) (q : ℕ) :
    ⌊(p : ℝ) / (q : ℝ)⌋ = p / (q : ℤ) := by
  rw [show ((p : ℝ) / (q : ℝ)) = (((p / q : ℚ)) : ℝ) by push_cast; ring]
  rw [Rat.floor_cast, Rat.floor_intCast_div_natCast]

/-! ### Angle normalization, free module

Source (`normalizeAngle`):
```
while (angle < 0) angle += 360;
while (angle >= 360) angle -= 360;
return angle;
```
The two `while` loops are modelled by well-founded recursion; the measures
are the exact numbers of iterations each loop performs.
-/

noncomputable def normAddLoop (x : ℝ) : ℝ :=
  if x < 0 then normAddLoop (x + 360) else x
termination_by (⌈(-x) / 360⌉).toNat
decreasing_by
  have h1 : 0 < ⌈(-x) / 360⌉ := Int.ceil_pos.mpr (div_pos (by linarith) (by norm_num))
  have h2 : ⌈(-(x + 360)) / 360⌉ = ⌈(-x) / 360⌉ + (-1 : ℤ) := by
    rw [show (-(x + 360)) / 360 = (-x) / 360 + ((-1 : ℤ) : ℝ) by push_cast; ring]
    rw [Int.ceil_add_int]
  omega

noncomputable def normSubLoop (x : ℝ) : ℝ :=
  if 360 ≤ x then normSubLoop (x - 360) else x
termination_by (⌊x / 360⌋).toNat
decreasing_by
  have h1 : 0 < ⌊x / 360⌋ := by
    rw [Int.lt_iff_add_one_le, zero_add, Int.le_floor]
    rw [show ((1 : ℤ) : ℝ) = 1 by norm_num, le_div_iff (by norm_num : (0:ℝ) < 360)]
    linarith
  have h2 : ⌊(x - 360) / 360⌋ = ⌊x / 360⌋ + (-1 : ℤ) := by
    rw [show (x - 360) / 360 = x / 360 + ((-1 : ℤ) : ℝ) by push_cast; ring]
    rw [Int.floor_add_int]
  omega

/-- Embedding of `normalizeAngle` from the free module. -/
noncomputable def normalizeAngle (x : ℝ) : ℝ :=
  normSubLoop (normAddLoop x)

lemma normAddLoop_of_nonneg {x : ℝ} (h : 0 ≤ x) : normAddLoop x = x := by
  rw [normAddLoop, if_neg (not_lt.mpr h)]

lemma normAddLoop_spec (x : ℝ) :
    0 ≤ normAddLoop x ∧ ∃ k : ℤ, normAddLoop x = x + 360 * k := by
  generalize hn : (⌈(-x) / 360⌉).toNat = n
  induction n generalizing x with
  | zero =>
      have hx : 0 ≤ x := by
        by_contra hneg
        push_neg at hneg
        have : 0 < ⌈(-x) / 360⌉ :=
          Int.ceil_pos.mpr (div_pos (by linarith) (by norm_num))
        omega
      rw [normAddLoop_of_nonneg hx]
      exact ⟨hx, 0, by ring⟩
  | succ n ih =>
      by_cases hx : x < 0
      · have h2 : ⌈(-(x + 360)) / 360⌉ = ⌈(-x) / 360⌉ + (-1 : ℤ) := by
          rw [show (-(x + 360)) / 360 = (-x) / 360 + ((-1 : ℤ) : ℝ) by push_cast; ring]
          rw [Int.ceil_add_int]
        have h1 : 0 < ⌈(-x) / 360⌉ :=
          Int.ceil_pos.mpr (div_pos (by linarith) (by norm_num))
        have hn' : (⌈(-(x + 360)) / 360⌉).toNat = n := by omega
        obtain ⟨hpos, k, hk⟩ := ih (x + 360) hn'
        rw [normAddLoop, if_pos hx]
        exact ⟨hpos, k + 1, by rw [hk]; push_cast; ring⟩
      · push_neg at hx
        rw [normAddLoop_of_nonneg hx]
        exact ⟨hx, 0, by ring⟩

lemma normSubLoop_of_lt {x : ℝ} (h : x < 360) : normSubLoop x = x := by
  rw [normSubLoop, if_neg (not_le.mpr h)]

lemma normSubLoop_spec (x : ℝ) (hx : 0 ≤ x) :
    (0 ≤ normSubLoop x ∧ normSubLoop x < 360) ∧
      ∃ k : ℤ, normSubLoop x = x - 360 * k := by
  generalize hn : (⌊x / 360⌋).toNat = n
  induction n generalizing x with
  | zero =>
      have hlt : x < 360 := by
        by_contra hge
        push_neg at hge
        have : 0 < ⌊x / 360⌋ := by
          rw [Int.lt_iff_add_one_le, zero_add, Int.le_floor]
          rw [show ((1 : ℤ) : ℝ) = 1 by norm_num,
            le_div_iff (by norm_num : (0:ℝ) < 360)]
          linarith
        omega
      rw [normSubLoop_of_lt hlt]
      exact ⟨⟨hx, hlt⟩, 0, by ring⟩
  | succ n ih =>
      by_cases hge : 360 ≤ x
      · have h2 : ⌊(x - 360) / 360⌋ = ⌊x / 360⌋ + (-1 : ℤ) := by
          rw [show (x - 360) / 360 = x / 360 + ((-1 : ℤ) : ℝ) by push_cast; ring]
          rw [Int.floor_add_int]
        have h1 : 0 < ⌊x / 360⌋ := by
          rw [Int.lt_iff_add_one_le, zero_add, Int.le_floor]
          rw [show ((1 : ℤ) : ℝ) = 1 by norm_num,
            le_div_iff (by norm_num : (0:ℝ) < 360)]
          linarith
        have hn' : (⌊(x - 360) / 360⌋).toNat = n := by omega
        obtain ⟨hmem, k, hk⟩ := ih (x - 360) (by linarith) hn'
        rw [normSubLoop, if_pos hge]
        exact ⟨hmem, k + 1, by rw [hk]; push_cast; ring⟩
      · push_neg at hge
        rw [normSubLoop_of_lt hge]
        exact ⟨⟨hx, hge⟩, 0, by ring⟩

lemma normalizeAngle_mem (x : ℝ) :
    0 ≤ normalizeAngle x ∧ normalizeAngle x < 360 := by
  obtain ⟨h0, _, _⟩ := normAddLoop_spec x
  exact (normSubLoop_spec _ h0).1

lemma normalizeAngle_sub_int (x : ℝ) :
    ∃ k : ℤ, normalizeAngle x = x - 360 * k := by
  obtain ⟨h0, ka, hka⟩ := normAddLoop_spec x
  obtain ⟨_, ks, hks⟩ := (normSubLoop_spec _ h0)
  exact ⟨ks - ka, by rw [normalizeAngle, hks, hka]; push_cast; ring⟩

/-- The loop result is characterized in closed form. -/
lemma normalizeAngle_eq_floor (x : ℝ) :
    normalizeAngle x = x - 360 * ⌊x / 360⌋ := by
  obtain ⟨h0, h360⟩ := normalizeAngle_mem x
  obtain ⟨k, hk⟩ := normalizeAngle_sub_int x
  have : ⌊x / 360⌋ = k := by
    have hfl : (k : ℝ) ≤ x / 360 ∧ x / 360 < k + 1 := by
      constructor
      · rw [le_div_iff (by norm_num : (0:ℝ) < 360)]; linarith
      · rw [div_lt_iff (by norm_num : (0:ℝ) < 360)]; linarith
    exact Int.floor_eq_iff.mpr ⟨hfl.1, by push_cast; exact hfl.2⟩
  rw [hk, this]

/-! ### Angle normalization, namespace variant (`PanchangUtils.fix360`)

The source text of `fix360` is identical to `normalizeAngle`; it is
transcribed separately and proved pointwise equal.
-/

noncomputable def fix360AddLoop (x : ℝ) : ℝ :=
  if x < 0 then fix360AddLoop (x + 360) else x
termination_by (⌈(-x) / 360⌉).toNat
decreasing_by
  have h1 : 0 < ⌈(-x) / 360⌉ := Int.ceil_pos.mpr (div_pos (by linarith) (by norm_num))
  have h2 : ⌈(-(x + 360)) / 360⌉ = ⌈(-x) / 360⌉ + (-1 : ℤ) := by
    rw [show (-(x + 360)) / 360 = (-x) / 360 + ((-1 : ℤ) : ℝ) by push_cast; ring]
    rw [Int.ceil_add_int]
  omega

noncomputable def fix360SubLoop (x : ℝ) : ℝ :=
  if 360 ≤ x then fix360SubLoop (x - 360) else x
termination_by (⌊x / 360⌋).toNat
decreasing_by
  have h1 : 0 < ⌊x / 360⌋ := by
    rw [Int.lt_iff_add_one_le, zero_add, Int.le_floor]
    rw [show ((1 : ℤ) : ℝ) = 1 by norm_num, le_div_iff (by norm_num : (0:ℝ) < 360)]
    linarith
  have h2 : ⌊(x - 360) / 360⌋ = ⌊x / 360⌋ + (-1 : ℤ) := by
    rw [show (x - 360) / 360 = x / 360 + ((-1 : ℤ) : ℝ) by push_cast; ring]
    rw [Int.floor_add_int]
  omega

namespace PanchangUtils

/-- Embedding of `PanchangUtils.fix360`. -/
noncomputable def fix360 (x : ℝ) : ℝ :=
  fix360SubLoop (fix360AddLoop x)

end PanchangUtils

lemma fix360AddLoop_eq (x : ℝ) : fix360AddLoop x = normAddLoop x := by
  generalize hn : (⌈(-x) / 360⌉).toNat = n
  induction n generalizing x with
  | zero =>
      have hx : 0 ≤ x := by
        by_contra hneg
        push_neg at hneg
        have : 0 < ⌈(-x) / 360⌉ :=
          Int.ceil_pos.mpr (div_pos (by linarith) (by norm_num))
        omega
      rw [fix360AddLoop, normAddLoop, if_neg (not_lt.mpr hx), if_neg (not_lt.mpr hx)]
  | succ n ih =>
      by_cases hx : x < 0
      · have h2 : ⌈(-(x + 360)) / 360⌉ = ⌈(-x) / 360⌉ + (-1 : ℤ) := by
          rw [show (-(x + 360)) / 360 = (-x) / 360 + ((-1 : ℤ) : ℝ) by push_cast; ring]
          rw [Int.ceil_add_int]
        have h1 : 0 < ⌈(-x) / 360⌉ :=
          Int.ceil_pos.mpr (div_pos (by linarith) (by norm_num))
        have hn' : (⌈(-(x + 360)) / 360⌉).toNat = n := by omega
        rw [fix360AddLoop, normAddLoop, if_pos hx, if_pos hx, ih _ hn']
      · push_neg at hx
        rw [fix360AddLoop, normAddLoop, if_neg (not_lt.mpr hx), if_neg (not_lt.mpr hx)]

lemma fix360SubLoop_eq (x : ℝ) : fix360SubLoop x = normSubLoop x := by
  generalize hn : (⌊x / 360⌋).toNat = n
  induction n generalizing x with
  | zero =>
      by_cases hge : 360 ≤ x
      · have : 0 < ⌊x / 360⌋ := by
          rw [Int.lt_iff_add_one_le, zero_add, Int.le_floor]
          rw [show ((1 : ℤ) : ℝ) = 1 by norm_num,
            le_div_iff (by norm_num : (0:ℝ) < 360)]
          linarith
        omega
      · rw [fix360SubLoop, normSubLoop, if_neg hge, if_neg hge]
  | succ n ih =>
      by_cases hge : 360 ≤ x
      · have h2 : ⌊(x - 360) / 360⌋ = ⌊x / 360⌋ + (-1 : ℤ) := by
          rw [show (x - 360) / 360 = x / 360 + ((-1 : ℤ) : ℝ) by push_cast; ring]
          rw [Int.floor_add_int]
        have hn' : (⌊(x - 360) / 360⌋).toNat = n := by omega
        rw [fix360SubLoop, normSubLoop, if_pos hge, if_pos hge, ih _ hn']
      · rw [fix360SubLoop, normSubLoop, if_neg hge, if_neg hge]

lemma fix360_eq_normalizeAngle (x : ℝ) :
    PanchangUtils.fix360 x = normalizeAngle x := by
  rw [PanchangUtils.fix360, normalizeAngle, fix360AddLoop_eq, fix360SubLoop_eq]

/-! ### Fuel versions of the normalization loops

These model the source loops directly as unbounded iteration: `none` means
the loop has not exited within the supplied number of iterations.  They are
used to state termination itself as a theorem, and (over the extended reals,
which model the IEEE infinities an unchecked JS number can hold) to show the
second loop never exits on an infinite input.
-/

noncomputable def normAddLoopF : ℕ → ℝ → Option ℝ
  | 0, _ => none
  | n + 1, x => if x < 0 then normAddLoopF n (x + 360) else some x

noncomputable def normSubLoopF : ℕ → ℝ → Option ℝ
  | 0, _ => none
  | n + 1, x => if 360 ≤ x then normSubLoopF n (x - 360) else some x

noncomputable def normalizeAngleF (n : ℕ) (x : ℝ) : Option ℝ :=
  (normAddLoopF n x).bind (normSubLoopF n)

noncomputable def normSubLoopE : ℕ → EReal → Option EReal
  | 0, _ => none
  | n + 1, x =>
      if ((360 : ℝ) : EReal) ≤ x then normSubLoopE n (x - ((360 : ℝ) : EReal))
      else some x

lemma normAddLoopF_mono {n m : ℕ} {x : ℝ} {r : ℝ}
    (h : normAddLoopF n x = some r) (hnm : n ≤ m) : normAddLoopF m x = some r := by
  induction n generalizing x m with
  | zero => simp [normAddLoopF] at h
  | succ n ih =>
      obtain ⟨m', rfl⟩ : ∃ m', m = m' + 1 := ⟨m - 1, by omega⟩
      rw [normAddLoopF] at h ⊢
      by_cases hx : x < 0
      · rw [if_pos hx] at h ⊢
        exact ih h (by omega)
      · rw [if_neg hx] at h ⊢
        exact h

lemma normSubLoopF_mono {n m : ℕ} {x : ℝ} {r : ℝ}
    (h : normSubLoopF n x = some r) (hnm : n ≤ m) : normSubLoopF m x = some r := by
  induction n generalizing x m with
  | zero => simp [normSubLoopF] at h
  | succ n ih =>
      obtain ⟨m', rfl⟩ : ∃ m', m = m' + 1 := ⟨m - 1, by omega⟩
      rw [normSubLoopF] at h ⊢
      by_cases hx : (360 : ℝ) ≤ x
      · rw [if_pos hx] at h ⊢
        exact ih h (by omega)
      · rw [if_neg hx] at h ⊢
        exact h

lemma normAddLoopF_total (x : ℝ) : ∃ n, normAddLoopF n x = some (normAddLoop x) := by
  generalize hn : (⌈(-x) / 360⌉).toNat = n
  induction n generalizing x with
  | zero =>
      have hx : 0 ≤ x := by
        by_contra hneg
        push_neg at hneg
        have : 0 < ⌈(-x) / 360⌉ :=
          Int.ceil_pos.mpr (div_pos (by linarith) (by norm_num))
        omega
      exact ⟨1, by rw [normAddLoopF, if_neg (not_lt.mpr hx), normAddLoop_of_nonneg hx]⟩
  | succ n ih =>
      by_cases hx : x < 0
      · have h2 : ⌈(-(x + 360)) / 360⌉ = ⌈(-x) / 360⌉ + (-1 : ℤ) := by
          rw [show (-(x + 360)) / 360 = (-x) / 360 + ((-1 : ℤ) : ℝ) by push_cast; ring]
          rw [Int.ceil_add_int]
        have h1 : 0 < ⌈(-x) / 360⌉ :=
          Int.ceil_pos.mpr (div_pos (by linarith) (by norm_num))
        have hn' : (⌈(-(x + 360)) / 360⌉).toNat = n := by omega
        obtain ⟨m, hm⟩ := ih (x + 360) hn'
        refine ⟨m + 1, ?_⟩
        have hu : normAddLoop x = normAddLoop (x + 360) := by
          rw [normAddLoop, if_pos hx]
        rw [normAddLoopF, if_pos hx, hm, hu]
      · push_neg at hx
        exact ⟨1, by rw [normAddLoopF, if_neg (not_lt.mpr hx), normAddLoop_of_nonneg hx]⟩

lemma normSubLoopF_total (x : ℝ) : ∃ n, normSubLoopF n x = some (normSubLoop x) := by
  generalize hn : (⌊x / 360⌋).toNat = n
  induction n generalizing x with
  | zero =>
      by_cases hge : 360 ≤ x
      · have : 0 < ⌊x / 360⌋ := by
          rw [Int.lt_iff_add_one_le, zero_add, Int.le_floor]
          rw [show ((1 : ℤ) : ℝ) = 1 by norm_num,
            le_div_iff (by norm_num : (0:ℝ) < 360)]
          linarith
        omega
      · exact ⟨1, by rw [normSubLoopF, if_neg hge, normSubLoop, if_neg hge]⟩
  | succ n ih =>
      by_cases hge : 360 ≤ x
      · have h2 : ⌊(x - 360) / 360⌋ = ⌊x / 360⌋ + (-1 : ℤ) := by
          rw [show (x - 360) / 360 = x / 360 + ((-1 : ℤ) : ℝ) by push_cast; ring]
          rw [Int.floor_add_int]
        have hn' : (⌊(x - 360) / 360⌋).toNat = n := by omega
        obtain ⟨m, hm⟩ := ih (x - 360) hn'
        refine ⟨m + 1, ?_⟩
        have hu : normSubLoop x = normSubLoop (x - 360) := by
          rw [normSubLoop, if_pos hge]
        rw [normSubLoopF, if_pos hge, hm, hu]
      · exact ⟨1, by rw [normSubLoopF, if_neg hge, normSubLoop, if_neg hge]⟩

lemma normalizeAngleF_total (x : ℝ) :
    ∃ n, normalizeAngleF n x = some (normalizeAngle x) := by
  obtain ⟨n₁, h₁⟩ := normAddLoopF_total x
  obtain ⟨n₂, h₂⟩ := normSubLoopF_total (normAddLoop x)
  refine ⟨max n₁ n₂, ?_⟩
  rw [normalizeAngleF, normAddLoopF_mono h₁ (le_max_left _ _)]
  exact normSubLoopF_mono h₂ (le_max_right _ _)

lemma normSubLoopE_top (n : ℕ) : normSubLoopE n ⊤ = none := by
  induction n with
  | zero => rfl
  | succ n ih =>
      rw [normSubLoopE, if_pos le_top, EReal.top_sub_coe]
      exact ih

/-! ### Shared numeric constants -/

/-- Conversion factor degrees to radians (`DEG_TO_RAD` and
`DEGREE_TO_RADIAN` in the source, both `Math.PI / 180`). -/
noncomputable def DEG_TO_RAD : ℝ := Real.pi / 180

/-- Conversion factor radians to degrees. -/
noncomputable def RAD_TO_DEG : ℝ := 180 / Real.pi

/-- Model of a JS `Date` built from computed year, month, day, hour,
minute and second fields. -/
structure CivilDate where
  year : ℤ
  month : ℤ
  day : ℤ
  hour : ℤ
  minute : ℤ
  second : ℤ
deriving DecidableEq

/-! ### Free module: calendar and time conversion -/

/-- Embedding of `getWeekdayIndex`. -/
noncomputable def getWeekdayIndex (julianDate : ℝ) : ℤ :=
  let jdNoon : ℝ := (⌊julianDate⌋ : ℝ) + 0.5
  let adjustedJD : ℝ := if julianDate < jdNoon then jdNoon - 1 else jdNoon
  let weekdayJD : ℝ := adjustedJD + 1.5
  let fullWeeks : ℝ := (⌊weekdayJD / 7⌋ : ℝ) * 7
  ⌊weekdayJD - fullWeeks⌋

/-- Embedding of `convertMdyToJulian`; `day` may carry a fractional part. -/
noncomputable def convertMdyToJulian (month : ℤ) (day : ℝ) (year : ℤ) : ℝ :=
  let iv : ℤ := 12 * (year + 4800) + month - 3
  let j0 : ℝ := (2 * ((iv : ℝ) - (⌊(iv : ℝ) / 12⌋ : ℝ) * 12) + 7 + 365 * (iv : ℝ)) / 12
  let julianDay : ℝ := (⌊j0⌋ : ℝ) + day + (⌊(iv : ℝ) / 48⌋ : ℝ) - 32083
  let julianDay' : ℝ :=
    if julianDay > 2299171 then
      julianDay + (⌊(iv : ℝ) / 4800⌋ : ℝ) - (⌊(iv : ℝ) / 1200⌋ : ℝ) + 38
    else julianDay
  julianDay' - 0.5

/-- Embedding of `convertJulianToDate`; the JS `Date` it builds is modelled
as the record of the computed calendar fields. -/
noncomputable def convertJulianToDate (julianDate : ℝ) : CivilDate :=
  let adjustedJD : ℝ := julianDate + 0.5
  let integerJD : ℤ := ⌊adjustedJD⌋
  let fractionalDay : ℝ := adjustedJD - (integerJD : ℝ)
  let aValue : ℤ :=
    if integerJD < 2299161 then integerJD
    else
      let alpha : ℤ := ⌊((integerJD : ℝ) - 1867216.25) / 36524.25⌋
      integerJD + 1 + alpha - ⌊(alpha : ℝ) / 4⌋
  let bValue : ℤ := aValue + 1524
  let cValue : ℤ := ⌊((bValue : ℝ) - 122.1) / 365.25⌋
  let dValue : ℤ := ⌊365.25 * (cValue : ℝ)⌋
  let eValue : ℤ := ⌊((bValue : ℝ) - (dValue : ℝ)) / 30.6001⌋
  let totalDays : ℝ :=
    (bValue : ℝ) - (dValue : ℝ) - (⌊30.6001 * (eValue : ℝ)⌋ : ℝ) + fractionalDay
  let dayOfMonth : ℤ := ⌊totalDays⌋
  let month : ℤ := if (eValue : ℝ) < 13.5 then eValue - 1 else eValue - 13
  let year : ℤ := if (month : ℝ) > 2.5 then cValue - 4716 else cValue - 4715
  let hourDecimal : ℝ := (totalDays - (dayOfMonth : ℝ)) * 24
  let hours : ℤ := ⌊hourDecimal⌋
  let minuteDecimal : ℝ := (hourDecimal - (hours : ℝ)) * 60
  let minutes : ℤ := ⌊minuteDecimal⌋
  let seconds : ℤ := ⌊(minuteDecimal - (minutes : ℝ)) * 60⌋
  ⟨year, month, dayOfMonth, hours, minutes, seconds⟩

/-! ### Integer model of the Julian day conversions, for the round-trip proof -/

def jdIntFwd (m d y : ℤ) : ℤ :=
  let im : ℤ := 12 * (y + 4800) + m - 3
  let j : ℤ := (2 * (im - im / 12 * 12) + 7 + 365 * im) / 12 + d + im / 48 - 32083
  if j > 2299171 then j + im / 4800 - im / 1200 + 38 else j

def calInvAlf (j : ℤ) : ℤ := (4 * j - 7468865) / 146097
def calInvA (j : ℤ) : ℤ := j + 1 + calInvAlf j - calInvAlf j / 4
def calInvB (j : ℤ) : ℤ := calInvA j + 1524
def calInvC (j : ℤ) : ℤ := (20 * calInvB j - 2442) / 7305
def calInvDV (j : ℤ) : ℤ := 1461 * calInvC j / 4
def calInvE (j : ℤ) : ℤ := 10000 * (calInvB j - calInvDV j) / 306001
def calInvDay (j : ℤ) : ℤ := calInvB j - calInvDV j - 306001 * calInvE j / 10000
def calInvMon (j : ℤ) : ℤ := if calInvE j < 14 then calInvE j - 1 else calInvE j - 13
def calInvYr (j : ℤ) : ℤ :=
  if calInvMon j > 2 then calInvC j - 4716 else calInvC j - 4715

def calIntInv (j : ℤ) : ℤ × ℤ × ℤ := (calInvYr j, calInvMon j, calInvDay j)

def daysInMonth (m y : ℤ) : ℤ :=
  if m = 2 then (if y % 4 = 0 ∧ ¬(y % 100 = 0) ∨ y % 400 = 0 then 29 else 28)
  else if m = 4 ∨ m = 6 ∨ m = 9 ∨ m = 11 then 30
  else 31

lemma jdIntFwd_linear (y m d : ℤ) (hy1 : 1800 ≤ y) (hy2 : y ≤ 2200)
    (hm1 : 3 ≤ m) (hm2 : m ≤ 12) (hd1 : 1 ≤ d) (hd2 : d ≤ 31) :
    jdIntFwd m d y =
      365 * y + y / 4 - y / 100 + y / 400 + (367 * (m - 3) + 7) / 12 + d + 1721119 := by
  simp only [jdIntFwd]
  have e1 : 12 * (y + 4800) + m - 3 - (12 * (y + 4800) + m - 3) / 12 * 12 = m - 3 := by
    omega
  rw [e1]
  have e2 : (2 * (m - 3) + 7 + 365 * (12 * (y + 4800) + m - 3)) / 12
      = 365 * y + (367 * (m - 3) + 7) / 12 + 1752000 := by omega
  rw [e2]
  have e3 : (12 * (y + 4800) + m - 3) / 48 = y / 4 + 1200 := by omega
  rw [e3]
  rw [if_pos (by omega)]
  have e4 : (12 * (y + 4800) + m - 3) / 4800 = y / 400 + 12 := by omega
  have e5 : (12 * (y + 4800) + m - 3) / 1200 = y / 100 + 48 := by omega
  rw [e4, e5]
  ring

section MarDec

variable (y q4 q100 q400 C d : ℤ)

def argMD (y q4 q100 q400 C d : ℤ) : ℤ := 365 * y + q4 - q100 + q400 + C + d + 1721119

lemma invAlf_md (hy : 1800 ≤ y ∧ y ≤ 2200) (h4 : y / 4 = q4) (h100 : y / 100 = q100)
    (h400 : y / 400 = q400) (hC : 0 ≤ C ∧ C ≤ 275) (hd : 1 ≤ d ∧ d ≤ 31) :
    calInvAlf (argMD y q4 q100 q400 C d) = q100 - 4 := by
  unfold calInvAlf argMD; omega

lemma invB_md (hy : 1800 ≤ y ∧ y ≤ 2200) (h4 : y / 4 = q4) (h100 : y / 100 = q100)
    (h400 : y / 400 = q400) (hC : 0 ≤ C ∧ C ≤ 275) (hd : 1 ≤ d ∧ d ≤ 31) :
    calInvB (argMD y q4 q100 q400 C d) = 365 * y + C + d + q4 + 1722641 := by
  unfold calInvB calInvA
  rw [invAlf_md y q4 q100 q400 C d hy h4 h100 h400 hC hd]
  unfold argMD; omega

lemma invC_md (hy : 1800 ≤ y ∧ y ≤ 2200) (h4 : y / 4 = q4) (h100 : y / 100 = q100)
    (h400 : y / 400 = q400) (hC : 0 ≤ C ∧ C ≤ 275) (hd : 1 ≤ d ∧ d ≤ 31) :
    calInvC (argMD y q4 q100 q400 C d) = y + 4716 := by
  unfold calInvC
  rw [invB_md y q4 q100 q400 C d hy h4 h100 h400 hC hd]
  omega

lemma invDV_md (hy : 1800 ≤ y ∧ y ≤ 2200) (h4 : y / 4 = q4) (h100 : y / 100 = q100)
    (h400 : y / 400 = q400) (hC : 0 ≤ C ∧ C ≤ 275) (hd : 1 ≤ d ∧ d ≤ 31) :
    calInvDV (argMD y q4 q100 q400 C d) = 365 * y + q4 + 1722519 := by
  unfold calInvDV
  rw [invC_md y q4 q100 q400 C d hy h4 h100 h400 hC hd]
  omega

end MarDec

section MarDecM

variable (y q4 q100 q400 C d m : ℤ)

lemma invE_md (hy : 1800 ≤ y ∧ y ≤ 2200) (h4 : y / 4 = q4) (h100 : y / 100 = q100)
    (h400 : y / 400 = q400) (hm : 3 ≤ m ∧ m ≤ 12)
    (hCm : (367 * (m - 3) + 7) / 12 = C) (hd : 1 ≤ d)
    (hdm : (m = 4 ∨ m = 6 ∨ m = 9 ∨ m = 11) ∧ d ≤ 30 ∨
      ¬(m = 4 ∨ m = 6 ∨ m = 9 ∨ m = 11) ∧ d ≤ 31) :
    calInvE (argMD y q4 q100 q400 C d) = m + 1 := by
  have hC : 0 ≤ C ∧ C ≤ 275 := by omega
  have hd' : 1 ≤ d ∧ d ≤ 31 := by omega
  unfold calInvE
  rw [invB_md y q4 q100 q400 C d hy h4 h100 h400 hC hd',
    invDV_md y q4 q100 q400 C d hy h4 h100 h400 hC hd']
  obtain ⟨hm1, hm2⟩ := hm
  interval_cases m <;> omega

lemma invDay_md (hy : 1800 ≤ y ∧ y ≤ 2200) (h4 : y / 4 = q4) (h100 : y / 100 = q100)
    (h400 : y / 400 = q400) (hm : 3 ≤ m ∧ m ≤ 12)
    (hCm : (367 * (m - 3) + 7) / 12 = C) (hd : 1 ≤ d)
    (hdm : (m = 4 ∨ m = 6 ∨ m = 9 ∨ m = 11) ∧ d ≤ 30 ∨
      ¬(m = 4 ∨ m = 6 ∨ m = 9 ∨ m = 11) ∧ d ≤ 31) :
    calInvDay (argMD y q4 q100 q400 C d) = d := by
  have hC : 0 ≤ C ∧ C ≤ 275 := by omega
  have hd' : 1 ≤ d ∧ d ≤ 31 := by omega
  unfold calInvDay
  rw [invB_md y q4 q100 q400 C d hy h4 h100 h400 hC hd',
    invDV_md y q4 q100 q400 C d hy h4 h100 h400 hC hd',
    invE_md y q4 q100 q400 C d m hy h4 h100 h400 hm hCm hd hdm]
  obtain ⟨hm1, hm2⟩ := hm
  interval_cases m <;> omega

lemma rt_mar_dec' (hy : 1800 ≤ y ∧ y ≤ 2200) (hm : 3 ≤ m ∧ m ≤ 12) (hd : 1 ≤ d)
    (hdm : d ≤ daysInMonth m y) :
    calIntInv (jdIntFwd m d y) = (y, m, d) := by
  have hdm' : (m = 4 ∨ m = 6 ∨ m = 9 ∨ m = 11) ∧ d ≤ 30 ∨
      ¬(m = 4 ∨ m = 6 ∨ m = 9 ∨ m = 11) ∧ d ≤ 31 := by
    unfold daysInMonth at hdm
    split_ifs at hdm <;> omega
  have hd31 : d ≤ 31 := by omega
  have hJ : jdIntFwd m d y =
      argMD y (y / 4) (y / 100) (y / 400) ((367 * (m - 3) + 7) / 12) d := by
    rw [jdIntFwd_linear y m d hy.1 hy.2 hm.1 hm.2 hd hd31]
    unfold argMD; ring
  have hCb : 0 ≤ (367 * (m - 3) + 7) / 12 ∧ (367 * (m - 3) + 7) / 12 ≤ 275 := by omega
  have hE := invE_md y (y / 4) (y / 100) (y / 400) ((367 * (m - 3) + 7) / 12) d m
    hy rfl rfl rfl hm rfl hd hdm'
  have hDay := invDay_md y (y / 4) (y / 100) (y / 400) ((367 * (m - 3) + 7) / 12) d m
    hy rfl rfl rfl hm rfl hd hdm'
  have hCv := invC_md y (y / 4) (y / 100) (y / 400) ((367 * (m - 3) + 7) / 12) d
    hy rfl rfl rfl hCb ⟨hd, hd31⟩
  have hMonA : calInvMon (argMD y (y / 4) (y / 100) (y / 400) ((367 * (m - 3) + 7) / 12) d)
      = m := by
    unfold calInvMon
    rw [hE]
    rw [if_pos (by omega)]
    omega
  have hYrA : calInvYr (argMD y (y / 4) (y / 100) (y / 400) ((367 * (m - 3) + 7) / 12) d)
      = y := by
    unfold calInvYr
    rw [hMonA, hCv]
    rw [if_pos (by omega)]
    ring
  unfold calIntInv
  rw [hJ, hYrA, hMonA, hDay]

section JanFeb

variable (y qa qb qc C d m : ℤ)

def argJF (y qa qb qc C d : ℤ) : ℤ := 365 * y + C + d + qa - qb + qc + 1719590

def validJF (y d m : ℤ) : Prop :=
  m = 1 ∧ d ≤ 31 ∨
    m = 2 ∧ (y % 4 = 0 ∧ ¬(y % 100 = 0) ∨ y % 400 = 0) ∧ d ≤ 29 ∨
    m = 2 ∧ ¬(y % 4 = 0 ∧ ¬(y % 100 = 0) ∨ y % 400 = 0) ∧ d ≤ 28

lemma jdIntFwd_linear_jf (hy1 : 1800 ≤ y) (hy2 : y ≤ 2200)
    (hm1 : 1 ≤ m) (hm2 : m ≤ 2) (hd1 : 1 ≤ d) (hd2 : d ≤ 31) :
    jdIntFwd m d y =
      argJF y ((y + 4799) / 4) ((y + 4799) / 100) ((y + 4799) / 400)
        ((367 * (m + 9) + 7) / 12) d := by
  simp only [jdIntFwd, argJF]
  have e1 : 12 * (y + 4800) + m - 3 - (12 * (y + 4800) + m - 3) / 12 * 12 = m + 9 := by
    omega
  rw [e1]
  have e2 : (2 * (m + 9) + 7 + 365 * (12 * (y + 4800) + m - 3)) / 12
      = 365 * y + (367 * (m + 9) + 7) / 12 + 1751635 := by omega
  rw [e2]
  have e3 : (12 * (y + 4800) + m - 3) / 48 = (y + 4799) / 4 := by omega
  rw [e3]
  rw [if_pos (by omega)]
  have e4 : (12 * (y + 4800) + m - 3) / 4800 = (y + 4799) / 400 := by omega
  have e5 : (12 * (y + 4800) + m - 3) / 1200 = (y + 4799) / 100 := by omega
  rw [e4, e5]
  ring

lemma invAlf_jf (hy : 1800 ≤ y ∧ y ≤ 2200) (h4 : (y + 4799) / 4 = qa)
    (h100 : (y + 4799) / 100 = qb) (h400 : (y + 4799) / 400 = qc)
    (hm : 1 ≤ m ∧ m ≤ 2) (hCm : (367 * (m + 9) + 7) / 12 = C) (hd : 1 ≤ d)
    (hval : validJF y d m) :
    calInvAlf (argJF y qa qb qc C d) = qb - 52 := by
  unfold calInvAlf argJF validJF at *
  obtain ⟨hm1, hm2⟩ := hm
  interval_cases m <;>
  · by_cases h4z : y % 4 = 0
    · by_cases h100z : y % 100 = 0
      · by_cases h400z : y % 400 = 0
        · have hqa : qa = y / 4 + 1199 := by omega
          have hqb : qb = y / 100 + 47 := by omega
          have hqc : qc = y / 400 + 11 := by omega
          omega
        · have hqa : qa = y / 4 + 1199 := by omega
          have hqb : qb = y / 100 + 47 := by omega
          have hqc : qc = y / 400 + 12 := by omega
          omega
      · have hqa : qa = y / 4 + 1199 := by omega
        have hqb : qb = y / 100 + 48 := by omega
        have hqc : qc = y / 400 + 12 := by omega
        omega
    · have hqa : qa = y / 4 + 1200 := by omega
      have hqb : qb = y / 100 + 48 := by omega
      have hqc : qc = y / 400 + 12 := by omega
      omega

lemma invB_jf (hy : 1800 ≤ y ∧ y ≤ 2200) (h4 : (y + 4799) / 4 = qa)
    (h100 : (y + 4799) / 100 = qb) (h400 : (y + 4799) / 400 = qc)
    (hm : 1 ≤ m ∧ m ≤ 2) (hCm : (367 * (m + 9) + 7) / 12 = C) (hd : 1 ≤ d)
    (hval : validJF y d m) :
    calInvB (argJF y qa qb qc C d) = 365 * y + C + d + qa + 1721076 := by
  unfold calInvB calInvA
  rw [invAlf_jf y qa qb qc C d m hy h4 h100 h400 hm hCm hd hval]
  unfold argJF; omega

lemma invC_jf (hy : 1800 ≤ y ∧ y ≤ 2200) (h4 : (y + 4799) / 4 = qa)
    (h100 : (y + 4799) / 100 = qb) (h400 : (y + 4799) / 400 = qc)
    (hm : 1 ≤ m ∧ m ≤ 2) (hCm : (367 * (m + 9) + 7) / 12 = C) (hd : 1 ≤ d)
    (hval : validJF y d m) :
    calInvC (argJF y qa qb qc C d) = y + 4715 := by
  have hval' := hval
  unfold validJF at hval'
  unfold calInvC
  rw [invB_jf y qa qb qc C d m hy h4 h100 h400 hm hCm hd hval]
  obtain ⟨hm1, hm2⟩ := hm
  interval_cases m <;> omega

lemma invDV_jf (hy : 1800 ≤ y ∧ y ≤ 2200) (h4 : (y + 4799) / 4 = qa)
    (h100 : (y + 4799) / 100 = qb) (h400 : (y + 4799) / 400 = qc)
    (hm : 1 ≤ m ∧ m ≤ 2) (hCm : (367 * (m + 9) + 7) / 12 = C) (hd : 1 ≤ d)
    (hval : validJF y d m) :
    calInvDV (argJF y qa qb qc C d) = 365 * y + qa + 1720954 := by
  have hval' := hval
  unfold validJF at hval'
  unfold calInvDV
  rw [invC_jf y qa qb qc C d m hy h4 h100 h400 hm hCm hd hval]
  omega

lemma invE_jf (hy : 1800 ≤ y ∧ y ≤ 2200) (h4 : (y + 4799) / 4 = qa)
    (h100 : (y + 4799) / 100 = qb) (h400 : (y + 4799) / 400 = qc)
    (hm : 1 ≤ m ∧ m ≤ 2) (hCm : (367 * (m + 9) + 7) / 12 = C) (hd : 1 ≤ d)
    (hval : validJF y d m) :
    calInvE (argJF y qa qb qc C d) = m + 13 := by
  unfold calInvE
  rw [invB_jf y qa qb qc C d m hy h4 h100 h400 hm hCm hd hval,
    invDV_jf y qa qb qc C d m hy h4 h100 h400 hm hCm hd hval]
  unfold validJF at hval
  obtain ⟨hm1, hm2⟩ := hm
  interval_cases m <;> omega

lemma invDay_jf (hy : 1800 ≤ y ∧ y ≤ 2200) (h4 : (y + 4799) / 4 = qa)
    (h100 : (y + 4799) / 100 = qb) (h400 : (y + 4799) / 400 = qc)
    (hm : 1 ≤ m ∧ m ≤ 2) (hCm : (367 * (m + 9) + 7) / 12 = C) (hd : 1 ≤ d)
    (hval : validJF y d m) :
    calInvDay (argJF y qa qb qc C d) = d := by
  unfold calInvDay
  rw [invB_jf y qa qb qc C d m hy h4 h100 h400 hm hCm hd hval,
    invDV_jf y qa qb qc C d m hy h4 h100 h400 hm hCm hd hval,
    invE_jf y qa qb qc C d m hy h4 h100 h400 hm hCm hd hval]
  unfold validJF at hval
  obtain ⟨hm1, hm2⟩ := hm
  interval_cases m <;> omega

lemma rt_jan_feb' (hy : 1800 ≤ y ∧ y ≤ 2200) (hm : 1 ≤ m ∧ m ≤ 2) (hd : 1 ≤ d)
    (hdm : d ≤ daysInMonth m y) :
    calIntInv (jdIntFwd m d y) = (y, m, d) := by
  have hval : validJF y d m := by
    unfold validJF
    unfold daysInMonth at hdm
    split_ifs at hdm <;> omega
  have hd31 : d ≤ 31 := by
    unfold validJF at hval; omega
  have hJ : jdIntFwd m d y =
      argJF y ((y + 4799) / 4) ((y + 4799) / 100) ((y + 4799) / 400)
        ((367 * (m + 9) + 7) / 12) d :=
    jdIntFwd_linear_jf y d m hy.1 hy.2 hm.1 hm.2 hd hd31
  have hE := invE_jf y ((y + 4799) / 4) ((y + 4799) / 100) ((y + 4799) / 400)
    ((367 * (m + 9) + 7) / 12) d m hy rfl rfl rfl hm rfl hd hval
  have hDay := invDay_jf y ((y + 4799) / 4) ((y + 4799) / 100) ((y + 4799) / 400)
    ((367 * (m + 9) + 7) / 12) d m hy rfl rfl rfl hm rfl hd hval
  have hCv := invC_jf y ((y + 4799) / 4) ((y + 4799) / 100) ((y + 4799) / 400)
    ((367 * (m + 9) + 7) / 12) d m hy rfl rfl rfl hm rfl hd hval
  have hMonA : calInvMon (argJF y ((y + 4799) / 4) ((y + 4799) / 100) ((y + 4799) / 400)
      ((367 * (m + 9) + 7) / 12) d) = m := by
    unfold calInvMon
    rw [hE]
    rw [if_neg (by omega)]
    omega
  have hYrA : calInvYr (argJF y ((y + 4799) / 4) ((y + 4799) / 100) ((y + 4799) / 400)
      ((367 * (m + 9) + 7) / 12) d) = y := by
    unfold calInvYr
    rw [hMonA, hCv]
    rw [if_neg (by omega)]
    ring
  unfold calIntInv
  rw [hJ, hYrA, hMonA, hDay]

end JanFeb

lemma floor_intCast_div_natCast_real' (p : ℤ) (q : ℕ) :
    ⌊(p : ℝ) / (q : ℝ)⌋ = p / (q : ℤ) := by
  rw [show ((p : ℝ) / (q : ℝ)) = (((p / q : ℚ)) : ℝ) by push_cast; ring]
  rw [Rat.floor_cast, Rat.floor_intCast_div_natCast]

lemma flDiv4 (p : ℤ) : ⌊(p : ℝ) / 4⌋ = p / 4 := by
  have h := floor_intCast_div_natCast_real' p 4
  norm_num at h
  exact h

lemma flDiv12 (p : ℤ) : ⌊(p : ℝ) / 12⌋ = p / 12 := by
  have h := floor_intCast_div_natCast_real' p 12
  norm_num at h
  exact h

lemma flDiv48 (p : ℤ) : ⌊(p : ℝ) / 48⌋ = p / 48 := by
  have h := floor_intCast_div_natCast_real' p 48
  norm_num at h
  exact h

lemma flDiv1200 (p : ℤ) : ⌊(p : ℝ) / 1200⌋ = p / 1200 := by
  have h := floor_intCast_div_natCast_real' p 1200
  norm_num at h
  exact h

lemma flDiv4800 (p : ℤ) : ⌊(p : ℝ) / 4800⌋ = p / 4800 := by
  have h := floor_intCast_div_natCast_real' p 4800
  norm_num at h
  exact h

lemma flAlpha (z : ℤ) : ⌊((z : ℝ) - 1867216.25) / 36524.25⌋ = (4 * z - 7468865) / 146097 := by
  rw [show ((z : ℝ) - 1867216.25) / 36524.25
      = ((4 * z - 7468865 : ℤ) : ℝ) / ((146097 : ℕ) : ℝ) by
    rw [div_eq_div_iff (by norm_num) (by norm_num)]
    push_cast
    ring]
  rw [floor_intCast_div_natCast_real']
  norm_num

lemma flC (b : ℤ) : ⌊((b : ℝ) - 122.1) / 365.25⌋ = (20 * b - 2442) / 7305 := by
  rw [show ((b : ℝ) - 122.1) / 365.25
      = ((20 * b - 2442 : ℤ) : ℝ) / ((7305 : ℕ) : ℝ) by
    rw [div_eq_div_iff (by norm_num) (by norm_num)]
    push_cast
    ring]
  rw [floor_intCast_div_natCast_real']
  norm_num

lemma flDV (c : ℤ) : ⌊365.25 * (c : ℝ)⌋ = 1461 * c / 4 := by
  rw [show (365.25 : ℝ) * (c : ℝ) = ((1461 * c : ℤ) : ℝ) / ((4 : ℕ) : ℝ) by
    push_cast
    ring]
  rw [floor_intCast_div_natCast_real']
  norm_num

lemma flE (x : ℤ) : ⌊(x : ℝ) / 30.6001⌋ = 10000 * x / 306001 := by
  rw [show (x : ℝ) / 30.6001 = ((10000 * x : ℤ) : ℝ) / ((306001 : ℕ) : ℝ) by
    rw [div_eq_div_iff (by norm_num) (by norm_num)]
    push_cast
    ring]
  rw [floor_intCast_div_natCast_real']
  norm_num

lemma flE30 (e : ℤ) : ⌊30.6001 * (e : ℝ)⌋ = 306001 * e / 10000 := by
  rw [show (30.6001 : ℝ) * (e : ℝ) = ((306001 * e : ℤ) : ℝ) / ((10000 : ℕ) : ℝ) by
    rw [eq_div_iff (by norm_num)]
    push_cast
    ring]
  rw [floor_intCast_div_natCast_real']
  norm_num
lemma convertMdyToJulian_int (m y d : ℤ) :
    convertMdyToJulian m (d : ℝ) y = ((jdIntFwd m d y : ℤ) : ℝ) - 0.5 := by
  simp only [convertMdyToJulian, jdIntFwd]
  rw [flDiv12, flDiv48, flDiv4800]
  rw [show (12 * (y + 4800) + m - 3 : ℤ) / 1200 = (12 * (y + 4800) + m - 3) / 1200 from rfl]
  rw [show ((12 * (y + 4800) + m - 3 : ℤ) : ℝ) / 1200 = ((12 * (y + 4800) + m - 3 : ℤ) : ℝ) / 1200 from rfl]
  rw [flDiv1200]
  have hnum : (2 * (((12 * (y + 4800) + m - 3 : ℤ) : ℝ)
        - (((12 * (y + 4800) + m - 3) / 12 : ℤ) : ℝ) * 12) + 7
        + 365 * ((12 * (y + 4800) + m - 3 : ℤ) : ℝ)) / 12
      = ((2 * ((12 * (y + 4800) + m - 3) - (12 * (y + 4800) + m - 3) / 12 * 12) + 7
          + 365 * (12 * (y + 4800) + m - 3) : ℤ) : ℝ) / 12 := by
    push_cast
    ring
  rw [hnum, flDiv12]
  have hjd : (((2 * ((12 * (y + 4800) + m - 3) - (12 * (y + 4800) + m - 3) / 12 * 12) + 7
        + 365 * (12 * (y + 4800) + m - 3)) / 12 : ℤ) : ℝ) + (d : ℝ)
        + (((12 * (y + 4800) + m - 3) / 48 : ℤ) : ℝ) - 32083
      = (((2 * ((12 * (y + 4800) + m - 3) - (12 * (y + 4800) + m - 3) / 12 * 12) + 7
          + 365 * (12 * (y + 4800) + m - 3)) / 12 + d
          + (12 * (y + 4800) + m - 3) / 48 - 32083 : ℤ) : ℝ) := by
    push_cast
    ring
  rw [hjd]
  by_cases hbr : ((2 * ((12 * (y + 4800) + m - 3) - (12 * (y + 4800) + m - 3) / 12 * 12) + 7
      + 365 * (12 * (y + 4800) + m - 3)) / 12 + d
      + (12 * (y + 4800) + m - 3) / 48 - 32083 : ℤ) > 2299171
  · rw [if_pos (by exact_mod_cast hbr), if_pos hbr]
    push_cast
    ring
  · rw [if_neg (by exact_mod_cast hbr), if_neg hbr]
lemma int_cast_lt_13p5 (e : ℤ) : ((e : ℝ) < 13.5) = (e < 14) := by
  apply propext
  constructor
  · intro h
    by_contra h'
    push_neg at h'
    have : (14 : ℝ) ≤ (e : ℝ) := by exact_mod_cast h'
    linarith
  · intro h
    have : (e : ℝ) ≤ 13 := by exact_mod_cast Int.lt_add_one_iff.mp h
    linarith

lemma int_cast_gt_2p5 (e : ℤ) : ((e : ℝ) > 2.5) = (e > 2) := by
  apply propext
  constructor
  · intro h
    by_contra h'
    push_neg at h'
    have : (e : ℝ) ≤ 2 := by exact_mod_cast h'
    linarith
  · intro h
    have : (3 : ℝ) ≤ (e : ℝ) := by exact_mod_cast h
    linarith

lemma convertJulianToDate_int (J : ℤ) (hJ : 2299161 ≤ J) :
    convertJulianToDate ((J : ℝ) - 0.5) =
      ⟨calInvYr J, calInvMon J, calInvDay J, 0, 0, 0⟩ := by
  simp only [convertJulianToDate]
  rw [show (J : ℝ) - 0.5 + 0.5 = (J : ℝ) by ring]
  rw [Int.floor_intCast]
  rw [if_neg (not_lt.mpr hJ)]
  rw [flAlpha, flDiv4]
  rw [show (J + 1 + (4 * J - 7468865) / 146097
        - (4 * J - 7468865) / 146097 / 4 + 1524 : ℤ) = calInvB J from rfl]
  rw [flC]
  rw [show ((20 * calInvB J - 2442) / 7305 : ℤ) = calInvC J from rfl]
  rw [flDV]
  rw [show (1461 * calInvC J / 4 : ℤ) = calInvDV J from rfl]
  rw [show ((calInvB J : ℤ) : ℝ) - ((calInvDV J : ℤ) : ℝ)
      = ((calInvB J - calInvDV J : ℤ) : ℝ) by push_cast; ring]
  rw [flE]
  rw [show (10000 * (calInvB J - calInvDV J) / 306001 : ℤ) = calInvE J from rfl]
  rw [flE30]
  rw [show ((calInvB J - calInvDV J : ℤ) : ℝ)
        - ((306001 * calInvE J / 10000 : ℤ) : ℝ) + ((J : ℝ) - (J : ℝ))
      = ((calInvDay J : ℤ) : ℝ) by
    simp only [calInvDay]
    push_cast
    ring]
  rw [Int.floor_intCast]
  simp only [int_cast_lt_13p5]
  rw [show (if calInvE J < 14 then calInvE J - 1 else calInvE J - 13 : ℤ)
      = calInvMon J from rfl]
  simp only [int_cast_gt_2p5]
  rw [show ((calInvDay J : ℝ) - (calInvDay J : ℝ)) * 24 = (0 : ℝ) by ring]
  norm_num
  simp only [calInvYr, gt_iff_lt]

lemma jdIntFwd_ge (y m d : ℤ) (hy1 : 1800 ≤ y) (hy2 : y ≤ 2200)
    (hm1 : 1 ≤ m) (hm2 : m ≤ 12) (hd1 : 1 ≤ d) (hd2 : d ≤ 31) :
    2299161 ≤ jdIntFwd m d y := by
  by_cases h3 : 3 ≤ m
  · rw [jdIntFwd_linear y m d hy1 hy2 h3 hm2 hd1 hd2]
    omega
  · push_neg at h3
    rw [jdIntFwd_linear_jf y d m hy1 hy2 hm1 (by omega) hd1 hd2]
    simp only [argJF]
    omega

lemma calIntInv_jdIntFwd (y m d : ℤ) (hy1 : 1800 ≤ y) (hy2 : y ≤ 2200)
    (hm1 : 1 ≤ m) (hm2 : m ≤ 12) (hd1 : 1 ≤ d) (hdm : d ≤ daysInMonth m y) :
    calIntInv (jdIntFwd m d y) = (y, m, d) := by
  by_cases h3 : 3 ≤ m
  · exact rt_mar_dec' y d m ⟨hy1, hy2⟩ ⟨h3, hm2⟩ hd1 hdm
  · exact rt_jan_feb' y d m ⟨hy1, hy2⟩ ⟨hm1, by omega⟩ hd1 hdm

lemma daysInMonth_le_31 (m y : ℤ) : daysInMonth m y ≤ 31 := by
  unfold daysInMonth
  split_ifs <;> omega

lemma julian_roundtrip_exact (m d y : ℤ)
    (hy1 : 1800 ≤ y) (hy2 : y ≤ 2200) (hm1 : 1 ≤ m) (hm2 : m ≤ 12)
    (hd1 : 1 ≤ d) (hdm : d ≤ daysInMonth m y) :
    convertJulianToDate (convertMdyToJulian m (d : ℝ) y) =
      ⟨y, m, d, 0, 0, 0⟩ := by
  have hd31 : d ≤ 31 := le_trans hdm (daysInMonth_le_31 m y)
  rw [convertMdyToJulian_int m y d]
  rw [convertJulianToDate_int (jdIntFwd m d y)
    (jdIntFwd_ge y m d hy1 hy2 hm1 hm2 hd1 hd31)]
  have h := calIntInv_jdIntFwd y m d hy1 hy2 hm1 hm2 hd1 hdm
  unfold calIntInv at h
  have h1 : calInvYr (jdIntFwd m d y) = y := congrArg Prod.fst h
  have h2 : calInvMon (jdIntFwd m d y) = m := congrArg Prod.fst (congrArg Prod.snd h)
  have h3 : calInvDay (jdIntFwd m d y) = d := congrArg Prod.snd (congrArg Prod.snd h)
  rw [h1, h2, h3]


/-- The empirical delta-T table (seconds per decade, 1620 to 2010), shared
verbatim by `computeDeltaT` and `PanchangUtils.dTime`. -/
def deltaTTable : List ℝ :=
  [124, 85, 62, 48, 37, 26, 16, 10, 9, 10, 11, 11, 12, 13, 15, 16, 17, 17,
   13.7, 12.5, 12, 7.5, 5.7, 7.1, 7.9, 1.6, -5.4, -5.9, -2.7, 10.5, 21.2, 24,
   24.3, 29.2, 33.2, 40.2, 50.5, 56.9, 65.7, 75.5]

/-- Table access `deltaTEmpiricalValues[i]`; the branch that uses it keeps
`i` inside the table. -/
noncomputable def deltaTAt (i : ℤ) : ℝ := deltaTTable.getD i.toNat 0

/-- Embedding of `computeDeltaT` (delta-T in hours).  The calendar date is
read back through the JS `Date` that `convertJulianToDate` constructs, so
`getFullYear()` applies the ECMAScript constructor rule mapping a year
argument between 0 and 99 to 1900 plus that year. -/
noncomputable def computeDeltaT (julianDate : ℝ) : ℝ :=
  let cal := convertJulianToDate julianDate
  let year : ℤ := if 0 ≤ cal.year ∧ cal.year ≤ 99 then 1900 + cal.year else cal.year
  let month : ℤ := cal.month
  let day : ℤ := cal.day
  let decimalYear : ℝ := (year : ℝ) + ((month : ℝ) - 1) / 12 + ((day : ℝ) - 1) / 365.25
  let julianCenturies : ℝ := (julianDate - 2378497) / 36525
  let deltaTSeconds : ℝ :=
    if 1620 ≤ decimalYear ∧ decimalYear < 2010 then
      let decadeIndex : ℤ := ⌊(decimalYear - 1620) / 10⌋
      let decadeFraction : ℝ := decimalYear - (1620 + (decadeIndex : ℝ) * 10)
      deltaTAt decadeIndex +
        ((deltaTAt (decadeIndex + 1) - deltaTAt decadeIndex) * decadeFraction) / 10
    else if 2010 ≤ decimalYear then
      25.5 * julianCenturies * julianCenturies - 39
    else if 948 ≤ decimalYear ∧ decimalYear < 1620 then
      25.5 * julianCenturies * julianCenturies
    else
      1361.7 + 320 * julianCenturies + 44.3 * julianCenturies * julianCenturies
  deltaTSeconds / 3600

/-! ### Free module: Kepler solver

Source loop:
```
let delta = 1;
while (Math.abs(delta) >= toleranceDegrees) {
  delta = (M + e*sin(E) - E) / (1 - e*cos(E));
  E += delta;
}
```
Fuel-based: `none` means the loop has not exited within `fuel` tests of the
guard.  The source has no iteration bound.
-/

noncomputable def solveKeplerGo (m ecc tol : ℝ) : ℕ → ℝ → ℝ → Option ℝ
  | 0, _, _ => none
  | n + 1, e0, delta =>
      if |delta| ≥ tol then
        let d : ℝ := (m + ecc * Real.sin e0 - e0) / (1 - ecc * Real.cos e0)
        solveKeplerGo m ecc tol n (e0 + d) d
      else some e0

/-- Embedding of `solveKepler` (identical source text to
`PanchangUtils.kepler`). -/
noncomputable def solveKepler (fuel : ℕ)
    (meanAnomaly eccentricity toleranceDegrees : ℝ) : Option ℝ :=
  let m : ℝ := meanAnomaly * DEG_TO_RAD
  let tol : ℝ := toleranceDegrees * DEG_TO_RAD
  solveKeplerGo m eccentricity tol fuel m 1

/-! ### Free module: nutation, ayanamsa, new moon -/

/-- Embedding of `computeNutation`.  The transcription preserves the source
quirks: the anomalies are first multiplied by `DEG_TO_RAD` (lines 252-256)
and then multiplied by `DEG_TO_RAD` once more inside most sine arguments,
and two arguments square the converted mean longitudes. -/
noncomputable def computeNutation (julianDate : ℝ) : ℝ :=
  let t : ℝ := (julianDate - 2415020) / 36525
  let t2 : ℝ := t * t
  let ls0 : ℝ := 279.6967 + 36000.7689 * t + 0.000303 * t2
  let l0 : ℝ := 270.4341639 + 481267.8831417 * t - 0.0011333333 * t2
  let ms0 : ℝ := 358.4758333333334 + 35999.04975 * t - 1.5e-4 * t2
  let ml0 : ℝ := 296.1046083333757 + 477198.8491083336 * t + 0.0091916667090522 * t2
  let d0 : ℝ := 350.7374861110581 + 445267.1142166667 * t - 1.436111132303874e-3 * t2
  let om : ℝ := 259.1832750002543 - 1934.142008333206 * t + 0.0020777778 * t2
  let ls : ℝ := ls0 * DEG_TO_RAD
  let l : ℝ := l0 * DEG_TO_RAD
  let ms : ℝ := ms0 * DEG_TO_RAD
  let ml : ℝ := ml0 * DEG_TO_RAD
  let dd : ℝ := d0 * DEG_TO_RAD
  let l2 : ℝ := l * l
  let ls2 : ℝ := ls * ls
  let nut : ℝ :=
    (-17.2327 - 0.01737 * t) * Real.sin (om * DEG_TO_RAD)
    + 0.2088 * Real.sin (2 * om * DEG_TO_RAD)
    + 0.0675 * Real.sin (ml * DEG_TO_RAD)
    - 0.0149 * Real.sin ((ml - dd) * DEG_TO_RAD)
    - 0.0342 * Real.sin ((l2 - om) * DEG_TO_RAD)
    + 0.0114 * Real.sin ((l2 - ml) * DEG_TO_RAD)
    - 0.2037 * Real.sin (l2 * DEG_TO_RAD)
    - 0.0261 * Real.sin ((l2 + ml) * DEG_TO_RAD)
    + 0.0124 * Real.sin ((ls2 - om) * DEG_TO_RAD)
    + 0.0214 * Real.sin ((ls2 - ms) * DEG_TO_RAD)
    - 1.2729 * Real.sin (ls2 * DEG_TO_RAD)
    - 0.0497 * Real.sin ((ls2 + ms) * DEG_TO_RAD)
    + 0.1261 * Real.sin (ms * DEG_TO_RAD)
  nut / 3600

/-- Embedding of `calculateAyanamsa`. -/
noncomputable def calculateAyanamsa (julianDate : ℝ) : ℝ :=
  let t : ℝ := (julianDate - 2415020) / 36525
  let om : ℝ :=
    259.183275 - 1934.142008333206 * t + 0.0020777778 * t * t
      + 0.0000022222222 * t * t * t
  let ls : ℝ := 279.696678 + 36000.76892 * t + 0.0003025 * t * t
  let aya : ℝ :=
    17.23 * Real.sin (om * DEG_TO_RAD) + 1.27 * Real.sin (2 * ls * DEG_TO_RAD)
      - (5025.64 + 1.11 * t) * t
  (aya - 80861.27) / 3600

/-- Embedding of `computeNewMoonJulian` (`novolun` in the namespace). -/
noncomputable def computeNewMoonJulian (julianDate lunationCount : ℝ) : ℝ :=
  let t : ℝ := (julianDate - 2415020) / 36525
  let t2 : ℝ := t * t
  let t3 : ℝ := t * t * t
  let jdnv0 : ℝ :=
    2415020.75933 + 29.53058868 * lunationCount + 0.0001178 * t2 - 0.000000155 * t3
  let jdnv : ℝ :=
    jdnv0 + 0.00033 * Real.sin ((166.56 + 132.87 * t - 0.009173 * t2) * DEG_TO_RAD)
  let m : ℝ :=
    (359.2242 + 29.10535608 * lunationCount - 0.0000333 * t2 - 0.00000347 * t3)
      * DEG_TO_RAD
  let ml : ℝ :=
    (306.0253 + 385.81691806 * lunationCount + 0.0107306 * t2 + 0.00001236 * t3)
      * DEG_TO_RAD
  let f : ℝ :=
    (21.2964 + 390.67050646 * lunationCount - 0.0016528 * t2 - 0.00000239 * t3)
      * DEG_TO_RAD
  let djd : ℝ :=
    (0.1734 - 0.000393 * t) * Real.sin m
    + 0.0021 * Real.sin (2 * m)
    - 0.4068 * Real.sin ml
    + 0.0161 * Real.sin (2 * ml)
    - 0.0004 * Real.sin (3 * ml)
    + 0.0104 * Real.sin (2 * f)
    - 0.0051 * Real.sin (m + ml)
    - 0.0074 * Real.sin (m - ml)
    + 0.0004 * Real.sin (2 * f + m)
    - 0.0004 * Real.sin (2 * f - m)
    - 0.0006 * Real.sin (2 * f + ml)
    + 0.001 * Real.sin (2 * f - ml)
    + 0.0005 * Real.sin (m + 2 * ml)
  jdnv + djd

/-! ### Moon correction tables (identical in both copies of the source) -/

/-- The 93 primary Moon correction terms, fields (mlcor, mscor, fcor, dcor, lcor).
The same values appear verbatim as `CORR_MOON` in `constants.ts` and as
`corrMoonData` in the namespace variant constants. -/
def corrMoonData : List (ℤ × ℤ × ℤ × ℤ × ℝ) :=
  [(0, 0, 0, 4, 13.902),
   (0, 0, 0, 2, 2369.912),
   (1, 0, 0, 4, 1.979),
   (1, 0, 0, 2, 191.953),
   (1, 0, 0, 0, 22639.5),
   (1, 0, 0, -2, -4586.465),
   (1, 0, 0, -4, -38.428),
   (1, 0, 0, -6, -0.393),
   (0, 1, 0, 4, -0.289),
   (0, 1, 0, 2, -24.42),
   (0, 1, 0, 0, -668.146),
   (0, 1, 0, -2, -165.145),
   (0, 1, 0, -4, -1.877),
   (0, 0, 0, 3, 0.403),
   (0, 0, 0, 1, -125.154),
   (2, 0, 0, 4, 0.213),
   (2, 0, 0, 2, 14.387),
   (2, 0, 0, 0, 769.016),
   (2, 0, 0, -2, -211.656),
   (2, 0, 0, -4, -30.773),
   (2, 0, 0, -6, -0.57),
   (1, 1, 0, 2, -2.921),
   (1, 1, 0, 0, -109.673),
   (1, 1, 0, -2, -205.962),
   (1, 1, 0, -4, -4.391),
   (1, -1, 0, 4, 0.283),
   (1, -1, 0, 2, 14.577),
   (1, -1, 0, 0, 147.687),
   (1, -1, 0, -2, 28.475),
   (1, -1, 0, -4, 0.636),
   (0, 2, 0, 2, -0.189),
   (0, 2, 0, 0, -7.486),
   (0, 2, 0, -2, -8.096),
   (0, 0, 2, 2, -5.741),
   (0, 0, 2, 0, -411.608),
   (0, 0, 2, -2, -55.173),
   (0, 0, 2, -4, 0.025),
   (1, 0, 0, 1, -8.466),
   (1, 0, 0, -1, 18.609),
   (1, 0, 0, -3, 3.215),
   (0, 1, 0, 1, 18.023),
   (0, 1, 0, -1, 0.56),
   (3, 0, 0, 2, 1.06),
   (3, 0, 0, 0, 36.124),
   (3, 0, 0, -2, -13.193),
   (3, 0, 0, -4, -1.187),
   (3, 0, 0, -6, -0.293),
   (2, 1, 0, 2, -0.29),
   (2, 1, 0, 0, -7.649),
   (2, 1, 0, -2, -8.627),
   (2, 1, 0, -4, -2.74),
   (2, -1, 0, 2, 1.181),
   (2, -1, 0, 0, 9.703),
   (2, -1, 0, -2, -2.494),
   (2, -1, 0, -4, 0.36),
   (1, 2, 0, 0, -1.167),
   (1, 2, 0, -2, -7.412),
   (1, 2, 0, -4, -0.311),
   (1, -2, 0, 2, 0.757),
   (1, -2, 0, 0, 2.58),
   (1, -2, 0, -2, 2.533),
   (0, 3, 0, -2, -0.344),
   (1, 0, 2, 2, -0.992),
   (1, 0, 2, 0, -45.099),
   (1, 0, 2, -2, -0.179),
   (1, 0, -2, 2, -6.382),
   (1, 0, -2, 0, 39.528),
   (1, 0, -2, -2, 9.366),
   (0, 1, 2, 0, 0.415),
   (0, 1, 2, -2, -2.152),
   (0, 1, -2, 2, -1.44),
   (0, 1, -2, -2, 0.384),
   (2, 0, 0, 1, -0.586),
   (2, 0, 0, -1, 1.75),
   (2, 0, 0, -3, 1.225),
   (1, 1, 0, 1, 1.267),
   (1, -1, 0, -1, -1.089),
   (0, 0, 2, -1, 0.584),
   (4, 0, 0, 0, 1.938),
   (4, 0, 0, -2, -0.952),
   (3, 1, 0, 0, -0.551),
   (3, 1, 0, -2, -0.482),
   (3, -1, 0, 0, 0.681),
   (2, 0, 2, 0, -3.996),
   (2, 0, 2, -2, 0.557),
   (2, 0, -2, 2, -0.459),
   (2, 0, -2, 0, -1.298),
   (2, 0, -2, -2, 0.538),
   (1, 1, -2, -2, 0.426),
   (1, -1, 2, 0, -0.304),
   (1, -1, -2, 2, -0.372),
   (0, 0, 4, 0, 0.418),
   (2, -1, 0, -1, -0.352)]

/-- The 27 secondary Moon correction terms, fields (l, ml, ms, f, d); shared
verbatim by both implementations. -/
def corrMoon2Data : List (ℝ × ℤ × ℤ × ℤ × ℤ) :=
  [(0.127, 0, 0, 0, 6),
   (-0.151, 0, 2, 0, -4),
   (-0.085, 0, 0, 2, 4),
   (0.15, 0, 1, 0, 3),
   (-0.091, 2, 1, 0, -6),
   (-0.103, 0, 3, 0, 0),
   (-0.301, 1, 0, 2, -4),
   (0.202, 1, 0, -2, -4),
   (0.137, 1, 1, 0, -1),
   (0.233, 1, 1, 0, -3),
   (-0.122, 1, -1, 0, 1),
   (-0.276, 1, -1, 0, -3),
   (0.255, 0, 0, 2, 1),
   (0.254, 0, 0, 2, -3),
   (-0.1, 3, 1, 0, -4),
   (-0.183, 3, -1, 0, -2),
   (-0.297, 2, 2, 0, -2),
   (-0.161, 2, 2, 0, -4),
   (0.197, 2, -2, 0, 0),
   (0.254, 2, -2, 0, -2),
   (-0.25, 1, 3, 0, -2),
   (-0.123, 2, 0, 2, 2),
   (0.173, 2, 0, -2, -4),
   (0.263, 1, 1, 2, 0),
   (0.13, 3, 0, 0, -1),
   (0.113, 5, 0, 0, 0),
   (0.092, 3, 0, 2, -2)]

/-! ### Free module: calculation context

`CalculationContext` is a record written and read by the free functions.
The initial values model the `?? fallback` defaults used at each read site
(`?? 1` for the angular velocity, `?? 0` elsewhere); every read in the
program happens after a write, so they are unobservable.
-/

structure Ctx where
  moonLongitudeForYoga : ℝ
  sunLongitudeForYoga : ℝ
  moonAngularVelocity : ℝ
  deltaT : ℝ
  ayanamsa : ℝ

def Ctx.init : Ctx := ⟨0, 0, 1, 0, 0⟩

/-! ### Free module: Moon longitude and angular velocity

`computeMoonLongitude` is transcribed as a record of its local variables
(`MoonAngles`), the two table folds, and the final assembly.  The unused
local `obliquity` of the source is omitted.
-/

structure MoonAngles where
  ml : ℝ
  ms : ℝ
  f : ℝ
  dd : ℝ
  i1corr : ℝ
  i2corr : ℝ
  dlm : ℝ
  l0 : ℝ
  dlid : ℝ

/-- Local variables of `computeMoonLongitude` (lines 395-530 and 562-586):
the mean elements, the nine long-period angle terms, the two-stage
refinement of the anomalies, and the planetary perturbation sum. -/
noncomputable def moonAngles (jd : ℝ) : MoonAngles :=
  let tdays : ℝ := jd - 2415020
  let t : ℝ := tdays / 36525
  let t2 : ℝ := t * t
  let t3 : ℝ := t * t * t
  let l0 : ℝ :=
    270.4337361 + 13.176396544528099 * tdays - (5.86 * t2) / 3600 + (0.0068 * t3) / 3600
  let d0 : ℝ :=
    350.7374861110581 + 445267.1142166667 * t - 1.436111132303874e-3 * t2
      + 0.0000018888889 * t3
  let pe : ℝ :=
    334.329556 + (14648522.52 * t) / 3600 - (37.17 * t2) / 3600 - (0.045 * t3) / 3600
  let ms0 : ℝ :=
    358.4758333333334 + 35999.04975 * t - 1.500000059604645e-4 * t2
      - 3.3333333623078e-6 * t3
  let ml0 : ℝ := normalizeAngle (l0 - pe)
  let om : ℝ :=
    259.183275 - (6962911.23 * t) / 3600 + (7.48 * t2) / 3600 + (0.008 * t3) / 3600
  let f0 : ℝ := normalizeAngle (l0 - om)
  let r2rad : ℝ := 360.0 * DEG_TO_RAD
  let tb : ℝ := tdays * 1e-12
  let t2c : ℝ := tdays * tdays * 1e-16
  let a1 : ℝ := Real.sin (r2rad * (0.53733431 - 10104982 * tb + 191 * t2c))
  let a2 : ℝ := Real.sin (r2rad * (0.71995354 - 147094228 * tb + 43 * t2c))
  let c2 : ℝ := Real.cos (r2rad * (0.71995354 - 147094228 * tb + 43 * t2c))
  let a3 : ℝ := Real.sin (r2rad * (0.14222222 + 1536238 * tb))
  let a4 : ℝ := Real.sin (r2rad * (0.48398132 - 147269147 * tb + 43 * t2c))
  let c4 : ℝ := Real.cos (r2rad * (0.48398132 - 147269147 * tb + 43 * t2c))
  let a5 : ℝ := Real.sin (r2rad * (0.52453688 - 147162675 * tb + 43 * t2c))
  let a6 : ℝ := Real.sin (r2rad * (0.84536324 - 11459387 * tb))
  let a7 : ℝ := Real.sin (r2rad * (0.23363774 + 1232723 * tb + 191 * t2c))
  let a8 : ℝ := Real.sin (r2rad * (0.5875 + 9050118 * tb))
  let a9 : ℝ := Real.sin (r2rad * (0.61043085 - 67718733 * tb))
  let dlm : ℝ :=
    0.84 * a3 + 0.31 * a7 + 14.27 * a1 + 7.261 * a2 + 0.282 * a4 + 0.237 * a6
  let dpm : ℝ := -2.1 * a3 - 2.076 * a2 - 0.84 * a4 - 0.593 * a6
  let dkm : ℝ := 0.63 * a3 + 95.96 * a2 + 15.58 * a4 + 1.86 * a5
  let dls : ℝ := -6.4 * a3 - 0.27 * a8 - 1.89 * a6 + 0.2 * a9
  let dgc0 : ℝ := (-4.318 * c2 - 0.698 * c4) / (3600.0 * 360.0)
  let dgc : ℝ := 1.000002708 + 139.978 * dgc0
  let dlid : ℝ :=
    0.822 * Real.sin (r2rad * (0.3248 - 0.0017125594 * tdays))
    + 0.307 * Real.sin (r2rad * (0.14905 - 0.0034251187 * tdays))
    + 0.348 * Real.sin (r2rad * (0.68266 - 0.0006873156 * tdays))
    + 0.662 * Real.sin (r2rad * (0.65162 + 0.0365724168 * tdays))
    + 0.643 * Real.sin (r2rad * (0.88098 - 0.0025069941 * tdays))
    + 1.137 * Real.sin (r2rad * (0.85823 + 0.036448727 * tdays))
    + 0.436 * Real.sin (r2rad * (0.71892 + 0.036217918 * tdays))
    + 0.327 * Real.sin (r2rad * (0.97639 + 0.000173491 * tdays))
  { ml := DEG_TO_RAD * (ml0 + (dlm - dpm) / 3600.0)
    ms := DEG_TO_RAD * (ms0 + dls / 3600.0)
    f := DEG_TO_RAD * (f0 + (dlm - dkm) / 3600.0)
    dd := DEG_TO_RAD * (d0 + (dlm - dls) / 3600.0)
    i1corr := 1.0 - 6.832e-8 * tdays
    i2corr := dgc * dgc
    dlm := dlm
    l0 := l0
    dlid := dlid }

/-- The first correction fold of the free module (condition written as
`Math.abs(corr.mscor) === 2`). -/
noncomputable def corrMoonSumFree (A : MoonAngles) : ℝ :=
  corrMoonData.foldl
    (fun acc c =>
      let arg : ℝ :=
        (c.1 : ℝ) * A.ml + (c.2.1 : ℝ) * A.ms + (c.2.2.1 : ℝ) * A.f
          + (c.2.2.2.1 : ℝ) * A.dd
      let s0 : ℝ := Real.sin arg
      let s1 : ℝ :=
        if c.2.1 ≠ 0 then
          (if |c.2.1| = 2 then s0 * A.i1corr * A.i1corr else s0 * A.i1corr)
        else s0
      let s2 : ℝ := if c.2.2.1 ≠ 0 then s1 * A.i2corr else s1
      acc + c.2.2.2.2 * s2)
    0

/-- The second correction fold, shared verbatim by both copies. -/
noncomputable def corrMoon2Sum (A : MoonAngles) : ℝ :=
  corrMoon2Data.foldl
    (fun acc c =>
      let arg : ℝ :=
        (c.2.1 : ℝ) * A.ml + (c.2.2.1 : ℝ) * A.ms + (c.2.2.2.1 : ℝ) * A.f
          + (c.2.2.2.2 : ℝ) * A.dd
      acc + c.1 * Real.sin arg)
    0

/-- The unnormalized Moon longitude of the free module (the value stored
into `moonLongitudeForYoga`). -/
noncomputable def moonLongitudeRaw (jd : ℝ) : ℝ :=
  let A := moonAngles jd
  A.l0 + computeNutation jd + (A.dlm + corrMoonSumFree A + corrMoon2Sum A + A.dlid) / 3600.0

/-- The Moon angular velocity series of the free module (lines 602-667),
stored into `moonAngularVelocity`. -/
noncomputable def moonVelocity (jd : ℝ) : ℝ :=
  let A := moonAngles jd
  13.176397
  + 1.434006 * Real.cos A.ml
  + 0.280135 * Real.cos (2 * A.dd)
  + 0.251632 * Real.cos (2 * A.dd - A.ml)
  + 0.09742 * Real.cos (2 * A.ml)
  - 0.052799 * Real.cos (2 * A.f)
  + 0.034848 * Real.cos (2 * A.dd + A.ml)
  + 0.018732 * Real.cos (2 * A.dd - A.ms)
  + 0.010316 * Real.cos (2 * A.dd - A.ms - A.ml)
  + 0.008649 * Real.cos (A.ms - A.ml)
  - 0.008642 * Real.cos (2 * A.f + A.ml)
  - 0.007471 * Real.cos (A.ms + A.ml)
  - 0.007387 * Real.cos A.dd
  + 0.006864 * Real.cos (3 * A.ml)
  + 0.00665 * Real.cos (4 * A.dd - A.ml)
  + 0.003523 * Real.cos (2 * A.dd + 2 * A.ml)
  + 0.003377 * Real.cos (4 * A.dd - 2 * A.ml)
  + 0.003287 * Real.cos (4 * A.dd)
  - 0.003193 * Real.cos A.ms
  - 0.003003 * Real.cos (2 * A.dd + A.ms)
  + 0.002577 * Real.cos (A.ml - A.ms + 2 * A.dd)
  - 0.002567 * Real.cos (2 * A.f - A.ml)
  - 0.001794 * Real.cos (2 * A.dd - 2 * A.ml)
  - 0.001716 * Real.cos (A.ml - 2 * A.f - 2 * A.dd)
  - 0.001698 * Real.cos (2 * A.dd + A.ms - A.ml)
  - 0.001415 * Real.cos (2 * A.dd + 2 * A.f)
  + 0.001183 * Real.cos (2 * A.ml - A.ms)
  + 0.00115 * Real.cos (A.dd + A.ms)
  - 0.001035 * Real.cos (A.dd + A.ml)
  - 0.001019 * Real.cos (2 * A.f + 2 * A.ml)
  - 0.001006 * Real.cos (A.ms + 2 * A.ml)

/-- Embedding of `computeMoonLongitude`: returns the normalized longitude
and the context updated with `moonLongitudeForYoga` and
`moonAngularVelocity`. -/
noncomputable def computeMoonLongitude (jd : ℝ) (ctx : Ctx) : ℝ × Ctx :=
  let lraw : ℝ := moonLongitudeRaw jd
  (normalizeAngle lraw,
    { ctx with moonLongitudeForYoga := lraw, moonAngularVelocity := moonVelocity jd })

/-! ### Free module: Sun longitude

`computeSunLongitude` contains the Kepler call, so it inherits the fuel
parameter; `none` propagates a Kepler loop that did not exit.  The unused
locals (`nodeLongitude`, `moonLongitudeForCorr`, `moonAnomalyForCorr`,
`alternateSunLongitude`, `correctedNodeLongitude`) are omitted.  Note the
source quirk kept here: the orbital radius uses
`Math.cos(trueAnomaly * DEG_TO_RAD)` where `trueAnomaly` is already in
radians (the namespace twin uses the degree-valued variable instead).
-/

noncomputable def computeSunLongitude (fuel : ℕ) (jd : ℝ) (ctx : Ctx) :
    Option (ℝ × Ctx) :=
  let tdays : ℝ := jd - 2415020
  let t : ℝ := tdays / 36525
  let t2 : ℝ := t * t
  let t3 : ℝ := t * t * t
  let ls0 : ℝ := 279.696678 + 0.9856473354 * tdays + (1.089 * t2) / 3600
  let pes : ℝ :=
    101.220833 + (6189.03 * t) / 3600 + (1.63 * t2) / 3600 + (0.012 * t3) / 3600
  let ms : ℝ := normalizeAngle (ls0 - pes + 180)
  let g : ℝ :=
    ms +
      (0.266 * Real.sin ((31.8 + 119.0 * t) * DEG_TO_RAD)
        + 6.4 * Real.sin ((231.19 + 20.2 * t) * DEG_TO_RAD)
        + (1.882 - 0.016 * t) * Real.sin ((57.24 + 150.27 * t) * DEG_TO_RAD)) / 3600
  let ex : ℝ := 0.01675104 - 0.0000418 * t - 0.000000126 * t2
  match solveKepler fuel g ex 0.0000003 with
  | none => none
  | some u =>
      let b : ℝ := Real.sqrt ((1 + ex) / (1 - ex))
      let truanom : ℝ :=
        if |Real.pi - u| < 1.0e-10 then u else 2.0 * Real.arctan (b * Real.tan (u / 2))
      let truanomDeg : ℝ := normalizeAngle (truanom * RAD_TO_DEG)
      let u1 : ℝ := (153.23 + 22518.7541 * t) * DEG_TO_RAD
      let u2 : ℝ := (216.57 + 45037.5082 * t) * DEG_TO_RAD
      let u3 : ℝ := (312.69 + 32964.3577 * t) * DEG_TO_RAD
      let u4 : ℝ := (350.74 + 445267.1142 * t - 0.00144 * t2) * DEG_TO_RAD
      let u6 : ℝ := (353.4 + 65928.7155 * t) * DEG_TO_RAD
      let u5 : ℝ := (315.6 + 893.3 * t) * DEG_TO_RAD
      let dl : ℝ :=
        0.00134 * Real.cos u1 + 0.00154 * Real.cos u2 + 0.002 * Real.cos u3
          + 0.00179 * Real.sin u4 + (0.202 * Real.sin u5) / 3600
      let dr : ℝ :=
        0.00000543 * Real.sin u1 + 0.00001575 * Real.sin u2 + 0.00001627 * Real.sin u3
          + 0.00003076 * Real.cos u4 + 9.27e-6 * Real.sin u6
      let il : ℝ := ls0 + dl + truanomDeg - ms
      let r1 : ℝ :=
        (1.0000002 * (1 - ex * ex)) / (1 + ex * Real.cos (truanom * DEG_TO_RAD))
      let rs : ℝ := r1 + dr
      let ab : ℝ := (20.496 * (1 - ex * ex)) / (rs * 3600)
      let lsFinal : ℝ := il + computeNutation jd - ab
      some (normalizeAngle lsFinal, { ctx with sunLongitudeForYoga := lsFinal })

/-! ### Namespace variant: state and scalar helpers

The module-level mutable variables of `PanchangUtils` (lines 1185-1193 and
1733): `LmoonYoga`, `LsunYoga`, `dt`, `kyear`, `kmon`, `kday`, `ayanamsa`
and `skor`, all initialized to `0`.  `skor` is declared as "a global value
computed by the moon() function" but no statement in the source ever
assigns it.
-/

structure PUState where
  LmoonYoga : ℝ
  LsunYoga : ℝ
  dt : ℝ
  kyear : ℤ
  kmon : ℤ
  kday : ℤ
  ayanamsa : ℝ
  skor : ℝ

/-- The initial values of the module-level variables. -/
def PUState.init : PUState := ⟨0, 0, 0, 0, 0, 0, 0, 0⟩

namespace PanchangUtils

/-- Embedding of `PanchangUtils.mdy2julian` (source text identical to
`convertMdyToJulian`). -/
noncomputable def mdy2julian (m : ℤ) (d : ℝ) (y : ℤ) : ℝ :=
  let im : ℤ := 12 * (y + 4800) + m - 3
  let j0 : ℝ := (2 * ((im : ℝ) - (⌊(im : ℝ) / 12⌋ : ℝ) * 12) + 7 + 365 * (im : ℝ)) / 12
  let j : ℝ := (⌊j0⌋ : ℝ) + d + (⌊(im : ℝ) / 48⌋ : ℝ) - 32083
  let j' : ℝ :=
    if j > 2299171 then j + (⌊(im : ℝ) / 4800⌋ : ℝ) - (⌊(im : ℝ) / 1200⌋ : ℝ) + 38
    else j
  j' - 0.5

/-- The pure calendar part of `PanchangUtils.calData` (source text identical
to `convertJulianToDate`); the state wrapper below also records the
`kyear`, `kmon`, `kday` writes. -/
noncomputable def calDataFields (jd : ℝ) : CivilDate :=
  let z1 : ℝ := jd + 0.5
  let z2 : ℤ := ⌊z1⌋
  let f : ℝ := z1 - (z2 : ℝ)
  let a : ℤ :=
    if z2 < 2299161 then z2
    else
      let alf : ℤ := ⌊((z2 : ℝ) - 1867216.25) / 36524.25⌋
      z2 + 1 + alf - ⌊(alf : ℝ) / 4⌋
  let b : ℤ := a + 1524
  let c : ℤ := ⌊((b : ℝ) - 122.1) / 365.25⌋
  let dVal : ℤ := ⌊365.25 * (c : ℝ)⌋
  let e : ℤ := ⌊((b : ℝ) - (dVal : ℝ)) / 30.6001⌋
  let days : ℝ := (b : ℝ) - (dVal : ℝ) - (⌊30.6001 * (e : ℝ)⌋ : ℝ) + f
  let kday : ℤ := ⌊days⌋
  let kmon : ℤ := if (e : ℝ) < 13.5 then e - 1 else e - 13
  let kyear : ℤ := if (kmon : ℝ) > 2.5 then c - 4716 else c - 4715
  let fractionalHours : ℝ := (days - (kday : ℝ)) * 24
  let hr : ℤ := ⌊fractionalHours⌋
  let fractionalMinutes : ℝ := (fractionalHours - (hr : ℝ)) * 60
  let min : ℤ := ⌊fractionalMinutes⌋
  let sec : ℤ := ⌊(fractionalMinutes - (min : ℝ)) * 60⌋
  ⟨kyear, kmon, kday, hr, min, sec⟩

/-- Embedding of `PanchangUtils.calData` with its writes to the globals
`kyear`, `kmon`, `kday`. -/
noncomputable def calData (jd : ℝ) (s : PUState) : CivilDate × PUState :=
  let cd := calDataFields jd
  (cd, { s with kyear := cd.year, kmon := cd.month, kday := cd.day })

/-- The value computed by `PanchangUtils.dTime` (it reads `kyear`, `kmon`,
`kday` immediately after its own `calData` call wrote them, so the value is
a pure function of `jd`). -/
noncomputable def dTimeVal (jd : ℝ) : ℝ :=
  let cd := calDataFields jd
  let dgod : ℝ := (cd.year : ℝ) + ((cd.month : ℝ) - 1) / 12 + ((cd.day : ℝ) - 1) / 365.25
  let t : ℝ := (jd - 2378497) / 36525
  let dtVal : ℝ :=
    if 1620 ≤ dgod ∧ dgod < 2010 then
      let i1 : ℤ := ⌊(dgod - 1620) / 10⌋
      let di : ℝ := dgod - (1620 + (i1 : ℝ) * 10)
      deltaTAt i1 + ((deltaTAt (i1 + 1) - deltaTAt i1) * di) / 10
    else if 2010 ≤ dgod then 25.5 * t * t - 39
    else if 948 ≤ dgod ∧ dgod < 1620 then 25.5 * t * t
    else 1361.7 + 320 * t + 44.3 * t * t
  dtVal / 3600

/-- Embedding of `PanchangUtils.dTime` with the state effect of its
internal `calData` call. -/
noncomputable def dTime (jd : ℝ) (s : PUState) : ℝ × PUState :=
  (dTimeVal jd, (calData jd s).2)

/-- Embedding of `PanchangUtils.weekDay` (source text identical to
`getWeekdayIndex`). -/
noncomputable def weekDay (jd : ℝ) : ℤ :=
  let jd0 : ℝ := (⌊jd⌋ : ℝ) + 0.5
  let jd0' : ℝ := if jd < jd0 then jd0 - 1 else jd0
  let jdn : ℝ := jd0' + 1.5
  let dn1 : ℝ := (⌊jdn / 7⌋ : ℝ) * 7
  ⌊jdn - dn1⌋

/-- Embedding of `PanchangUtils.kepler` (source text identical to
`solveKepler`). -/
noncomputable def keplerGo (m ex err : ℝ) : ℕ → ℝ → ℝ → Option ℝ
  | 0, _, _ => none
  | n + 1, u0, delta =>
      if |delta| ≥ err then
        let d : ℝ := (m + ex * Real.sin u0 - u0) / (1 - ex * Real.cos u0)
        keplerGo m ex err n (u0 + d) d
      else some u0

noncomputable def kepler (fuel : ℕ) (m ex err : ℝ) : Option ℝ :=
  let m' : ℝ := m * DEG_TO_RAD
  let err' : ℝ := err * DEG_TO_RAD
  keplerGo m' ex err' fuel m' 1

/-- Embedding of `PanchangUtils.nutation`.  Unlike the free twin, all six
angles (including the ascending node) are converted to radians once and the
sine arguments are used directly; the fourth term reads `sin(ml - d * d)`
with the elongation squared, and the solar anomaly rate constant is
`35999.04974999958` (the free twin has `35999.04975`). -/
noncomputable def nutation (jd : ℝ) : ℝ :=
  let t : ℝ := (jd - 2415020) / 36525
  let t2 : ℝ := t * t
  let ls : ℝ := (279.6967 + 36000.7689 * t + 0.000303 * t2) * DEG_TO_RAD
  let l : ℝ := (270.4341639 + 481267.8831417 * t - 0.0011333333 * t2) * DEG_TO_RAD
  let ms : ℝ := (358.4758333333334 + 35999.04974999958 * t - 1.5e-4 * t2) * DEG_TO_RAD
  let ml : ℝ :=
    (296.1046083333757 + 477198.8491083336 * t + 0.0091916667090522 * t2) * DEG_TO_RAD
  let d : ℝ :=
    (350.7374861110581 + 445267.1142166667 * t - 1.436111132303874e-3 * t2) * DEG_TO_RAD
  let om : ℝ :=
    (259.1832750002543 - 1934.142008333206 * t + 0.0020777778 * t2) * DEG_TO_RAD
  let l2 : ℝ := l * l
  let ls2 : ℝ := ls * ls
  let nut : ℝ :=
    (-17.2327 - 0.01737 * t) * Real.sin om
    + 0.2088 * Real.sin (2 * om)
    + 0.0675 * Real.sin ml
    - 0.0149 * Real.sin (ml - d * d)
    - 0.0342 * Real.sin (l2 - om)
    + 0.0114 * Real.sin (l2 - ml)
    - 0.2037 * Real.sin l2
    - 0.0261 * Real.sin (l2 + ml)
    + 0.0124 * Real.sin (ls2 - om)
    + 0.0214 * Real.sin (ls2 - ms)
    - 1.2729 * Real.sin ls2
    - 0.0497 * Real.sin (ls2 + ms)
    + 0.1261 * Real.sin ms
  nut / 3600

/-- Embedding of `PanchangUtils.calcayan` (source text identical to
`calculateAyanamsa`). -/
noncomputable def calcayan (jd : ℝ) : ℝ :=
  let t : ℝ := (jd - 2415020) / 36525
  let om : ℝ :=
    259.183275 - 1934.142008333206 * t + 0.0020777778 * t * t
      + 0.0000022222222 * t * t * t
  let ls : ℝ := 279.696678 + 36000.76892 * t + 0.0003025 * t * t
  let aya : ℝ :=
    17.23 * Real.sin (DEG_TO_RAD * om) + 1.27 * Real.sin (DEG_TO_RAD * ls * 2)
      - (5025.64 + 1.11 * t) * t
  (aya - 80861.27) / 3600

/-- Embedding of `PanchangUtils.novolun` (source text identical to
`computeNewMoonJulian`). -/
noncomputable def novolun (jd knv : ℝ) : ℝ :=
  let t : ℝ := (jd - 2415020) / 36525
  let t2 : ℝ := t * t
  let t3 : ℝ := t * t2
  let jdnv0 : ℝ :=
    2415020.75933 + 29.53058868 * knv + 0.0001178 * t2 - 0.000000155 * t3
  let jdnv : ℝ :=
    jdnv0 + 0.00033 * Real.sin ((166.56 + 132.87 * t - 0.009173 * t2) * DEG_TO_RAD)
  let m : ℝ :=
    (359.2242 + 29.10535608 * knv - 0.0000333 * t2 - 0.00000347 * t3) * DEG_TO_RAD
  let ml : ℝ :=
    (306.0253 + 385.81691806 * knv + 0.0107306 * t2 + 0.00001236 * t3) * DEG_TO_RAD
  let f : ℝ :=
    (21.2964 + 390.67050646 * knv - 0.0016528 * t2 - 0.00000239 * t3) * DEG_TO_RAD
  let djd : ℝ :=
    (0.1734 - 0.000393 * t) * Real.sin m
    + 0.0021 * Real.sin (2 * m)
    - 0.4068 * Real.sin ml
    + 0.0161 * Real.sin (2 * ml)
    - 0.0004 * Real.sin (3 * ml)
    + 0.0104 * Real.sin (2 * f)
    - 0.0051 * Real.sin (m + ml)
    - 0.0074 * Real.sin (m - ml)
    + 0.0004 * Real.sin (2 * f + m)
    - 0.0004 * Real.sin (2 * f - m)
    - 0.0006 * Real.sin (2 * f + ml)
    + 0.001 * Real.sin (2 * f - ml)
    + 0.0005 * Real.sin (m + 2 * ml)
  jdnv + djd

end PanchangUtils

namespace PanchangUtils

/-- Local variables of `PanchangUtils.moon` (lines 1362-1429 and 1463-1470).
Differences from the free twin `moonAngles`, kept faithfully: the solar
anomaly polynomial uses rate `35999.04974999958` and quadratic term
`1.5e-4` (free twin: `35999.04975` and `1.500000059604645e-4`), and the
elongation cubic term is `1.888889e-6` (free twin: `0.0000018888889`). -/
noncomputable def nsMoonAngles (jd : ℝ) : MoonAngles :=
  let tdays : ℝ := jd - 2415020
  let t : ℝ := tdays / 36525
  let t2 : ℝ := t * t
  let t3 : ℝ := t2 * t
  let l0 : ℝ :=
    270.4337361 + 13.176396544528099 * tdays - (5.86 * t2) / 3600 + (0.0068 * t3) / 3600
  let d0 : ℝ :=
    350.7374861110581 + 445267.1142166667 * t - 1.436111132303874e-3 * t2
      + 1.888889e-6 * t3
  let pe : ℝ :=
    334.329556 + (14648522.52 * t) / 3600 - (37.17 * t2) / 3600 - (0.045 * t3) / 3600
  let ms0 : ℝ :=
    358.4758333333334 + 35999.04974999958 * t - 1.5e-4 * t2 - 3.3333333623078e-6 * t3
  let ml0 : ℝ := fix360 (l0 - pe)
  let om : ℝ :=
    259.183275 - (6962911.23 * t) / 3600 + (7.48 * t2) / 3600 + (0.008 * t3) / 3600
  let f0 : ℝ := fix360 (l0 - om)
  let r2rad : ℝ := 360 * DEG_TO_RAD
  let tb : ℝ := tdays * 1e-12
  let t2c : ℝ := tdays * tdays * 1e-16
  let a1 : ℝ := Real.sin (r2rad * (0.53733431 - 10104982 * tb + 191 * t2c))
  let a2 : ℝ := Real.sin (r2rad * (0.71995354 - 147094228 * tb + 43 * t2c))
  let c2 : ℝ := Real.cos (r2rad * (0.71995354 - 147094228 * tb + 43 * t2c))
  let a3 : ℝ := Real.sin (r2rad * (0.14222222 + 1536238 * tb))
  let a4 : ℝ := Real.sin (r2rad * (0.48398132 - 147269147 * tb + 43 * t2c))
  let c4 : ℝ := Real.cos (r2rad * (0.48398132 - 147269147 * tb + 43 * t2c))
  let a5 : ℝ := Real.sin (r2rad * (0.52453688 - 147162675 * tb + 43 * t2c))
  let a6 : ℝ := Real.sin (r2rad * (0.84536324 - 11459387 * tb))
  let a7 : ℝ := Real.sin (r2rad * (0.23363774 + 1232723 * tb + 191 * t2c))
  let a8 : ℝ := Real.sin (r2rad * (0.5875 + 9050118 * tb))
  let a9 : ℝ := Real.sin (r2rad * (0.61043085 - 67718733 * tb))
  let dlm : ℝ :=
    0.84 * a3 + 0.31 * a7 + 14.27 * a1 + 7.261 * a2 + 0.282 * a4 + 0.237 * a6
  let dpm : ℝ := -2.1 * a3 - 2.076 * a2 - 0.84 * a4 - 0.593 * a6
  let dkm : ℝ := 0.63 * a3 + 95.96 * a2 + 15.58 * a4 + 1.86 * a5
  let dls : ℝ := -6.4 * a3 - 0.27 * a8 - 1.89 * a6 + 0.2 * a9
  let dgc0 : ℝ := (-4.318 * c2 - 0.698 * c4) / (3600 * 360)
  let dgc : ℝ := 1.000002708 + 139.978 * dgc0
  let dlid : ℝ :=
    0.822 * Real.sin (r2rad * (0.3248 - 0.0017125594 * tdays))
    + 0.307 * Real.sin (r2rad * (0.14905 - 0.0034251187 * tdays))
    + 0.348 * Real.sin (r2rad * (0.68266 - 0.0006873156 * tdays))
    + 0.662 * Real.sin (r2rad * (0.65162 + 0.0365724168 * tdays))
    + 0.643 * Real.sin (r2rad * (0.88098 - 0.0025069941 * tdays))
    + 1.137 * Real.sin (r2rad * (0.85823 + 0.036448727 * tdays))
    + 0.436 * Real.sin (r2rad * (0.71892 + 0.036217918 * tdays))
    + 0.327 * Real.sin (r2rad * (0.97639 + 0.000173491 * tdays))
  { ml := DEG_TO_RAD * (ml0 + (dlm - dpm) / 3600)
    ms := DEG_TO_RAD * (ms0 + dls / 3600)
    f := DEG_TO_RAD * (f0 + (dlm - dkm) / 3600)
    dd := DEG_TO_RAD * (d0 + (dlm - dls) / 3600)
    i1corr := 1.0 - 6.832e-8 * tdays
    i2corr := dgc * dgc
    dlm := dlm
    l0 := l0
    dlid := dlid }

/-- The first correction fold of the namespace variant (condition written as
`mscor === 2 || mscor === -2`; the loop runs over indices 0..92, which is
the whole 93-element table). -/
noncomputable def corrMoonSumNS (A : MoonAngles) : ℝ :=
  corrMoonData.foldl
    (fun acc c =>
      let arg : ℝ :=
        (c.1 : ℝ) * A.ml + (c.2.1 : ℝ) * A.ms + (c.2.2.1 : ℝ) * A.f
          + (c.2.2.2.1 : ℝ) * A.dd
      let s0 : ℝ := Real.sin arg
      let s1 : ℝ :=
        if c.2.1 ≠ 0 then
          (if c.2.1 = 2 ∨ c.2.1 = -2 then s0 * A.i1corr * A.i1corr else s0 * A.i1corr)
        else s0
      let s2 : ℝ := if c.2.2.1 ≠ 0 then s1 * A.i2corr else s1
      acc + c.2.2.2.2 * s2)
    0

/-- The unnormalized Moon longitude of the namespace variant (the value
stored into `LmoonYoga`).  Unlike the free twin there is no angular
velocity computation here at all: `skor` is untouched. -/
noncomputable def moonRaw (jd : ℝ) : ℝ :=
  let A := nsMoonAngles jd
  A.l0 + nutation jd + (A.dlm + corrMoonSumNS A + corrMoon2Sum A + A.dlid) / 3600

/-- Embedding of `PanchangUtils.moon` with its write to `LmoonYoga`. -/
noncomputable def moon (jd : ℝ) (s : PUState) : ℝ × PUState :=
  (fix360 (moonRaw jd), { s with LmoonYoga := moonRaw jd })

/-- Embedding of `PanchangUtils.sun` with its write to `LsunYoga`.
Differences from the free twin, kept faithfully: the `u6` angle rate is
`65928.71550000001` (free twin: `65928.7155`), the orbital radius uses the
degree-valued true anomaly (the free twin feeds the radian value into the
same `cos(x * DEG_TO_RAD)` expression), and the namespace `nutation` is
used.  The unused locals (`oms`, `l_dummy`, `ml_dummy`, `le`, `om`) are
omitted. -/
noncomputable def sun (fuel : ℕ) (jd : ℝ) (s : PUState) : Option (ℝ × PUState) :=
  let tdays : ℝ := jd - 2415020
  let t : ℝ := tdays / 36525
  let t2 : ℝ := t * t
  let ls0 : ℝ := 279.696678 + 0.9856473354 * tdays + (1.089 * t2) / 3600
  let t3 : ℝ := t * t2
  let pes : ℝ :=
    101.220833 + (6189.03 * t) / 3600 + (1.63 * t2) / 3600 + (0.012 * t3) / 3600
  let ms : ℝ := fix360 (ls0 - pes + 180)
  let g : ℝ :=
    ms +
      (0.266 * Real.sin ((31.8 + 119.0 * t) * DEG_TO_RAD)
        + 6.4 * Real.sin ((231.19 + 20.2 * t) * DEG_TO_RAD)
        + (1.882 - 0.016 * t) * Real.sin ((57.24 + 150.27 * t) * DEG_TO_RAD)) / 3600
  let ex : ℝ := 0.01675104 - 0.0000418 * t - 0.000000126 * t2
  match kepler fuel g ex 0.0000003 with
  | none => none
  | some u =>
      let b : ℝ := Real.sqrt ((1 + ex) / (1 - ex))
      let truanom0 : ℝ :=
        if |Real.pi - u| < 1e-10 then u else 2 * Real.arctan (b * Real.tan (u / 2))
      let truanom : ℝ := fix360 (truanom0 * RAD_TO_DEG)
      let u1 : ℝ := (153.23 + 22518.7541 * t) * DEG_TO_RAD
      let u2 : ℝ := (216.57 + 45037.5082 * t) * DEG_TO_RAD
      let u3 : ℝ := (312.69 + 32964.3577 * t) * DEG_TO_RAD
      let u4 : ℝ := (350.74 + 445267.1142 * t - 0.00144 * t2) * DEG_TO_RAD
      let u6 : ℝ := (353.4 + 65928.71550000001 * t) * DEG_TO_RAD
      let u5 : ℝ := (315.6 + 893.3 * t) * DEG_TO_RAD
      let dl : ℝ :=
        0.00134 * Real.cos u1 + 0.00154 * Real.cos u2 + 0.002 * Real.cos u3
          + 0.00179 * Real.sin u4 + (0.202 * Real.sin u5) / 3600
      let dr : ℝ :=
        0.00000543 * Real.sin u1 + 0.00001575 * Real.sin u2 + 0.00001627 * Real.sin u3
          + 0.00003076 * Real.cos u4 + 9.27e-6 * Real.sin u6
      let il : ℝ := ls0 + dl + truanom - ms
      let r1 : ℝ :=
        (1.0000002 * (1 - ex * ex)) / (1 + ex * Real.cos (truanom * DEG_TO_RAD))
      let rs : ℝ := r1 + dr
      let ab : ℝ := (20.496 * (1 - ex * ex)) / rs / 3600
      let lsFinal : ℝ := il + nutation jd - ab
      some (fix360 lsFinal, { s with LsunYoga := lsFinal })

end PanchangUtils

/-! ### Segment solvers, free module

Each solver iterates `trial += error / rate` until `|error| <= 0.001`; the
source loops are unbounded, so each takes loop fuel (and Kepler fuel for the
inner Sun evaluations).  A time segment is the pair of converted civil
dates. -/

def TimeSegment := CivilDate × CivilDate

/-- One boundary search of `computeTithiSegment` (the inner `while`). -/
noncomputable def tithiLoopFree (kfuel : ℕ) (aspect : ℝ) :
    ℕ → ℝ → Ctx → Option (ℝ × Ctx)
  | 0, _, _ => none
  | n + 1, jdt, ctx =>
      match computeSunLongitude kfuel jdt ctx with
      | none => none
      | some (lsun, ctx1) =>
          let lmoon := (computeMoonLongitude jdt ctx1).1
          let ctx2 := (computeMoonLongitude jdt ctx1).2
          let a : ℝ := normalizeAngle (lsun + aspect)
          let asp1 : ℝ := a - lmoon
          let asp2 : ℝ := if asp1 > 180 then asp1 - 360 else asp1
          let asp3 : ℝ := if asp2 < -180 then asp2 + 360 else asp2
          if |asp3| > 0.001 then
            tithiLoopFree kfuel aspect n
              (jdt + asp3 / (ctx2.moonAngularVelocity - 1)) ctx2
          else some (jdt, ctx2)

/-- One boundary of `computeTithiSegment`, with the new-moon special cases
for aspects 0 and 360. -/
noncomputable def tithiBoundaryFree (kfuel fuel : ℕ) (jd : ℝ) (knv : ℤ)
    (aspect jdt : ℝ) (ctx : Ctx) : Option (ℝ × Ctx) :=
  if aspect = 0 then some (computeNewMoonJulian jd (knv : ℝ), ctx)
  else if aspect = 360 then some (computeNewMoonJulian jd ((knv : ℝ) + 1), ctx)
  else tithiLoopFree kfuel aspect fuel jdt ctx

/-- Embedding of `computeTithiSegment` (also used for karana with
`angularSegment = 6`). -/
noncomputable def computeTithiSegment (kfuel fuel : ℕ) (jd : ℝ)
    (periodIndex : ℤ) (tz seg : ℝ) (ctx : Ctx) : Option (TimeSegment × Ctx) :=
  let knv : ℤ := ⌊((jd - 2415020) / 365.25) * 12.3685⌋
  match tithiBoundaryFree kfuel fuel jd knv (seg * (periodIndex : ℝ)) jd ctx with
  | none => none
  | some (jdt1, ctx1) =>
      let startD := convertJulianToDate (jdt1 + (tz - ctx1.deltaT) / 24)
      match tithiBoundaryFree kfuel fuel jd knv (seg * ((periodIndex : ℝ) + 1)) jdt1 ctx1 with
      | none => none
      | some (jdt2, ctx2) =>
          some ((startD, convertJulianToDate (jdt2 + (tz - ctx2.deltaT) / 24)), ctx2)

/-- One boundary search of `computeNakshatraSegment`. -/
noncomputable def nakshatraLoopFree (target : ℝ) :
    ℕ → ℝ → Ctx → Option (ℝ × Ctx)
  | 0, _, _ => none
  | n + 1, jdt, ctx =>
      let lmoon := (computeMoonLongitude jdt ctx).1
      let ctx1 := (computeMoonLongitude jdt ctx).2
      let sidereal : ℝ := normalizeAngle (lmoon + ctx1.ayanamsa)
      let asp1 : ℝ := target - sidereal
      let asp2 : ℝ := if asp1 > 180 then asp1 - 360 else asp1
      let asp3 : ℝ := if asp2 < -180 then asp2 + 360 else asp2
      if |asp3| > 0.001 then
        nakshatraLoopFree target n (jdt + asp3 / ctx1.moonAngularVelocity) ctx1
      else some (jdt, ctx1)

/-- Embedding of `computeNakshatraSegment`. -/
noncomputable def computeNakshatraSegment (fuel : ℕ) (jd : ℝ)
    (nakshatraIndex : ℤ) (tz : ℝ) (ctx : Ctx) : Option (TimeSegment × Ctx) :=
  match nakshatraLoopFree (normalizeAngle (((nakshatraIndex : ℝ) * 80) / 6)) fuel jd ctx with
  | none => none
  | some (jdt1, ctx1) =>
      let startD := convertJulianToDate (jdt1 + (tz - ctx1.deltaT) / 24)
      match nakshatraLoopFree (normalizeAngle ((((nakshatraIndex : ℝ) + 1) * 80) / 6))
          fuel jdt1 ctx1 with
      | none => none
      | some (jdt2, ctx2) =>
          some ((startD, convertJulianToDate (jdt2 + (tz - ctx2.deltaT) / 24)), ctx2)

/-- One boundary search of `computeYogaSegment`. -/
noncomputable def yogaLoopFree (kfuel : ℕ) (bound : ℝ) :
    ℕ → ℝ → Ctx → Option (ℝ × Ctx)
  | 0, _, _ => none
  | n + 1, jdt, ctx =>
      match computeSunLongitude kfuel jdt ctx with
      | none => none
      | some (_, ctx1) =>
          let ctx2 := (computeMoonLongitude jdt ctx1).2
          let dm : ℝ := ctx2.moonLongitudeForYoga + ctx2.ayanamsa - 491143.07698973856
          let ds : ℝ := ctx2.sunLongitudeForYoga + ctx2.ayanamsa - 36976.91240579201
          let z : ℝ := dm + ds
          let asp1 : ℝ := bound - z
          if |asp1| > 0.001 then
            yogaLoopFree kfuel bound n
              (jdt + asp1 / (ctx2.moonAngularVelocity + 1.0145616633)) ctx2
          else some (jdt, ctx2)

/-- Embedding of `computeYogaSegment`. -/
noncomputable def computeYogaSegment (kfuel fuel : ℕ) (jd rawYogaValue tz : ℝ)
    (ctx : Ctx) : Option (TimeSegment × Ctx) :=
  let lower : ℝ := (⌊(rawYogaValue * 6) / 80⌋ : ℝ) * (80 / 6)
  let upper : ℝ := ((⌊(rawYogaValue * 6) / 80⌋ : ℝ) + 1) * (80 / 6)
  match yogaLoopFree kfuel lower fuel jd ctx with
  | none => none
  | some (jdt1, ctx1) =>
      let startD := convertJulianToDate (jdt1 + (tz - ctx1.deltaT) / 24)
      match yogaLoopFree kfuel upper fuel jdt1 ctx1 with
      | none => none
      | some (jdt2, ctx2) =>
          some ((startD, convertJulianToDate (jdt2 + (tz - ctx2.deltaT) / 24)), ctx2)

/-! ### Integer and real normalization loops used by the yoga index

`PanchangCalculator.calculate` normalizes the integer yoga index with
`while (i < 0) i += 27; while (i >= 27) i -= 27;`.
The class `Panchang.calculate` instead normalizes the real value with
`while (x < 0) x += 27; while (x > 27) x -= 27;`  (note the strict `> 27`)
and floors afterwards. -/

def yogaIdxAddLoop (i : ℤ) : ℤ :=
  if i < 0 then yogaIdxAddLoop (i + 27) else i
termination_by (-i).toNat
decreasing_by omega

def yogaIdxSubLoop (i : ℤ) : ℤ :=
  if 27 ≤ i then yogaIdxSubLoop (i - 27) else i
termination_by i.toNat
decreasing_by omega

noncomputable def yogaRealAddLoop (x : ℝ) : ℝ :=
  if x < 0 then yogaRealAddLoop (x + 27) else x
termination_by (⌈(-x) / 27⌉).toNat
decreasing_by
  have h1 : 0 < ⌈(-x) / 27⌉ := Int.ceil_pos.mpr (div_pos (by linarith) (by norm_num))
  have h2 : ⌈(-(x + 27)) / 27⌉ = ⌈(-x) / 27⌉ + (-1 : ℤ) := by
    rw [show (-(x + 27)) / 27 = (-x) / 27 + ((-1 : ℤ) : ℝ) by push_cast; ring]
    rw [Int.ceil_add_int]
  omega

noncomputable def yogaRealSubLoop (x : ℝ) : ℝ :=
  if x > 27 then yogaRealSubLoop (x - 27) else x
termination_by (⌊x / 27⌋).toNat
decreasing_by
  have h1 : 0 < ⌊x / 27⌋ := by
    rw [Int.lt_iff_add_one_le, zero_add, Int.le_floor]
    rw [show ((1 : ℤ) : ℝ) = 1 by norm_num, le_div_iff (by norm_num : (0:ℝ) < 27)]
    linarith
  have h2 : ⌊(x - 27) / 27⌋ = ⌊x / 27⌋ + (-1 : ℤ) := by
    rw [show (x - 27) / 27 = x / 27 + ((-1 : ℤ) : ℝ) by push_cast; ring]
    rw [Int.floor_add_int]
  omega

/-! ### Karana index mapping

Shared verbatim by `PanchangCalculator.calculate` (lines 1093-1102) and
`Panchang.calculate` (lines 1819-1826). -/

noncomputable def karanaIndexOf (raw : ℤ) : ℤ :=
  if raw = 0 then 10
  else if 57 ≤ raw then raw - 50
  else raw - 1 - ⌊((raw : ℝ) - 1) / 7⌋ * 7

/-! ### Free module: `PanchangCalculator.calculate`

The result record holds the computed element indices, the ayanamsa value
and the solved segments; name lookup into the static tables is outside the
scope of the specification. -/

structure DateInput where
  day : ℤ
  month : ℤ
  year : ℤ
  hour : ℝ
  tzone : ℝ

structure AlmanacResultM where
  weekdayIndex : ℤ
  ayanamsaValue : ℝ
  zodiacIndex : ℤ
  nakshatraIndex : ℤ
  nakshatraSeg : TimeSegment
  karanaIndex : ℤ
  karanaSeg : TimeSegment
  yogaIndex : ℤ
  yogaSeg : TimeSegment
  tithiIndex : ℤ
  tithiSeg : TimeSegment

/-- Embedding of `PanchangCalculator.calculate` (lines 1003-1142).  A fresh
context is created at the start of every invocation (line 1004).  `none`
models an inner solver loop that did not exit within the supplied fuel. -/
noncomputable def PanchangCalculator.calculate (kfuel fuel : ℕ) (inp : DateInput) :
    Option AlmanacResultM :=
  let ctx0 : Ctx := Ctx.init
  let fractionalDay : ℝ := (inp.day : ℝ) + inp.hour / 24
  let localJD : ℝ := convertMdyToJulian inp.month fractionalDay inp.year
  let wd : ℤ := getWeekdayIndex localJD
  let jd0 : ℝ := convertMdyToJulian inp.month (inp.day : ℝ) inp.year
  let jdut : ℝ := jd0 + (inp.hour - inp.tzone) / 24
  let ctx1 : Ctx := { ctx0 with deltaT := computeDeltaT jdut }
  let jd : ℝ := jdut + ctx1.deltaT / 24
  let ctx2 : Ctx := { ctx1 with ayanamsa := calculateAyanamsa jd }
  let moonL : ℝ := (computeMoonLongitude jd ctx2).1
  let ctx3 : Ctx := (computeMoonLongitude jd ctx2).2
  match computeSunLongitude kfuel jd ctx3 with
  | none => none
  | some (sunL, ctx4) =>
      let moonYogaAdj : ℝ := ctx4.moonLongitudeForYoga + ctx4.ayanamsa - 491143.07698973856
      let sunYogaAdj : ℝ := ctx4.sunLongitudeForYoga + ctx4.ayanamsa - 36976.91240579201
      let rawYoga : ℝ := moonYogaAdj + sunYogaAdj
      let yogaIndex : ℤ := yogaIdxSubLoop (yogaIdxAddLoop ⌊(rawYoga * 6) / 80⌋)
      match computeYogaSegment kfuel fuel jd rawYoga inp.tzone ctx4 with
      | none => none
      | some (yogaSeg, ctx5) =>
          let moonSidereal : ℝ := normalizeAngle (moonL + ctx5.ayanamsa)
          let nakshatraIndex : ℤ := ⌊(moonSidereal * 6) / 80⌋
          match computeNakshatraSegment fuel jd nakshatraIndex inp.tzone ctx5 with
          | none => none
          | some (nakshatraSeg, ctx6) =>
              let adjMoonT : ℝ := if moonL < sunL then moonL + 360 else moonL
              let tithiIndex : ℤ := ⌊(adjMoonT - sunL) / 12⌋
              match computeTithiSegment kfuel fuel jd tithiIndex inp.tzone 12 ctx6 with
              | none => none
              | some (tithiSeg, ctx7) =>
                  let adjMoonK : ℝ := if moonL < sunL then moonL + 360 else moonL
                  let karanaRaw : ℤ := ⌊(adjMoonK - sunL) / 6⌋
                  let karanaIdx : ℤ := karanaIndexOf karanaRaw
                  match computeTithiSegment kfuel fuel jd karanaRaw inp.tzone 6 ctx7 with
                  | none => none
                  | some (karanaSeg, ctx8) =>
                      let zodiacIndex : ℤ :=
                        ⌊|normalizeAngle (moonL + ctx8.ayanamsa)| / 30⌋
                      some
                        { weekdayIndex := wd
                          ayanamsaValue := ctx8.ayanamsa
                          zodiacIndex := zodiacIndex
                          nakshatraIndex := nakshatraIndex
                          nakshatraSeg := nakshatraSeg
                          karanaIndex := karanaIdx
                          karanaSeg := karanaSeg
                          yogaIndex := yogaIndex
                          yogaSeg := yogaSeg
                          tithiIndex := tithiIndex
                          tithiSeg := tithiSeg }

/-! ### Segment solvers, namespace variant

These thread the `PanchangUtils` state record: the Sun/Moon evaluations
write `LsunYoga`/`LmoonYoga`, the `calData` conversions write `kyear`,
`kmon`, `kday`, and the step divisors read the globals `skor` and `dt`.
-/

namespace PanchangUtils

/-- Inner `while` of `PanchangUtils.tithi`; the step divisor reads the
global `skor` from the threaded state. -/
noncomputable def tithiLoop (kfuel : ℕ) (aspect : ℝ) :
    ℕ → ℝ → PUState → Option (ℝ × PUState)
  | 0, _, _ => none
  | n + 1, jdt, s =>
      match sun kfuel jdt s with
      | none => none
      | some (lsun, s1) =>
          let lmoon := (moon jdt s1).1
          let s2 := (moon jdt s1).2
          let a : ℝ := fix360 (lsun + aspect)
          let asp1 : ℝ := a - lmoon
          let asp2 : ℝ := if asp1 > 180 then asp1 - 360 else asp1
          let asp3 : ℝ := if asp2 < -180 then asp2 + 360 else asp2
          if |asp3| > 0.001 then
            tithiLoop kfuel aspect n (jdt + asp3 / (s2.skor - 1)) s2
          else some (jdt, s2)

noncomputable def tithiBoundary (kfuel fuel : ℕ) (jd : ℝ) (knv : ℤ)
    (aspect jdt : ℝ) (s : PUState) : Option (ℝ × PUState) :=
  if aspect = 0 then some (novolun jd (knv : ℝ), s)
  else if aspect = 360 then some (novolun jd ((knv : ℝ) + 1), s)
  else tithiLoop kfuel aspect fuel jdt s

/-- Embedding of `PanchangUtils.tithi` (also used for karana with
`len = 6`).  The boundary conversions go through `calData`, which writes
the calendar globals. -/
noncomputable def tithi (kfuel fuel : ℕ) (jd : ℝ) (n1 : ℤ) (tzone len : ℝ)
    (s : PUState) : Option (TimeSegment × PUState) :=
  let knv : ℤ := ⌊((jd - 2415020) / 365.25) * 12.3685⌋
  match tithiBoundary kfuel fuel jd knv (len * (n1 : ℝ)) jd s with
  | none => none
  | some (jdt1, s1) =>
      let startD := calData (jdt1 + (tzone - s1.dt) / 24) s1
      match tithiBoundary kfuel fuel jd knv (len * ((n1 : ℝ) + 1)) jdt1 startD.2 with
      | none => none
      | some (jdt2, s2) =>
          let endD := calData (jdt2 + (tzone - s2.dt) / 24) s2
          some ((startD.1, endD.1), endD.2)

/-- Inner `while` of `PanchangUtils.nakshatra`; the step divisor is the
bare global `skor`.  Since `skor` is never assigned anywhere it is `0` in
every run of the program, and the trial date never advances (the real
embedding takes division by zero to `0`; in JS the same read makes the
trial date infinite and the loop exits with garbage — either way no
boundary is found). -/
noncomputable def nakshatraLoop (target : ℝ) :
    ℕ → ℝ → PUState → Option (ℝ × PUState)
  | 0, _, _ => none
  | n + 1, jdt, s =>
      let lmoon := (moon jdt s).1
      let s1 := (moon jdt s).2
      let lmoon0 : ℝ := fix360 (lmoon + s1.ayanamsa)
      let asp1 : ℝ := target - lmoon0
      let asp2 : ℝ := if asp1 > 180 then asp1 - 360 else asp1
      let asp3 : ℝ := if asp2 < -180 then asp2 + 360 else asp2
      if |asp3| > 0.001 then
        nakshatraLoop target n (jdt + asp3 / s1.skor) s1
      else some (jdt, s1)

/-- Embedding of `PanchangUtils.nakshatra`. -/
noncomputable def nakshatra (fuel : ℕ) (jd : ℝ) (nNaksh : ℤ) (tzone : ℝ)
    (s : PUState) : Option (TimeSegment × PUState) :=
  match nakshatraLoop (fix360 (((nNaksh : ℝ) * 80) / 6)) fuel jd s with
  | none => none
  | some (jdt1, s1) =>
      let startD := calData (jdt1 + (tzone - s1.dt) / 24) s1
      match nakshatraLoop (fix360 ((((nNaksh : ℝ) + 1) * 80) / 6)) fuel jdt1 startD.2 with
      | none => none
      | some (jdt2, s2) =>
          let endD := calData (jdt2 + (tzone - s2.dt) / 24) s2
          some ((startD.1, endD.1), endD.2)

/-- Inner `while` of `PanchangUtils.yoga`. -/
noncomputable def yogaLoop (kfuel : ℕ) (bound : ℝ) :
    ℕ → ℝ → PUState → Option (ℝ × PUState)
  | 0, _, _ => none
  | n + 1, jdt, s =>
      match sun kfuel jdt s with
      | none => none
      | some (_, s1) =>
          let s2 := (moon jdt s1).2
          let dm : ℝ := s2.LmoonYoga + s2.ayanamsa - 491143.07698973856
          let ds : ℝ := s2.LsunYoga + s2.ayanamsa - 36976.91240579201
          let z : ℝ := dm + ds
          let asp1 : ℝ := bound - z
          if |asp1| > 0.001 then
            yogaLoop kfuel bound n (jdt + asp1 / (s2.skor + 1.0145616633)) s2
          else some (jdt, s2)

/-- Embedding of `PanchangUtils.yoga`. -/
noncomputable def yoga (kfuel fuel : ℕ) (jd zyoga tzone : ℝ)
    (s : PUState) : Option (TimeSegment × PUState) :=
  let lower : ℝ := ((⌊(zyoga * 6) / 80⌋ : ℝ) * 80) / 6
  let upper : ℝ := (((⌊(zyoga * 6) / 80⌋ : ℝ) + 1) * 80) / 6
  match yogaLoop kfuel lower fuel jd s with
  | none => none
  | some (jdt1, s1) =>
      let startD := calData (jdt1 + (tzone - s1.dt) / 24) s1
      match yogaLoop kfuel upper fuel jdt1 startD.2 with
      | none => none
      | some (jdt2, s2) =>
          let endD := calData (jdt2 + (tzone - s2.dt) / 24) s2
          some ((startD.1, endD.1), endD.2)

end PanchangUtils

/-- Embedding of the class method `Panchang.calculate` (lines 1756-1854).
Unlike `PanchangCalculator.calculate` it works through the module-level
mutable state, which is threaded in and out; `none` models a run in which
one of the unbounded solver loops failed to exit within its fuel (the JS
original would simply not return in that case, so there is no meaningful
final state to report). -/
noncomputable def Panchang.calculate (kfuel fuel : ℕ) (inp : DateInput)
    (s0 : PUState) : Option (AlmanacResultM × PUState) :=
  let dayhr : ℝ := (inp.day : ℝ) + inp.hour / 24
  let jdlt : ℝ := PanchangUtils.mdy2julian inp.month dayhr inp.year
  let nWday : ℤ := PanchangUtils.weekDay jdlt
  let jd0 : ℝ := PanchangUtils.mdy2julian inp.month (inp.day : ℝ) inp.year
  let jdut : ℝ := jd0 + (inp.hour - inp.tzone) / 24
  let dtv := PanchangUtils.dTime jdut s0
  let s1 : PUState := { dtv.2 with dt := dtv.1 }
  let jd : ℝ := jdut + s1.dt / 24
  let s2 : PUState := { s1 with ayanamsa := PanchangUtils.calcayan jd }
  let lmoon : ℝ := (PanchangUtils.moon jd s2).1
  let s3 : PUState := (PanchangUtils.moon jd s2).2
  match PanchangUtils.sun kfuel jd s3 with
  | none => none
  | some (lsun, s4) =>
      let dmoonYoga : ℝ := s4.LmoonYoga + s4.ayanamsa - 491143.07698973856
      let dsunYoga : ℝ := s4.LsunYoga + s4.ayanamsa - 36976.91240579201
      let zyoga : ℝ := dmoonYoga + dsunYoga
      let nYoga : ℝ := yogaRealSubLoop (yogaRealAddLoop ((zyoga * 6) / 80))
      match PanchangUtils.yoga kfuel fuel jd zyoga inp.tzone s4 with
      | none => none
      | some (sYoga, s5) =>
          let lmoon0 : ℝ := PanchangUtils.fix360 (lmoon + s5.ayanamsa)
          let nNaksh : ℤ := ⌊(lmoon0 * 6) / 80⌋
          match PanchangUtils.nakshatra fuel jd nNaksh inp.tzone s5 with
          | none => none
          | some (sNaksh, s6) =>
              let lmoonT : ℝ := if lmoon < lsun then lmoon + 360 else lmoon
              let nTithi : ℤ := ⌊(lmoonT - lsun) / 12⌋
              match PanchangUtils.tithi kfuel fuel jd nTithi inp.tzone 12 s6 with
              | none => none
              | some (sTithi, s7) =>
                  let nk : ℤ := ⌊(lmoonT - lsun) / 6⌋
                  let nKarana : ℤ := karanaIndexOf nk
                  match PanchangUtils.tithi kfuel fuel jd nk inp.tzone 6 s7 with
                  | none => none
                  | some (sKarana, s8) =>
                      let z : ℤ := ⌊|PanchangUtils.fix360 (lmoon + s8.ayanamsa)| / 30⌋
                      some
                        ({ weekdayIndex := nWday
                           ayanamsaValue := s8.ayanamsa
                           zodiacIndex := z
                           nakshatraIndex := nNaksh
                           nakshatraSeg := sNaksh
                           karanaIndex := nKarana
                           karanaSeg := sKarana
                           yogaIndex := ⌊nYoga⌋
                           yogaSeg := sYoga
                           tithiIndex := nTithi
                           tithiSeg := sTithi }, s8)

/-! ## Claim theorems -/

lemma flDiv7 (p : ℤ) : ⌊(p : ℝ) / 7⌋ = p / 7 := by
  have h := floor_intCast_div_natCast_real' p 7
  norm_num at h
  exact h

/-- C9: angle normalization is 360-periodic: for every real `x` and integer
`k`, `normalizeAngle (x + 360 * k) = normalizeAngle x`, and likewise for the
namespace twin `PanchangUtils.fix360`. -/
theorem panchang_claim_C9 (x : ℝ) (k : ℤ) :
    normalizeAngle (x + 360 * k) = normalizeAngle x ∧
    PanchangUtils.fix360 (x + 360 * k) = PanchangUtils.fix360 x := by
  have h : normalizeAngle (x + 360 * k) = normalizeAngle x := by
    rw [normalizeAngle_eq_floor, normalizeAngle_eq_floor]
    rw [show (x + 360 * (k : ℝ)) / 360 = x / 360 + (k : ℝ) by ring]
    rw [Int.floor_add_int]
    push_cast
    ring
  exact ⟨h, by rw [fix360_eq_normalizeAngle, fix360_eq_normalizeAngle]; exact h⟩

/-- C9 witness: periodicity evaluated at `x = 725`, `k = -2`. -/
theorem panchang_claim_C9_witness :
    normalizeAngle (725 + 360 * ((-2 : ℤ) : ℝ)) = normalizeAngle 725 ∧
    PanchangUtils.fix360 (725 + 360 * ((-2 : ℤ) : ℝ)) = PanchangUtils.fix360 725 :=
  panchang_claim_C9 725 (-2)

/-- C10: for every (finite) real input the normalization loop pair
terminates, with a result in `[0, 360)` that differs from the input by an
integer multiple of 360 (this also covers `fix360`, which satisfies the same
range and congruence); and the finiteness is essential: over the extended
reals, which model the IEEE infinities a JS number can hold, the
subtract-360 loop never exits on the input `+inf`, whatever fuel it is
given. -/
theorem panchang_claim_C10 :
    (∀ x : ℝ, ∃ (n : ℕ) (r : ℝ), normalizeAngleF n x = some r ∧
       (0 ≤ r ∧ r < 360) ∧ ∃ k : ℤ, r = x - 360 * k) ∧
    (∀ x : ℝ, (0 ≤ PanchangUtils.fix360 x ∧ PanchangUtils.fix360 x < 360) ∧
       ∃ k : ℤ, PanchangUtils.fix360 x = x - 360 * k) ∧
    (∀ n : ℕ, normSubLoopE n ⊤ = none) := by
  refine ⟨?_, ?_, normSubLoopE_top⟩
  · intro x
    obtain ⟨n, hn⟩ := normalizeAngleF_total x
    obtain ⟨k, hk⟩ := normalizeAngle_sub_int x
    exact ⟨n, normalizeAngle x, hn, normalizeAngle_mem x, k, hk⟩
  · intro x
    rw [fix360_eq_normalizeAngle]
    exact ⟨normalizeAngle_mem x, normalizeAngle_sub_int x⟩

/-- C6: the karana raw-count-to-index map: raw 0 goes to 10, raw at least
57 goes to `raw - 50`, otherwise to `(raw - 1) mod 7`; in particular 0 gives
10, 57 gives 7 and 8 gives 0. -/
theorem panchang_claim_C6 (n : ℤ) (h0 : 0 ≤ n) (h59 : n ≤ 59) :
    karanaIndexOf n =
      (if n = 0 then 10 else if 57 ≤ n then n - 50 else (n - 1) % 7) ∧
    karanaIndexOf 0 = 10 ∧ karanaIndexOf 57 = 7 ∧ karanaIndexOf 8 = 0 := by
  refine ⟨?_, by norm_num [karanaIndexOf], by norm_num [karanaIndexOf],
    by norm_num [karanaIndexOf]⟩
  unfold karanaIndexOf
  split_ifs with h1 h2
  · rfl
  · rfl
  · rw [show ((n : ℝ) - 1) = ((n - 1 : ℤ) : ℝ) by push_cast; ring, flDiv7]
    omega

/-- C6 witness: the mapping evaluated at raw count 8. -/
theorem panchang_claim_C6_witness :
    (0 : ℤ) ≤ 8 ∧ (8 : ℤ) ≤ 59 ∧
    (karanaIndexOf 8 =
      (if (8 : ℤ) = 0 then 10 else if 57 ≤ (8 : ℤ) then 8 - 50 else (8 - 1) % 7) ∧
     karanaIndexOf 0 = 10 ∧ karanaIndexOf 57 = 7 ∧ karanaIndexOf 8 = 0) :=
  ⟨by norm_num, by norm_num, panchang_claim_C6 8 (by norm_num) (by norm_num)⟩

/-- C8: Julian day round trip: for every valid civil date with year between
1800 and 2200, `convertJulianToDate (convertMdyToJulian m d y)` reproduces
the date exactly, with a time of day of 0 hours 0 minutes 0 seconds, hence
in particular within one second. -/
theorem panchang_claim_C8 (m d y : ℤ)
    (hy1 : 1800 ≤ y) (hy2 : y ≤ 2200) (hm1 : 1 ≤ m) (hm2 : m ≤ 12)
    (hd1 : 1 ≤ d) (hdm : d ≤ daysInMonth m y) :
    convertJulianToDate (convertMdyToJulian m (d : ℝ) y) =
      ⟨y, m, d, 0, 0, 0⟩ :=
  julian_roundtrip_exact m d y hy1 hy2 hm1 hm2 hd1 hdm

/-- C8 witness: the round trip evaluated on 29 February 2000 (a leap day). -/
theorem panchang_claim_C8_witness :
    (1800 : ℤ) ≤ 2000 ∧ (29 : ℤ) ≤ daysInMonth 2 2000 ∧
    convertJulianToDate (convertMdyToJulian 2 ((29 : ℤ) : ℝ) 2000) =
      ⟨2000, 2, 29, 0, 0, 0⟩ :=
  ⟨by norm_num, by decide, panchang_claim_C8 2 29 2000 (by norm_num) (by norm_num)
    (by norm_num) (by norm_num) (by norm_num) (by decide)⟩

lemma calDataFields_eq (jd : ℝ) :
    PanchangUtils.calDataFields jd = convertJulianToDate jd := rfl

/-- Spec-worded delta-T, following the claim sentence with the epoch as it
actually is in the code: Julian centuries are counted from JD 2378497,
which is 1 January 1800, not 1924. -/
noncomputable def deltaTSpecFn (jd : ℝ) : ℝ :=
  let cal := convertJulianToDate jd
  let decimalYear : ℝ :=
    (cal.year : ℝ) + ((cal.month : ℝ) - 1) / 12 + ((cal.day : ℝ) - 1) / 365.25
  let t : ℝ := (jd - 2378497) / 36525
  let seconds : ℝ :=
    if 1620 ≤ decimalYear ∧ decimalYear < 2010 then
      let i : ℤ := ⌊(decimalYear - 1620) / 10⌋
      deltaTAt i +
        (deltaTAt (i + 1) - deltaTAt i) * ((decimalYear - (1620 + (i : ℝ) * 10)) / 10)
    else if 2010 ≤ decimalYear then 25.5 * t ^ 2 - 39
    else if 948 ≤ decimalYear ∧ decimalYear < 1620 then 25.5 * t ^ 2
    else 1361.7 + 320 * t + 44.3 * t ^ 2
  seconds / 3600

/-- Spec-structured delta-T as `computeDeltaT` actually computes it: the
same branch structure, but the civil year is read through the JS `Date`,
whose constructor maps a year argument between 0 and 99 to 1900 plus that
year. -/
noncomputable def deltaTSpecFnDate (jd : ℝ) : ℝ :=
  let cal := convertJulianToDate jd
  let yr : ℤ := if 0 ≤ cal.year ∧ cal.year ≤ 99 then 1900 + cal.year else cal.year
  let decimalYear : ℝ :=
    (yr : ℝ) + ((cal.month : ℝ) - 1) / 12 + ((cal.day : ℝ) - 1) / 365.25
  let t : ℝ := (jd - 2378497) / 36525
  let seconds : ℝ :=
    if 1620 ≤ decimalYear ∧ decimalYear < 2010 then
      let i : ℤ := ⌊(decimalYear - 1620) / 10⌋
      deltaTAt i +
        (deltaTAt (i + 1) - deltaTAt i) * ((decimalYear - (1620 + (i : ℝ) * 10)) / 10)
    else if 2010 ≤ decimalYear then 25.5 * t ^ 2 - 39
    else if 948 ≤ decimalYear ∧ decimalYear < 1620 then 25.5 * t ^ 2
    else 1361.7 + 320 * t + 44.3 * t ^ 2
  seconds / 3600

lemma computeDeltaT_eq_specDate (jd : ℝ) :
    computeDeltaT jd = deltaTSpecFnDate jd := by
  simp only [computeDeltaT, deltaTSpecFnDate]
  split_ifs <;> ring

lemma dTimeVal_eq_spec (jd : ℝ) :
    PanchangUtils.dTimeVal jd = deltaTSpecFn jd := by
  simp only [PanchangUtils.dTimeVal, deltaTSpecFn, calDataFields_eq]
  split_ifs <;> ring

/-- C5, corrected: the two delta-T implementations follow the claimed
branch structure with the quadratic centuries counted from JD 2378497
(1 January 1800), not a 1924 epoch; and `computeDeltaT` reads the civil
year through the JS `Date` constructor rule (a computed year 0 to 99
becomes 1900 to 1999), while `dTime` reads the raw calendar year, so the
claim's raw decimal-year wording holds for `dTime` but not for
`computeDeltaT` on civil years 0 to 99. -/
theorem panchang_claim_C5 (jd : ℝ) :
    computeDeltaT jd = deltaTSpecFnDate jd ∧
    PanchangUtils.dTimeVal jd = deltaTSpecFn jd :=
  ⟨computeDeltaT_eq_specDate jd, dTimeVal_eq_spec jd⟩

/-- JD 1739501.5 is 1 July of civil year 50 (Julian calendar branch of the
conversion). -/
lemma convertJulianToDate_at_50 :
    convertJulianToDate (1739501.5 : ℝ) = ⟨50, 7, 1, 0, 0, 0⟩ := by
  simp only [convertJulianToDate]
  norm_num

lemma deltaTAt_33 : deltaTAt 33 = 29.2 := rfl

lemma deltaTAt_34 : deltaTAt 34 = 33.2 := rfl

/-- In civil year 50 the `Date`-mediated copy sees decimal year 1950.5 and
interpolates the empirical table. -/
lemma computeDeltaT_at_50 : computeDeltaT (1739501.5 : ℝ) = 29.4 / 3600 := by
  simp only [computeDeltaT]
  rw [convertJulianToDate_at_50]
  norm_num
  rw [deltaTAt_33, deltaTAt_34]
  norm_num

/-- In civil year 50 the raw-year copy takes the pre-948 quadratic. -/
lemma dTimeVal_at_50 :
    PanchangUtils.dTimeVal (1739501.5 : ℝ) =
      (1361.7 + 320 * ((1739501.5 - 2378497) / 36525) +
        44.3 * ((1739501.5 - 2378497) / 36525) * ((1739501.5 - 2378497) / 36525))
        / 3600 := by
  simp only [PanchangUtils.dTimeVal, calDataFields_eq, convertJulianToDate_at_50]
  norm_num

/-- The two delta-T copies disagree at JD 1739501.5 (about 29 seconds
against about 9322 seconds). -/
lemma deltaT_copies_differ_at_50 :
    PanchangUtils.dTimeVal (1739501.5 : ℝ) ≠ computeDeltaT (1739501.5 : ℝ) := by
  rw [dTimeVal_at_50, computeDeltaT_at_50]
  norm_num

/-- The rewritten copy also disagrees with the claim-worded raw-year
structure at JD 1739501.5. -/
lemma deltaT_spec_mismatch_at_50 :
    computeDeltaT (1739501.5 : ℝ) ≠ deltaTSpecFn (1739501.5 : ℝ) := by
  rw [← dTimeVal_eq_spec]
  exact (deltaT_copies_differ_at_50 ∘ Eq.symm)

/-- On 1 June 2020 the code returns a positive delta-T (about 85 seconds),
while the claimed formula with a 1924 epoch would be negative (about minus
15 seconds), whichever Julian day within a year of 1924 is taken as the
epoch. -/
lemma deltaT_epoch_lemma :
    ∀ E : ℝ, 2423600 ≤ E → E ≤ 2424350 →
      computeDeltaT (convertMdyToJulian 6 (1 : ℝ) 2020) ≠
        (25.5 * ((convertMdyToJulian 6 (1 : ℝ) 2020 - E) / 36525) *
          ((convertMdyToJulian 6 (1 : ℝ) 2020 - E) / 36525) - 39) / 3600 := by
  intro E hE1 hE2
  have hj : jdIntFwd 6 1 2020 = 2459002 := by decide
  have hmdy : convertMdyToJulian 6 (1 : ℝ) 2020 = 2459001.5 := by
    have h := convertMdyToJulian_int 6 2020 1
    rw [hj] at h
    push_cast at h
    rw [h]
    norm_num
  have hcal : convertJulianToDate (2459001.5 : ℝ) = ⟨2020, 6, 1, 0, 0, 0⟩ := by
    have h := julian_roundtrip_exact 6 1 2020 (by norm_num) (by norm_num)
      (by norm_num) (by norm_num) (by norm_num) (by decide)
    push_cast at h
    rw [hmdy] at h
    exact h
  have hval : computeDeltaT (2459001.5 : ℝ) =
      (25.5 * ((2459001.5 - 2378497) / 36525) * ((2459001.5 - 2378497) / 36525)
        - 39) / 3600 := by
    simp only [computeDeltaT]
    rw [hcal]
    norm_num
  rw [hmdy, hval]
  intro heq
  have hL : (0 : ℝ) <
      (25.5 * ((2459001.5 - 2378497) / 36525) * ((2459001.5 - 2378497) / 36525)
        - 39) / 3600 := by norm_num
  have hb0 : (0 : ℝ) ≤ (2459001.5 - E) / 36525 :=
    div_nonneg (by linarith) (by norm_num)
  have hb1 : (2459001.5 - E) / 36525 ≤ 0.97 := by
    rw [div_le_iff (by norm_num : (0 : ℝ) < 36525)]
    linarith
  have hR : (25.5 * ((2459001.5 - E) / 36525) * ((2459001.5 - E) / 36525)
      - 39) / 3600 < 0 := by
    have hsq : (2459001.5 - E) / 36525 * ((2459001.5 - E) / 36525) ≤ 0.97 * 0.97 :=
      mul_le_mul hb1 hb1 hb0 (by norm_num)
    have : 25.5 * ((2459001.5 - E) / 36525) * ((2459001.5 - E) / 36525) ≤
        25.5 * (0.97 * 0.97) := by nlinarith
    nlinarith
  linarith

/-- C5 counterexample: with the epoch taken as JD 2423776 (1 January 1924),
the claimed formula disagrees with the code on 1 June 2020 (the same holds
for every Julian day within a year of 1924); and at JD 1739501.5, whose
computed civil year 50 the JS `Date` maps to 1950, `computeDeltaT`
interpolates the table instead of following the claimed raw-year pre-948
quadratic. -/
theorem panchang_claim_C5_counterexample :
    (computeDeltaT (convertMdyToJulian 6 (1 : ℝ) 2020) ≠
      (25.5 * ((convertMdyToJulian 6 (1 : ℝ) 2020 - 2423776) / 36525) *
        ((convertMdyToJulian 6 (1 : ℝ) 2020 - 2423776) / 36525) - 39) / 3600) ∧
    computeDeltaT (1739501.5 : ℝ) ≠ deltaTSpecFn (1739501.5 : ℝ) :=
  ⟨deltaT_epoch_lemma 2423776 (by norm_num) (by norm_num),
    deltaT_spec_mismatch_at_50⟩

lemma solveKeplerGo_zero_tol (m ecc : ℝ) :
    ∀ (n : ℕ) (e d : ℝ), solveKeplerGo m ecc 0 n e d = none := by
  intro n
  induction n with
  | zero => intro e d; rfl
  | succ n ih =>
      intro e d
      rw [solveKeplerGo, if_pos (abs_nonneg d)]
      exact ih _ _

lemma keplerGo_zero_tol (m ecc : ℝ) :
    ∀ (n : ℕ) (e d : ℝ), PanchangUtils.keplerGo m ecc 0 n e d = none := by
  intro n
  induction n with
  | zero => intro e d; rfl
  | succ n ih =>
      intro e d
      rw [PanchangUtils.keplerGo, if_pos (abs_nonneg d)]
      exact ih _ _

/-- C1 evidence: nothing in the Kepler solver bounds the iteration count.
With tolerance 0 the loop guard is always true, so no amount of fuel makes
either copy of the solver exit: the source, which has no iteration cap,
would simply hang instead of signalling a convergence failure. -/
theorem panchang_claim_C1_no_cap (fuel : ℕ) (meanAnomaly eccentricity : ℝ) :
    solveKepler fuel meanAnomaly eccentricity 0 = none ∧
    PanchangUtils.kepler fuel meanAnomaly eccentricity 0 = none := by
  constructor
  · simp only [solveKepler]
    rw [zero_mul]
    exact solveKeplerGo_zero_tol _ _ _ _ _
  · simp only [PanchangUtils.kepler]
    rw [zero_mul]
    exact keplerGo_zero_tol _ _ _ _ _

lemma moonVelocity_gt_ten (jd : ℝ) : 10 < moonVelocity jd := by
  simp only [moonVelocity]
  have h0l := Real.neg_one_le_cos ((moonAngles jd).ml)
  have h0u := Real.cos_le_one ((moonAngles jd).ml)
  have h1l := Real.neg_one_le_cos (2 * (moonAngles jd).dd)
  have h1u := Real.cos_le_one (2 * (moonAngles jd).dd)
  have h2l := Real.neg_one_le_cos (2 * (moonAngles jd).dd - (moonAngles jd).ml)
  have h2u := Real.cos_le_one (2 * (moonAngles jd).dd - (moonAngles jd).ml)
  have h3l := Real.neg_one_le_cos (2 * (moonAngles jd).ml)
  have h3u := Real.cos_le_one (2 * (moonAngles jd).ml)
  have h4l := Real.neg_one_le_cos (2 * (moonAngles jd).f)
  have h4u := Real.cos_le_one (2 * (moonAngles jd).f)
  have h5l := Real.neg_one_le_cos (2 * (moonAngles jd).dd + (moonAngles jd).ml)
  have h5u := Real.cos_le_one (2 * (moonAngles jd).dd + (moonAngles jd).ml)
  have h6l := Real.neg_one_le_cos (2 * (moonAngles jd).dd - (moonAngles jd).ms)
  have h6u := Real.cos_le_one (2 * (moonAngles jd).dd - (moonAngles jd).ms)
  have h7l := Real.neg_one_le_cos (2 * (moonAngles jd).dd - (moonAngles jd).ms - (moonAngles jd).ml)
  have h7u := Real.cos_le_one (2 * (moonAngles jd).dd - (moonAngles jd).ms - (moonAngles jd).ml)
  have h8l := Real.neg_one_le_cos ((moonAngles jd).ms - (moonAngles jd).ml)
  have h8u := Real.cos_le_one ((moonAngles jd).ms - (moonAngles jd).ml)
  have h9l := Real.neg_one_le_cos (2 * (moonAngles jd).f + (moonAngles jd).ml)
  have h9u := Real.cos_le_one (2 * (moonAngles jd).f + (moonAngles jd).ml)
  have h10l := Real.neg_one_le_cos ((moonAngles jd).ms + (moonAngles jd).ml)
  have h10u := Real.cos_le_one ((moonAngles jd).ms + (moonAngles jd).ml)
  have h11l := Real.neg_one_le_cos ((moonAngles jd).dd)
  have h11u := Real.cos_le_one ((moonAngles jd).dd)
  have h12l := Real.neg_one_le_cos (3 * (moonAngles jd).ml)
  have h12u := Real.cos_le_one (3 * (moonAngles jd).ml)
  have h13l := Real.neg_one_le_cos (4 * (moonAngles jd).dd - (moonAngles jd).ml)
  have h13u := Real.cos_le_one (4 * (moonAngles jd).dd - (moonAngles jd).ml)
  have h14l := Real.neg_one_le_cos (2 * (moonAngles jd).dd + 2 * (moonAngles jd).ml)
  have h14u := Real.cos_le_one (2 * (moonAngles jd).dd + 2 * (moonAngles jd).ml)
  have h15l := Real.neg_one_le_cos (4 * (moonAngles jd).dd - 2 * (moonAngles jd).ml)
  have h15u := Real.cos_le_one (4 * (moonAngles jd).dd - 2 * (moonAngles jd).ml)
  have h16l := Real.neg_one_le_cos (4 * (moonAngles jd).dd)
  have h16u := Real.cos_le_one (4 * (moonAngles jd).dd)
  have h17l := Real.neg_one_le_cos ((moonAngles jd).ms)
  have h17u := Real.cos_le_one ((moonAngles jd).ms)
  have h18l := Real.neg_one_le_cos (2 * (moonAngles jd).dd + (moonAngles jd).ms)
  have h18u := Real.cos_le_one (2 * (moonAngles jd).dd + (moonAngles jd).ms)
  have h19l := Real.neg_one_le_cos ((moonAngles jd).ml - (moonAngles jd).ms + 2 * (moonAngles jd).dd)
  have h19u := Real.cos_le_one ((moonAngles jd).ml - (moonAngles jd).ms + 2 * (moonAngles jd).dd)
  have h20l := Real.neg_one_le_cos (2 * (moonAngles jd).f - (moonAngles jd).ml)
  have h20u := Real.cos_le_one (2 * (moonAngles jd).f - (moonAngles jd).ml)
  have h21l := Real.neg_one_le_cos (2 * (moonAngles jd).dd - 2 * (moonAngles jd).ml)
  have h21u := Real.cos_le_one (2 * (moonAngles jd).dd - 2 * (moonAngles jd).ml)
  have h22l := Real.neg_one_le_cos ((moonAngles jd).ml - 2 * (moonAngles jd).f - 2 * (moonAngles jd).dd)
  have h22u := Real.cos_le_one ((moonAngles jd).ml - 2 * (moonAngles jd).f - 2 * (moonAngles jd).dd)
  have h23l := Real.neg_one_le_cos (2 * (moonAngles jd).dd + (moonAngles jd).ms - (moonAngles jd).ml)
  have h23u := Real.cos_le_one (2 * (moonAngles jd).dd + (moonAngles jd).ms - (moonAngles jd).ml)
  have h24l := Real.neg_one_le_cos (2 * (moonAngles jd).dd + 2 * (moonAngles jd).f)
  have h24u := Real.cos_le_one (2 * (moonAngles jd).dd + 2 * (moonAngles jd).f)
  have h25l := Real.neg_one_le_cos (2 * (moonAngles jd).ml - (moonAngles jd).ms)
  have h25u := Real.cos_le_one (2 * (moonAngles jd).ml - (moonAngles jd).ms)
  have h26l := Real.neg_one_le_cos ((moonAngles jd).dd + (moonAngles jd).ms)
  have h26u := Real.cos_le_one ((moonAngles jd).dd + (moonAngles jd).ms)
  have h27l := Real.neg_one_le_cos ((moonAngles jd).dd + (moonAngles jd).ml)
  have h27u := Real.cos_le_one ((moonAngles jd).dd + (moonAngles jd).ml)
  have h28l := Real.neg_one_le_cos (2 * (moonAngles jd).f + 2 * (moonAngles jd).ml)
  have h28u := Real.cos_le_one (2 * (moonAngles jd).f + 2 * (moonAngles jd).ml)
  have h29l := Real.neg_one_le_cos ((moonAngles jd).ms + 2 * (moonAngles jd).ml)
  have h29u := Real.cos_le_one ((moonAngles jd).ms + 2 * (moonAngles jd).ml)
  linarith

lemma keplerGo_eq (m ex err : ℝ) :
    ∀ (n : ℕ) (e d : ℝ),
      PanchangUtils.keplerGo m ex err n e d = solveKeplerGo m ex err n e d := by
  intro n
  induction n with
  | zero => intro e d; rfl
  | succ n ih =>
      intro e d
      rw [PanchangUtils.keplerGo, solveKeplerGo]
      split_ifs
      · exact ih _ _
      · rfl

/-- C3 counterexample: the two engines do not agree on the Moon angular
velocity.  At J2000 noon the free engine stores the series value (greater
than 10 degrees per day) into its context, while the namespace engine never
writes its `skor` global, which keeps its initial value 0; the namespace
boundary solvers then step with this stale divisor. -/
theorem panchang_claim_C3_counterexample :
    (computeMoonLongitude 2451545 Ctx.init).2.moonAngularVelocity ≠
      (PanchangUtils.moon 2451545 PUState.init).2.skor ∧
    PanchangUtils.dTimeVal (1739501.5 : ℝ) ≠ computeDeltaT (1739501.5 : ℝ) := by
  refine ⟨?_, deltaT_copies_differ_at_50⟩
  have hfree : (computeMoonLongitude 2451545 Ctx.init).2.moonAngularVelocity =
      moonVelocity 2451545 := rfl
  have hns : (PanchangUtils.moon 2451545 PUState.init).2.skor = 0 := rfl
  rw [hfree, hns]
  have := moonVelocity_gt_ten 2451545
  linarith

/-- C3, corrected: the calendar and Kepler helpers are identical between
the two copies (pointwise equal functions), and the correction tables are
shared; the two delta-T copies agree whenever the computed calendar year
is outside 0 to 99, but drift there because the rewritten copy reads the
year through the JS `Date` constructor rule while the namespace copy reads
the raw `kyear` global; the astronomical series also drifted, and in
particular the namespace `moon` routine never writes the angular-velocity
global `skor`, while the free engine always stores a velocity above 10
degrees per day, so the two engines do not return equal angular
velocities. -/
theorem panchang_claim_C3 :
    (∀ (m : ℤ) (d : ℝ) (y : ℤ),
        PanchangUtils.mdy2julian m d y = convertMdyToJulian m d y) ∧
    (∀ jd : ℝ, PanchangUtils.calDataFields jd = convertJulianToDate jd) ∧
    (∀ jd : ℝ,
        ¬(0 ≤ (convertJulianToDate jd).year ∧ (convertJulianToDate jd).year ≤ 99) →
        PanchangUtils.dTimeVal jd = computeDeltaT jd) ∧
    (∀ jd : ℝ, PanchangUtils.weekDay jd = getWeekdayIndex jd) ∧
    (∀ (fuel : ℕ) (m ex err : ℝ),
        PanchangUtils.kepler fuel m ex err = solveKepler fuel m ex err) ∧
    (∀ x : ℝ, PanchangUtils.fix360 x = normalizeAngle x) ∧
    (∀ (jd : ℝ) (s : PUState), (PanchangUtils.moon jd s).2.skor = s.skor) ∧
    (∀ jd : ℝ, 10 < moonVelocity jd) := by
  refine ⟨fun m d y => rfl, fun jd => rfl, ?_, fun jd => rfl,
    ?_, fix360_eq_normalizeAngle, fun jd s => rfl, moonVelocity_gt_ten⟩
  · intro jd hy
    rw [dTimeVal_eq_spec, computeDeltaT_eq_specDate]
    simp only [deltaTSpecFn, deltaTSpecFnDate]
    rw [if_neg hy]
  · intro fuel m ex err
    simp only [PanchangUtils.kepler, solveKepler]
    exact keplerGo_eq _ _ _ _ _ _

lemma adjDiffIdx_range (a b : ℝ) (ha0 : 0 ≤ a) (ha1 : a < 360)
    (hb0 : 0 ≤ b) (hb1 : b < 360) :
    0 ≤ ⌊((if a < b then a + 360 else a) - b) / 12⌋ ∧
    ⌊((if a < b then a + 360 else a) - b) / 12⌋ < 30 := by
  have hd : 0 ≤ (if a < b then a + 360 else a) - b ∧
      (if a < b then a + 360 else a) - b < 360 := by
    split_ifs with h
    · constructor <;> linarith
    · push_neg at h
      constructor <;> linarith
  constructor
  · exact Int.floor_nonneg.mpr (div_nonneg hd.1 (by norm_num))
  · rw [Int.floor_lt]
    rw [div_lt_iff (by norm_num : (0 : ℝ) < 12)]
    push_cast
    linarith [hd.2]

lemma adjDiffKarana_range (a b : ℝ) (ha0 : 0 ≤ a) (ha1 : a < 360)
    (hb0 : 0 ≤ b) (hb1 : b < 360) :
    0 ≤ ⌊((if a < b then a + 360 else a) - b) / 6⌋ ∧
    ⌊((if a < b then a + 360 else a) - b) / 6⌋ ≤ 59 := by
  have hd : 0 ≤ (if a < b then a + 360 else a) - b ∧
      (if a < b then a + 360 else a) - b < 360 := by
    split_ifs with h
    · constructor <;> linarith
    · push_neg at h
      constructor <;> linarith
  constructor
  · exact Int.floor_nonneg.mpr (div_nonneg hd.1 (by norm_num))
  · have : ⌊((if a < b then a + 360 else a) - b) / 6⌋ < 60 := by
      rw [Int.floor_lt]
      rw [div_lt_iff (by norm_num : (0 : ℝ) < 6)]
      push_cast
      linarith [hd.2]
    omega

lemma sixthIdx_range (x : ℝ) (h0 : 0 ≤ x) (h1 : x < 360) :
    0 ≤ ⌊(x * 6) / 80⌋ ∧ ⌊(x * 6) / 80⌋ < 27 := by
  constructor
  · exact Int.floor_nonneg.mpr (div_nonneg (by linarith) (by norm_num))
  · rw [Int.floor_lt]
    rw [div_lt_iff (by norm_num : (0 : ℝ) < 80)]
    push_cast
    linarith

lemma zodiacIdx_range (x : ℝ) (h0 : 0 ≤ x) (h1 : x < 360) :
    0 ≤ ⌊|x| / 30⌋ ∧ ⌊|x| / 30⌋ < 12 := by
  rw [abs_of_nonneg h0]
  constructor
  · exact Int.floor_nonneg.mpr (div_nonneg h0 (by norm_num))
  · rw [Int.floor_lt]
    rw [div_lt_iff (by norm_num : (0 : ℝ) < 30)]
    push_cast
    linarith

lemma karanaIndexOf_range (n : ℤ) (h0 : 0 ≤ n) (h1 : n ≤ 59) :
    0 ≤ karanaIndexOf n ∧ karanaIndexOf n < 11 := by
  unfold karanaIndexOf
  split_ifs with hz h57
  · norm_num
  · omega
  · rw [show ((n : ℝ) - 1) = ((n - 1 : ℤ) : ℝ) by push_cast; ring, flDiv7]
    omega

lemma mod7Floor_range (w : ℝ) :
    0 ≤ ⌊w - (⌊w / 7⌋ : ℝ) * 7⌋ ∧ ⌊w - (⌊w / 7⌋ : ℝ) * 7⌋ < 7 := by
  have h1 : (⌊w / 7⌋ : ℝ) * 7 ≤ w := by
    have := (le_div_iff (by norm_num : (0 : ℝ) < 7)).mp (Int.floor_le (w / 7))
    linarith
  have h2 : w < ((⌊w / 7⌋ : ℝ) + 1) * 7 := by
    have := (div_lt_iff (by norm_num : (0 : ℝ) < 7)).mp (Int.lt_floor_add_one (w / 7))
    linarith
  constructor
  · exact Int.floor_nonneg.mpr (by linarith)
  · rw [Int.floor_lt]
    push_cast
    linarith

lemma getWeekdayIndex_range (jd : ℝ) :
    0 ≤ getWeekdayIndex jd ∧ getWeekdayIndex jd < 7 := by
  simp only [getWeekdayIndex]
  exact mod7Floor_range _

lemma weekDay_eq (jd : ℝ) : PanchangUtils.weekDay jd = getWeekdayIndex jd := rfl

lemma yogaIdxAddLoop_nonneg (i : ℤ) : 0 ≤ yogaIdxAddLoop i := by
  have H : ∀ (n : ℕ) (i : ℤ), (-i).toNat ≤ n → 0 ≤ yogaIdxAddLoop i := by
    intro n
    induction n with
    | zero =>
        intro i h
        rw [yogaIdxAddLoop, if_neg (by omega)]
        omega
    | succ n ih =>
        intro i h
        by_cases hi : i < 0
        · rw [yogaIdxAddLoop, if_pos hi]
          exact ih (i + 27) (by omega)
        · rw [yogaIdxAddLoop, if_neg hi]
          omega
  exact H (-i).toNat i le_rfl

lemma yogaIdxSubLoop_spec (i : ℤ) (h : 0 ≤ i) :
    0 ≤ yogaIdxSubLoop i ∧ yogaIdxSubLoop i < 27 := by
  have H : ∀ (n : ℕ) (i : ℤ), 0 ≤ i → i.toNat ≤ n →
      0 ≤ yogaIdxSubLoop i ∧ yogaIdxSubLoop i < 27 := by
    intro n
    induction n with
    | zero =>
        intro i h0 hn
        rw [yogaIdxSubLoop, if_neg (by omega)]
        omega
    | succ n ih =>
        intro i h0 hn
        by_cases hi : 27 ≤ i
        · rw [yogaIdxSubLoop, if_pos hi]
          exact ih (i - 27) (by omega) (by omega)
        · rw [yogaIdxSubLoop, if_neg hi]
          omega
  exact H i.toNat i h le_rfl

lemma yogaRealAddLoop_nonneg (x : ℝ) : 0 ≤ yogaRealAddLoop x := by
  generalize hn : (⌈(-x) / 27⌉).toNat = n
  induction n generalizing x with
  | zero =>
      have hx : 0 ≤ x := by
        by_contra hneg
        push_neg at hneg
        have : 0 < ⌈(-x) / 27⌉ :=
          Int.ceil_pos.mpr (div_pos (by linarith) (by norm_num))
        omega
      rw [yogaRealAddLoop, if_neg (not_lt.mpr hx)]
      exact hx
  | succ n ih =>
      by_cases hx : x < 0
      · have h2 : ⌈(-(x + 27)) / 27⌉ = ⌈(-x) / 27⌉ + (-1 : ℤ) := by
          rw [show (-(x + 27)) / 27 = (-x) / 27 + ((-1 : ℤ) : ℝ) by push_cast; ring]
          rw [Int.ceil_add_int]
        have h1 : 0 < ⌈(-x) / 27⌉ :=
          Int.ceil_pos.mpr (div_pos (by linarith) (by norm_num))
        rw [yogaRealAddLoop, if_pos hx]
        exact ih (x + 27) (by omega)
      · push_neg at hx
        rw [yogaRealAddLoop, if_neg (not_lt.mpr hx)]
        exact hx

lemma yogaRealSubLoop_spec (x : ℝ) (hx : 0 ≤ x) :
    0 ≤ yogaRealSubLoop x ∧ yogaRealSubLoop x ≤ 27 := by
  generalize hn : (⌊x / 27⌋).toNat = n
  induction n generalizing x with
  | zero =>
      have hlt : x ≤ 27 := by
        by_contra hge
        push_neg at hge
        have : 0 < ⌊x / 27⌋ := by
          rw [Int.lt_iff_add_one_le, zero_add, Int.le_floor]
          rw [show ((1 : ℤ) : ℝ) = 1 by norm_num,
            le_div_iff (by norm_num : (0 : ℝ) < 27)]
          linarith
        omega
      rw [yogaRealSubLoop, if_neg (by push_neg; exact hlt)]
      exact ⟨hx, hlt⟩
  | succ n ih =>
      by_cases hgt : x > 27
      · have h2 : ⌊(x - 27) / 27⌋ = ⌊x / 27⌋ + (-1 : ℤ) := by
          rw [show (x - 27) / 27 = x / 27 + ((-1 : ℤ) : ℝ) by push_cast; ring]
          rw [Int.floor_add_int]
        have h1 : 0 < ⌊x / 27⌋ := by
          rw [Int.lt_iff_add_one_le, zero_add, Int.le_floor]
          rw [show ((1 : ℤ) : ℝ) = 1 by norm_num,
            le_div_iff (by norm_num : (0 : ℝ) < 27)]
          linarith
        rw [yogaRealSubLoop, if_pos hgt]
        exact ih (x - 27) (by linarith) (by omega)
      · push_neg at hgt
        rw [yogaRealSubLoop, if_neg (by push_neg; exact hgt)]
        exact ⟨hx, hgt⟩

lemma computeSunLongitude_fst_mem (fuel : ℕ) (jd : ℝ) (ctx : Ctx)
    (p : ℝ × Ctx) (h : computeSunLongitude fuel jd ctx = some p) :
    0 ≤ p.1 ∧ p.1 < 360 := by
  simp only [computeSunLongitude] at h
  split at h
  · exact absurd h (by simp)
  · rw [Option.some_inj] at h
    rw [← h]
    exact normalizeAngle_mem _

lemma sun_fst_mem (fuel : ℕ) (jd : ℝ) (s : PUState)
    (p : ℝ × PUState) (h : PanchangUtils.sun fuel jd s = some p) :
    0 ≤ p.1 ∧ p.1 < 360 := by
  simp only [PanchangUtils.sun] at h
  split at h
  · exact absurd h (by simp)
  · rw [Option.some_inj] at h
    rw [← h]
    rw [fix360_eq_normalizeAngle]
    exact normalizeAngle_mem _

lemma computeMoonLongitude_fst_mem (jd : ℝ) (ctx : Ctx) :
    0 ≤ (computeMoonLongitude jd ctx).1 ∧ (computeMoonLongitude jd ctx).1 < 360 :=
  normalizeAngle_mem _

lemma moon_fst_mem (jd : ℝ) (s : PUState) :
    0 ≤ (PanchangUtils.moon jd s).1 ∧ (PanchangUtils.moon jd s).1 < 360 := by
  rw [show (PanchangUtils.moon jd s).1 = PanchangUtils.fix360 (PanchangUtils.moonRaw jd)
    from rfl, fix360_eq_normalizeAngle]
  exact normalizeAngle_mem _

lemma floorVal27_mem (v : ℝ) (h0 : 0 ≤ v) (h1 : v ≤ 27) :
    0 ≤ ⌊v⌋ ∧ ⌊v⌋ ≤ 27 := by
  constructor
  · exact Int.floor_nonneg.mpr h0
  · have := Int.floor_le_floor h1
    simpa using this

/-- C4 counterexample: in the class implementation the yoga normalization
loop uses the strict bound `x > 27`, so the index mapping attains 27 (one
past the last valid yoga table slot) on the in-range raw yoga angle 360. -/
theorem panchang_claim_C4_counterexample :
    ⌊yogaRealSubLoop (yogaRealAddLoop ((360 * 6 : ℝ) / 80))⌋ = 27 := by
  rw [show (360 * 6 : ℝ) / 80 = 27 by norm_num]
  rw [yogaRealAddLoop, if_neg (by norm_num)]
  rw [yogaRealSubLoop, if_neg (by norm_num)]
  norm_num

lemma fix360_mem (x : ℝ) :
    0 ≤ PanchangUtils.fix360 x ∧ PanchangUtils.fix360 x < 360 := by
  rw [fix360_eq_normalizeAngle]
  exact normalizeAngle_mem x

/-- C4, corrected: every index returned by `PanchangCalculator.calculate`
lies in its claimed range, and so does every index returned by the class
variant except the yoga index, for which the class normalization loop only
guarantees `[0, 27]` (its bound is strict, so the boundary value 27 is not
wrapped to 0). -/
theorem panchang_claim_C4 (kfuel fuel : ℕ) (inp : DateInput) :
    (∀ r : AlmanacResultM, PanchangCalculator.calculate kfuel fuel inp = some r →
       (0 ≤ r.tithiIndex ∧ r.tithiIndex < 30) ∧
       (0 ≤ r.nakshatraIndex ∧ r.nakshatraIndex < 27) ∧
       (0 ≤ r.karanaIndex ∧ r.karanaIndex < 11) ∧
       (0 ≤ r.yogaIndex ∧ r.yogaIndex < 27) ∧
       (0 ≤ r.zodiacIndex ∧ r.zodiacIndex < 12) ∧
       (0 ≤ r.weekdayIndex ∧ r.weekdayIndex < 7)) ∧
    (∀ (r : AlmanacResultM) (s0 s : PUState),
       Panchang.calculate kfuel fuel inp s0 = some (r, s) →
       (0 ≤ r.tithiIndex ∧ r.tithiIndex < 30) ∧
       (0 ≤ r.nakshatraIndex ∧ r.nakshatraIndex < 27) ∧
       (0 ≤ r.karanaIndex ∧ r.karanaIndex < 11) ∧
       (0 ≤ r.yogaIndex ∧ r.yogaIndex ≤ 27) ∧
       (0 ≤ r.zodiacIndex ∧ r.zodiacIndex < 12) ∧
       (0 ≤ r.weekdayIndex ∧ r.weekdayIndex < 7)) := by
  constructor
  · intro r hr
    simp only [PanchangCalculator.calculate] at hr
    split at hr
    · simp at hr
    rename_i sunL ctx4 hsun
    split at hr
    · simp at hr
    rename_i yseg ctx5 hyoga
    split at hr
    · simp at hr
    rename_i nseg ctx6 hnak
    split at hr
    · simp at hr
    rename_i tseg ctx7 htit
    split at hr
    · simp at hr
    rename_i kseg ctx8 hkar
    rw [Option.some_inj] at hr
    subst hr
    have hsunm := computeSunLongitude_fst_mem _ _ _ _ hsun
    refine ⟨?_, ?_, ?_, ?_, ?_, ?_⟩
    · exact adjDiffIdx_range _ _ (computeMoonLongitude_fst_mem _ _).1
        (computeMoonLongitude_fst_mem _ _).2 hsunm.1 hsunm.2
    · exact sixthIdx_range _ (normalizeAngle_mem _).1 (normalizeAngle_mem _).2
    · exact karanaIndexOf_range _
        (adjDiffKarana_range _ _ (computeMoonLongitude_fst_mem _ _).1
          (computeMoonLongitude_fst_mem _ _).2 hsunm.1 hsunm.2).1
        (adjDiffKarana_range _ _ (computeMoonLongitude_fst_mem _ _).1
          (computeMoonLongitude_fst_mem _ _).2 hsunm.1 hsunm.2).2
    · exact yogaIdxSubLoop_spec _ (yogaIdxAddLoop_nonneg _)
    · exact zodiacIdx_range _ (normalizeAngle_mem _).1 (normalizeAngle_mem _).2
    · exact getWeekdayIndex_range _
  · intro r s0 s hr
    simp only [Panchang.calculate] at hr
    split at hr
    · simp at hr
    rename_i sunL s4 hsun
    split at hr
    · simp at hr
    rename_i yseg s5 hyoga
    split at hr
    · simp at hr
    rename_i nseg s6 hnak
    split at hr
    · simp at hr
    rename_i tseg s7 htit
    split at hr
    · simp at hr
    rename_i kseg s8 hkar
    rw [Option.some_inj, Prod.mk.injEq] at hr
    obtain ⟨hr1, hr2⟩ := hr
    subst hr1
    have hsunm := sun_fst_mem _ _ _ _ hsun
    refine ⟨?_, ?_, ?_, ?_, ?_, ?_⟩
    · exact adjDiffIdx_range _ _ (moon_fst_mem _ _).1 (moon_fst_mem _ _).2
        hsunm.1 hsunm.2
    · exact sixthIdx_range _ (fix360_mem _).1 (fix360_mem _).2
    · exact karanaIndexOf_range _
        (adjDiffKarana_range _ _ (moon_fst_mem _ _).1 (moon_fst_mem _ _).2
          hsunm.1 hsunm.2).1
        (adjDiffKarana_range _ _ (moon_fst_mem _ _).1 (moon_fst_mem _ _).2
          hsunm.1 hsunm.2).2
    · exact floorVal27_mem _ (yogaRealSubLoop_spec _ (yogaRealAddLoop_nonneg _)).1
        (yogaRealSubLoop_spec _ (yogaRealAddLoop_nonneg _)).2
    · exact zodiacIdx_range _ (fix360_mem _).1 (fix360_mem _).2
    · exact getWeekdayIndex_range _

/-! ### C7 machinery: the only state the class engine ever reads back is
the triple (skor, dt, ayanamsa); everything else it writes before reading. -/

def stateSig (s : PUState) : ℝ × ℝ × ℝ := (s.skor, s.dt, s.ayanamsa)

lemma stateSig_eq_iff (s t : PUState) :
    stateSig s = stateSig t ↔
      s.skor = t.skor ∧ s.dt = t.dt ∧ s.ayanamsa = t.ayanamsa := by
  simp [stateSig, Prod.ext_iff]

lemma stateSig_calData (jd : ℝ) (s : PUState) :
    stateSig (PanchangUtils.calData jd s).2 = stateSig s := rfl

lemma calData_fst (jd : ℝ) (s : PUState) :
    (PanchangUtils.calData jd s).1 = PanchangUtils.calDataFields jd := rfl

lemma moon_fst (jd : ℝ) (s : PUState) :
    (PanchangUtils.moon jd s).1 =
      PanchangUtils.fix360 (PanchangUtils.moonRaw jd) := rfl

lemma moon_snd (jd : ℝ) (s : PUState) :
    (PanchangUtils.moon jd s).2 = { s with LmoonYoga := PanchangUtils.moonRaw jd } :=
  rfl

noncomputable def sunLsOpt (fuel : ℕ) (jd : ℝ) : Option ℝ :=
  (PanchangUtils.sun fuel jd PUState.init).map (fun p => p.2.LsunYoga)

lemma sun_eq (fuel : ℕ) (jd : ℝ) (s : PUState) :
    PanchangUtils.sun fuel jd s =
      (sunLsOpt fuel jd).map
        (fun l => (PanchangUtils.fix360 l, { s with LsunYoga := l })) := by
  simp only [PanchangUtils.sun, sunLsOpt]
  split <;> rfl

noncomputable def tithiLoopP (kfuel : ℕ) (aspect skor : ℝ) : ℕ → ℝ → Option (ℝ × ℝ)
  | 0, _ => none
  | n + 1, jdt =>
      match sunLsOpt kfuel jdt with
      | none => none
      | some l =>
          let lsun := PanchangUtils.fix360 l
          let lmoon := PanchangUtils.fix360 (PanchangUtils.moonRaw jdt)
          let a := PanchangUtils.fix360 (lsun + aspect)
          let asp1 := a - lmoon
          let asp2 := if asp1 > 180 then asp1 - 360 else asp1
          let asp3 := if asp2 < -180 then asp2 + 360 else asp2
          if |asp3| > 0.001 then
            tithiLoopP kfuel aspect skor n (jdt + asp3 / (skor - 1))
          else some (jdt, l)

lemma tithiLoop_eq (kfuel : ℕ) (aspect : ℝ) :
    ∀ (n : ℕ) (jdt : ℝ) (s : PUState),
      PanchangUtils.tithiLoop kfuel aspect n jdt s =
        (tithiLoopP kfuel aspect s.skor n jdt).map
          (fun p =>
            (p.1, { s with LsunYoga := p.2, LmoonYoga := PanchangUtils.moonRaw p.1 })) := by
  intro n
  induction n with
  | zero => intro jdt s; rfl
  | succ n ih =>
      intro jdt s
      simp only [PanchangUtils.tithiLoop, tithiLoopP]
      rw [sun_eq kfuel jdt s]
      cases hsl : sunLsOpt kfuel jdt with
      | none => rfl
      | some l =>
          simp only [Option.map_some', moon_fst, moon_snd]
          split_ifs <;> first | exact ih _ _ | rfl

noncomputable def nakshatraLoopP (target ayan skor : ℝ) : ℕ → ℝ → Option ℝ
  | 0, _ => none
  | n + 1, jdt =>
      let lmoon := PanchangUtils.fix360 (PanchangUtils.moonRaw jdt)
      let lmoon0 := PanchangUtils.fix360 (lmoon + ayan)
      let asp1 := target - lmoon0
      let asp2 := if asp1 > 180 then asp1 - 360 else asp1
      let asp3 := if asp2 < -180 then asp2 + 360 else asp2
      if |asp3| > 0.001 then nakshatraLoopP target ayan skor n (jdt + asp3 / skor)
      else some jdt

lemma nakshatraLoop_eq (target : ℝ) :
    ∀ (n : ℕ) (jdt : ℝ) (s : PUState),
      PanchangUtils.nakshatraLoop target n jdt s =
        (nakshatraLoopP target s.ayanamsa s.skor n jdt).map
          (fun j => (j, { s with LmoonYoga := PanchangUtils.moonRaw j })) := by
  intro n
  induction n with
  | zero => intro jdt s; rfl
  | succ n ih =>
      intro jdt s
      simp only [PanchangUtils.nakshatraLoop, nakshatraLoopP]
      simp only [moon_fst, moon_snd]
      split_ifs <;> first | exact ih _ _ | rfl

noncomputable def yogaLoopP (kfuel : ℕ) (bound ayan skor : ℝ) : ℕ → ℝ → Option (ℝ × ℝ)
  | 0, _ => none
  | n + 1, jdt =>
      match sunLsOpt kfuel jdt with
      | none => none
      | some l =>
          let dm := PanchangUtils.moonRaw jdt + ayan - 491143.07698973856
          let ds := l + ayan - 36976.91240579201
          let z := dm + ds
          let asp1 := bound - z
          if |asp1| > 0.001 then
            yogaLoopP kfuel bound ayan skor n (jdt + asp1 / (skor + 1.0145616633))
          else some (jdt, l)

lemma yogaLoop_eq (kfuel : ℕ) (bound : ℝ) :
    ∀ (n : ℕ) (jdt : ℝ) (s : PUState),
      PanchangUtils.yogaLoop kfuel bound n jdt s =
        (yogaLoopP kfuel bound s.ayanamsa s.skor n jdt).map
          (fun p =>
            (p.1, { s with LsunYoga := p.2, LmoonYoga := PanchangUtils.moonRaw p.1 })) := by
  intro n
  induction n with
  | zero => intro jdt s; rfl
  | succ n ih =>
      intro jdt s
      simp only [PanchangUtils.yogaLoop, yogaLoopP]
      rw [sun_eq kfuel jdt s]
      cases hsl : sunLsOpt kfuel jdt with
      | none => rfl
      | some l =>
          simp only [Option.map_some', moon_fst, moon_snd]
          split_ifs <;> first | exact ih _ _ | rfl

noncomputable def tithiBoundaryP (kfuel fuel : ℕ) (jd : ℝ) (knv : ℤ)
    (aspect jdt skor : ℝ) : Option ℝ :=
  if aspect = 0 then some (PanchangUtils.novolun jd (knv : ℝ))
  else if aspect = 360 then some (PanchangUtils.novolun jd ((knv : ℝ) + 1))
  else (tithiLoopP kfuel aspect skor fuel jdt).map Prod.fst

lemma tithiBoundary_map_fst (kfuel fuel : ℕ) (jd : ℝ) (knv : ℤ)
    (aspect jdt : ℝ) (s : PUState) :
    (PanchangUtils.tithiBoundary kfuel fuel jd knv aspect jdt s).map Prod.fst =
      tithiBoundaryP kfuel fuel jd knv aspect jdt s.skor := by
  simp only [PanchangUtils.tithiBoundary, tithiBoundaryP]
  split_ifs with h1 h2
  · rfl
  · rfl
  · rw [tithiLoop_eq]
    simp [Option.map_map]
    rfl

lemma tithiBoundary_sig (kfuel fuel : ℕ) (jd : ℝ) (knv : ℤ)
    (aspect jdt : ℝ) (s : PUState) (p : ℝ × PUState)
    (h : PanchangUtils.tithiBoundary kfuel fuel jd knv aspect jdt s = some p) :
    stateSig p.2 = stateSig s := by
  simp only [PanchangUtils.tithiBoundary] at h
  split_ifs at h with h1 h2
  · rw [Option.some_inj] at h
    rw [← h]
  · rw [Option.some_inj] at h
    rw [← h]
  · rw [tithiLoop_eq] at h
    obtain ⟨q, hq, rfl⟩ := Option.map_eq_some'.mp h
    rfl

lemma nakshatraLoop_map_fst (target : ℝ) (n : ℕ) (jdt : ℝ) (s : PUState) :
    (PanchangUtils.nakshatraLoop target n jdt s).map Prod.fst =
      nakshatraLoopP target s.ayanamsa s.skor n jdt := by
  rw [nakshatraLoop_eq, Option.map_map]
  cases nakshatraLoopP target s.ayanamsa s.skor n jdt <;> rfl

lemma nakshatraLoop_sig (target : ℝ) (n : ℕ) (jdt : ℝ) (s : PUState)
    (p : ℝ × PUState) (h : PanchangUtils.nakshatraLoop target n jdt s = some p) :
    stateSig p.2 = stateSig s := by
  rw [nakshatraLoop_eq] at h
  obtain ⟨q, hq, rfl⟩ := Option.map_eq_some'.mp h
  rfl

lemma yogaLoop_map_fst (kfuel : ℕ) (bound : ℝ) (n : ℕ) (jdt : ℝ) (s : PUState) :
    (PanchangUtils.yogaLoop kfuel bound n jdt s).map Prod.fst =
      (yogaLoopP kfuel bound s.ayanamsa s.skor n jdt).map Prod.fst := by
  rw [yogaLoop_eq, Option.map_map]
  cases yogaLoopP kfuel bound s.ayanamsa s.skor n jdt <;> rfl

lemma yogaLoop_sig (kfuel : ℕ) (bound : ℝ) (n : ℕ) (jdt : ℝ) (s : PUState)
    (p : ℝ × PUState) (h : PanchangUtils.yogaLoop kfuel bound n jdt s = some p) :
    stateSig p.2 = stateSig s := by
  rw [yogaLoop_eq] at h
  obtain ⟨q, hq, rfl⟩ := Option.map_eq_some'.mp h
  rfl

lemma segWrapper_facts (F G : ℝ → PUState → Option (ℝ × PUState))
    (FP GP : ℝ → ℝ × ℝ × ℝ → Option ℝ) (tzone jd0 : ℝ)
    (W : PUState → Option (TimeSegment × PUState))
    (hW : ∀ s, W s =
      match F jd0 s with
      | none => none
      | some (j1, s1) =>
          match G j1 (PanchangUtils.calData (j1 + (tzone - s1.dt) / 24) s1).2 with
          | none => none
          | some (j2, s2) =>
              some (((PanchangUtils.calData (j1 + (tzone - s1.dt) / 24) s1).1,
                     (PanchangUtils.calData (j2 + (tzone - s2.dt) / 24) s2).1),
                    (PanchangUtils.calData (j2 + (tzone - s2.dt) / 24) s2).2))
    (hF : ∀ jdt s, (F jdt s).map Prod.fst = FP jdt (stateSig s))
    (hFs : ∀ jdt s p, F jdt s = some p → stateSig p.2 = stateSig s)
    (hG : ∀ jdt s, (G jdt s).map Prod.fst = GP jdt (stateSig s))
    (hGs : ∀ jdt s p, G jdt s = some p → stateSig p.2 = stateSig s) :
    (∀ s p, W s = some p → stateSig p.2 = stateSig s) ∧
    (∀ s t, stateSig s = stateSig t → (W s).map Prod.fst = (W t).map Prod.fst) := by
  constructor
  · intro s p h
    rw [hW] at h
    cases hbs : F jd0 s with
    | none => rw [hbs] at h; exact absurd h (by simp)
    | some p1 =>
        obtain ⟨j1, s1⟩ := p1
        rw [hbs] at h
        dsimp only at h
        cases hgs : G j1 (PanchangUtils.calData (j1 + (tzone - s1.dt) / 24) s1).2 with
        | none => rw [hgs] at h; exact absurd h (by simp)
        | some p2 =>
            obtain ⟨j2, s2⟩ := p2
            rw [hgs] at h
            dsimp only at h
            rw [Option.some_inj] at h
            rw [← h]
            calc stateSig (PanchangUtils.calData (j2 + (tzone - s2.dt) / 24) s2).2
                = stateSig s2 := stateSig_calData _ _
              _ = stateSig (PanchangUtils.calData (j1 + (tzone - s1.dt) / 24) s1).2 :=
                  hGs _ _ _ hgs
              _ = stateSig s1 := stateSig_calData _ _
              _ = stateSig s := hFs _ _ _ hbs
  · intro s t hsig
    rw [hW, hW]
    have h1 : (F jd0 s).map Prod.fst = (F jd0 t).map Prod.fst := by
      rw [hF, hF, hsig]
    cases hbs : F jd0 s with
    | none =>
        rw [hbs] at h1
        have hbt : F jd0 t = none := Option.map_eq_none'.mp h1.symm
        rw [hbt]
    | some p1 =>
        obtain ⟨j1, s1⟩ := p1
        rw [hbs] at h1
        obtain ⟨⟨j1t, t1⟩, hbt, hj1⟩ := Option.map_eq_some'.mp h1.symm
        simp only at hj1
        subst hj1
        rw [hbt]
        dsimp only
        have hsig1 : stateSig s1 = stateSig t1 :=
          (hFs _ _ _ hbs).trans (hsig.trans (hFs _ _ _ hbt).symm)
        have hdt1 : s1.dt = t1.dt := ((stateSig_eq_iff _ _).mp hsig1).2.1
        rw [hdt1]
        have h2 : (G j1t (PanchangUtils.calData (j1t + (tzone - t1.dt) / 24) s1).2).map
            Prod.fst =
            (G j1t (PanchangUtils.calData (j1t + (tzone - t1.dt) / 24) t1).2).map
            Prod.fst := by
          rw [hG, hG, stateSig_calData, stateSig_calData, hsig1]
        cases hgs : G j1t (PanchangUtils.calData (j1t + (tzone - t1.dt) / 24) s1).2 with
        | none =>
            rw [hgs] at h2
            have hgt := Option.map_eq_none'.mp h2.symm
            rw [hgt]
        | some p2 =>
            obtain ⟨j2, s2⟩ := p2
            rw [hgs] at h2
            obtain ⟨⟨j2t, t2⟩, hgt, hj2⟩ := Option.map_eq_some'.mp h2.symm
            simp only at hj2
            subst hj2
            rw [hgt]
            dsimp only
            have hsig2 : stateSig s2 = stateSig t2 :=
              (hGs _ _ _ hgs).trans
                (((stateSig_calData _ _).trans
                  (hsig1.trans (stateSig_calData _ _).symm)).trans
                  (hGs _ _ _ hgt).symm)
            have hdt2 : s2.dt = t2.dt := ((stateSig_eq_iff _ _).mp hsig2).2.1
            rw [hdt2]
            simp only [calData_fst, Option.map_some']

lemma tithi_facts (kfuel fuel : ℕ) (jd : ℝ) (n1 : ℤ) (tzone len : ℝ) :
    (∀ s p, PanchangUtils.tithi kfuel fuel jd n1 tzone len s = some p →
       stateSig p.2 = stateSig s) ∧
    (∀ s t, stateSig s = stateSig t →
       (PanchangUtils.tithi kfuel fuel jd n1 tzone len s).map Prod.fst =
       (PanchangUtils.tithi kfuel fuel jd n1 tzone len t).map Prod.fst) :=
  segWrapper_facts
    (fun jdt s => PanchangUtils.tithiBoundary kfuel fuel jd
      ⌊((jd - 2415020) / 365.25) * 12.3685⌋ (len * (n1 : ℝ)) jdt s)
    (fun jdt s => PanchangUtils.tithiBoundary kfuel fuel jd
      ⌊((jd - 2415020) / 365.25) * 12.3685⌋ (len * ((n1 : ℝ) + 1)) jdt s)
    (fun jdt sig => tithiBoundaryP kfuel fuel jd
      ⌊((jd - 2415020) / 365.25) * 12.3685⌋ (len * (n1 : ℝ)) jdt sig.1)
    (fun jdt sig => tithiBoundaryP kfuel fuel jd
      ⌊((jd - 2415020) / 365.25) * 12.3685⌋ (len * ((n1 : ℝ) + 1)) jdt sig.1)
    tzone jd
    (PanchangUtils.tithi kfuel fuel jd n1 tzone len)
    (fun s => rfl)
    (fun jdt s => tithiBoundary_map_fst _ _ _ _ _ _ _)
    (fun jdt s p => tithiBoundary_sig _ _ _ _ _ _ _ _)
    (fun jdt s => tithiBoundary_map_fst _ _ _ _ _ _ _)
    (fun jdt s p => tithiBoundary_sig _ _ _ _ _ _ _ _)

lemma nakshatra_facts (fuel : ℕ) (jd : ℝ) (nNaksh : ℤ) (tzone : ℝ) :
    (∀ s p, PanchangUtils.nakshatra fuel jd nNaksh tzone s = some p →
       stateSig p.2 = stateSig s) ∧
    (∀ s t, stateSig s = stateSig t →
       (PanchangUtils.nakshatra fuel jd nNaksh tzone s).map Prod.fst =
       (PanchangUtils.nakshatra fuel jd nNaksh tzone t).map Prod.fst) :=
  segWrapper_facts
    (fun jdt s => PanchangUtils.nakshatraLoop
      (PanchangUtils.fix360 (((nNaksh : ℝ) * 80) / 6)) fuel jdt s)
    (fun jdt s => PanchangUtils.nakshatraLoop
      (PanchangUtils.fix360 ((((nNaksh : ℝ) + 1) * 80) / 6)) fuel jdt s)
    (fun jdt sig => nakshatraLoopP
      (PanchangUtils.fix360 (((nNaksh : ℝ) * 80) / 6)) sig.2.2 sig.1 fuel jdt)
    (fun jdt sig => nakshatraLoopP
      (PanchangUtils.fix360 ((((nNaksh : ℝ) + 1) * 80) / 6)) sig.2.2 sig.1 fuel jdt)
    tzone jd
    (PanchangUtils.nakshatra fuel jd nNaksh tzone)
    (fun s => rfl)
    (fun jdt s => nakshatraLoop_map_fst _ _ _ _)
    (fun jdt s p => nakshatraLoop_sig _ _ _ _ _)
    (fun jdt s => nakshatraLoop_map_fst _ _ _ _)
    (fun jdt s p => nakshatraLoop_sig _ _ _ _ _)

lemma yoga_facts (kfuel fuel : ℕ) (jd zyoga tzone : ℝ) :
    (∀ s p, PanchangUtils.yoga kfuel fuel jd zyoga tzone s = some p →
       stateSig p.2 = stateSig s) ∧
    (∀ s t, stateSig s = stateSig t →
       (PanchangUtils.yoga kfuel fuel jd zyoga tzone s).map Prod.fst =
       (PanchangUtils.yoga kfuel fuel jd zyoga tzone t).map Prod.fst) :=
  segWrapper_facts
    (fun jdt s => PanchangUtils.yogaLoop kfuel
      (((⌊(zyoga * 6) / 80⌋ : ℝ) * 80) / 6) fuel jdt s)
    (fun jdt s => PanchangUtils.yogaLoop kfuel
      ((((⌊(zyoga * 6) / 80⌋ : ℝ) + 1) * 80) / 6) fuel jdt s)
    (fun jdt sig => (yogaLoopP kfuel
      (((⌊(zyoga * 6) / 80⌋ : ℝ) * 80) / 6) sig.2.2 sig.1 fuel jdt).map Prod.fst)
    (fun jdt sig => (yogaLoopP kfuel
      ((((⌊(zyoga * 6) / 80⌋ : ℝ) + 1) * 80) / 6) sig.2.2 sig.1 fuel jdt).map Prod.fst)
    tzone jd
    (PanchangUtils.yoga kfuel fuel jd zyoga tzone)
    (fun s => rfl)
    (fun jdt s => yogaLoop_map_fst _ _ _ _ _)
    (fun jdt s p => yogaLoop_sig _ _ _ _ _ _)
    (fun jdt s => yogaLoop_map_fst _ _ _ _ _)
    (fun jdt s p => yogaLoop_sig _ _ _ _ _ _)

lemma sun_sig (fuel : ℕ) (jd : ℝ) (s : PUState) (p : ℝ × PUState)
    (h : PanchangUtils.sun fuel jd s = some p) : stateSig p.2 = stateSig s := by
  rw [sun_eq] at h
  obtain ⟨l, hl, rfl⟩ := Option.map_eq_some'.mp h
  rfl

lemma calculate_skor (kfuel fuel : ℕ) (inp : DateInput) (s0 : PUState)
    (r : AlmanacResultM) (s : PUState)
    (h : Panchang.calculate kfuel fuel inp s0 = some (r, s)) : s.skor = s0.skor := by
  simp only [Panchang.calculate] at h
  split at h
  · exact absurd h (by simp)
  rename_i lsun s4 hsun
  split at h
  · exact absurd h (by simp)
  rename_i sYoga s5 hyoga
  split at h
  · exact absurd h (by simp)
  rename_i sNaksh s6 hnak
  split at h
  · exact absurd h (by simp)
  rename_i sTithi s7 htithi
  split at h
  · exact absurd h (by simp)
  rename_i sKarana s8 hkar
  rw [Option.some_inj, Prod.mk.injEq] at h
  obtain ⟨h1, h2⟩ := h
  subst h2
  have e8 : s8.skor = s7.skor :=
    congrArg Prod.fst ((tithi_facts _ _ _ _ _ _).1 _ _ hkar)
  have e7 : s7.skor = s6.skor :=
    congrArg Prod.fst ((tithi_facts _ _ _ _ _ _).1 _ _ htithi)
  have e6 : s6.skor = s5.skor :=
    congrArg Prod.fst ((nakshatra_facts _ _ _ _).1 _ _ hnak)
  have e5 : s5.skor = s4.skor :=
    congrArg Prod.fst ((yoga_facts _ _ _ _ _).1 _ _ hyoga)
  have e4 : s4.skor = s0.skor := congrArg Prod.fst (sun_sig _ _ _ _ hsun)
  exact e8.trans (e7.trans (e6.trans (e5.trans e4)))

noncomputable def chain4 (W1 W2 W3 W4 : PUState → Option (TimeSegment × PUState))
    (R : TimeSegment → TimeSegment → TimeSegment → TimeSegment → ℝ → ℝ → ℝ →
      AlmanacResultM)
    (s : PUState) : Option (AlmanacResultM × PUState) :=
  match W1 s with
  | none => none
  | some (a, s5) =>
      match W2 s5 with
      | none => none
      | some (b, s6) =>
          match W3 s6 with
          | none => none
          | some (c, s7) =>
              match W4 s7 with
              | none => none
              | some (d, s8) =>
                  some (R a b c d s.ayanamsa s5.ayanamsa s8.ayanamsa, s8)

lemma chain4_rel (W1 W2 W3 W4 : PUState → Option (TimeSegment × PUState))
    (R : TimeSegment → TimeSegment → TimeSegment → TimeSegment → ℝ → ℝ → ℝ →
      AlmanacResultM)
    (h1s : ∀ s p, W1 s = some p → stateSig p.2 = stateSig s)
    (h1r : ∀ s t, stateSig s = stateSig t → (W1 s).map Prod.fst = (W1 t).map Prod.fst)
    (h2s : ∀ s p, W2 s = some p → stateSig p.2 = stateSig s)
    (h2r : ∀ s t, stateSig s = stateSig t → (W2 s).map Prod.fst = (W2 t).map Prod.fst)
    (h3s : ∀ s p, W3 s = some p → stateSig p.2 = stateSig s)
    (h3r : ∀ s t, stateSig s = stateSig t → (W3 s).map Prod.fst = (W3 t).map Prod.fst)
    (h4s : ∀ s p, W4 s = some p → stateSig p.2 = stateSig s)
    (h4r : ∀ s t, stateSig s = stateSig t → (W4 s).map Prod.fst = (W4 t).map Prod.fst)
    (s t : PUState) (hsig : stateSig s = stateSig t) :
    (chain4 W1 W2 W3 W4 R s).map Prod.fst =
      (chain4 W1 W2 W3 W4 R t).map Prod.fst := by
  simp only [chain4]
  have hayIn : s.ayanamsa = t.ayanamsa := ((stateSig_eq_iff _ _).mp hsig).2.2
  have q1 := h1r s t hsig
  cases hb1 : W1 s with
  | none =>
      rw [hb1] at q1
      rw [Option.map_eq_none'.mp q1.symm]
  | some p1 =>
      obtain ⟨a, s5⟩ := p1
      rw [hb1] at q1
      obtain ⟨⟨aT, t5⟩, hb1t, ha⟩ := Option.map_eq_some'.mp q1.symm
      simp only at ha
      subst ha
      rw [hb1t]
      dsimp only
      have hsig5 : stateSig s5 = stateSig t5 :=
        (h1s _ _ hb1).trans (hsig.trans (h1s _ _ hb1t).symm)
      have hay5 : s5.ayanamsa = t5.ayanamsa := ((stateSig_eq_iff _ _).mp hsig5).2.2
      have q2 := h2r s5 t5 hsig5
      cases hb2 : W2 s5 with
      | none =>
          rw [hb2] at q2
          rw [Option.map_eq_none'.mp q2.symm]
      | some p2 =>
          obtain ⟨b, s6⟩ := p2
          rw [hb2] at q2
          obtain ⟨⟨bT, t6⟩, hb2t, hb⟩ := Option.map_eq_some'.mp q2.symm
          simp only at hb
          subst hb
          rw [hb2t]
          dsimp only
          have hsig6 : stateSig s6 = stateSig t6 :=
            (h2s _ _ hb2).trans (hsig5.trans (h2s _ _ hb2t).symm)
          have q3 := h3r s6 t6 hsig6
          cases hb3 : W3 s6 with
          | none =>
              rw [hb3] at q3
              rw [Option.map_eq_none'.mp q3.symm]
          | some p3 =>
              obtain ⟨c, s7⟩ := p3
              rw [hb3] at q3
              obtain ⟨⟨cT, t7⟩, hb3t, hc⟩ := Option.map_eq_some'.mp q3.symm
              simp only at hc
              subst hc
              rw [hb3t]
              dsimp only
              have hsig7 : stateSig s7 = stateSig t7 :=
                (h3s _ _ hb3).trans (hsig6.trans (h3s _ _ hb3t).symm)
              have q4 := h4r s7 t7 hsig7
              cases hb4 : W4 s7 with
              | none =>
                  rw [hb4] at q4
                  rw [Option.map_eq_none'.mp q4.symm]
              | some p4 =>
                  obtain ⟨d, s8⟩ := p4
                  rw [hb4] at q4
                  obtain ⟨⟨dT, t8⟩, hb4t, hd⟩ := Option.map_eq_some'.mp q4.symm
                  simp only at hd
                  subst hd
                  rw [hb4t]
                  dsimp only
                  have hsig8 : stateSig s8 = stateSig t8 :=
                    (h4s _ _ hb4).trans (hsig7.trans (h4s _ _ hb4t).symm)
                  have hay8 : s8.ayanamsa = t8.ayanamsa :=
                    ((stateSig_eq_iff _ _).mp hsig8).2.2
                  rw [hayIn, hay5, hay8]
                  rfl

lemma calculate_rel (kfuel fuel : ℕ) (inp : DateInput) (s0 t0 : PUState)
    (h : s0.skor = t0.skor) :
    (Panchang.calculate kfuel fuel inp s0).map Prod.fst =
      (Panchang.calculate kfuel fuel inp t0).map Prod.fst := by
  have hcalc : ∀ u : PUState, Panchang.calculate kfuel fuel inp u =
      match sunLsOpt kfuel (PanchangUtils.mdy2julian inp.month (inp.day : ℝ) inp.year + (inp.hour - inp.tzone) / 24 + PanchangUtils.dTimeVal (PanchangUtils.mdy2julian inp.month (inp.day : ℝ) inp.year + (inp.hour - inp.tzone) / 24) / 24) with
      | none => none
      | some l => chain4 (fun st => PanchangUtils.yoga kfuel fuel (PanchangUtils.mdy2julian inp.month (inp.day : ℝ) inp.year + (inp.hour - inp.tzone) / 24 + PanchangUtils.dTimeVal (PanchangUtils.mdy2julian inp.month (inp.day : ℝ) inp.year + (inp.hour - inp.tzone) / 24) / 24) (PanchangUtils.moonRaw (PanchangUtils.mdy2julian inp.month (inp.day : ℝ) inp.year + (inp.hour - inp.tzone) / 24 + PanchangUtils.dTimeVal (PanchangUtils.mdy2julian inp.month (inp.day : ℝ) inp.year + (inp.hour - inp.tzone) / 24) / 24) + st.ayanamsa - 491143.07698973856 + (l + st.ayanamsa - 36976.91240579201)) inp.tzone st) (fun st => PanchangUtils.nakshatra fuel (PanchangUtils.mdy2julian inp.month (inp.day : ℝ) inp.year + (inp.hour - inp.tzone) / 24 + PanchangUtils.dTimeVal (PanchangUtils.mdy2julian inp.month (inp.day : ℝ) inp.year + (inp.hour - inp.tzone) / 24) / 24) ⌊(PanchangUtils.fix360 (PanchangUtils.fix360 (PanchangUtils.moonRaw (PanchangUtils.mdy2julian inp.month (inp.day : ℝ) inp.year + (inp.hour - inp.tzone) / 24 + PanchangUtils.dTimeVal (PanchangUtils.mdy2julian inp.month (inp.day : ℝ) inp.year + (inp.hour - inp.tzone) / 24) / 24)) + st.ayanamsa) * 6) / 80⌋ inp.tzone st) (fun st => PanchangUtils.tithi kfuel fuel (PanchangUtils.mdy2julian inp.month (inp.day : ℝ) inp.year + (inp.hour - inp.tzone) / 24 + PanchangUtils.dTimeVal (PanchangUtils.mdy2julian inp.month (inp.day : ℝ) inp.year + (inp.hour - inp.tzone) / 24) / 24) ⌊((if PanchangUtils.fix360 (PanchangUtils.moonRaw (PanchangUtils.mdy2julian inp.month (inp.day : ℝ) inp.year + (inp.hour - inp.tzone) / 24 + PanchangUtils.dTimeVal (PanchangUtils.mdy2julian inp.month (inp.day : ℝ) inp.year + (inp.hour - inp.tzone) / 24) / 24)) < PanchangUtils.fix360 l then PanchangUtils.fix360 (PanchangUtils.moonRaw (PanchangUtils.mdy2julian inp.month (inp.day : ℝ) inp.year + (inp.hour - inp.tzone) / 24 + PanchangUtils.dTimeVal (PanchangUtils.mdy2julian inp.month (inp.day : ℝ) inp.year + (inp.hour - inp.tzone) / 24) / 24)) + 360 else PanchangUtils.fix360 (PanchangUtils.moonRaw (PanchangUtils.mdy2julian inp.month (inp.day : ℝ) inp.year + (inp.hour - inp.tzone) / 24 + PanchangUtils.dTimeVal (PanchangUtils.mdy2julian inp.month (inp.day : ℝ) inp.year + (inp.hour - inp.tzone) / 24) / 24))) - PanchangUtils.fix360 l) / 12⌋ inp.tzone 12 st) (fun st => PanchangUtils.tithi kfuel fuel (PanchangUtils.mdy2julian inp.month (inp.day : ℝ) inp.year + (inp.hour - inp.tzone) / 24 + PanchangUtils.dTimeVal (PanchangUtils.mdy2julian inp.month (inp.day : ℝ) inp.year + (inp.hour - inp.tzone) / 24) / 24) ⌊((if PanchangUtils.fix360 (PanchangUtils.moonRaw (PanchangUtils.mdy2julian inp.month (inp.day : ℝ) inp.year + (inp.hour - inp.tzone) / 24 + PanchangUtils.dTimeVal (PanchangUtils.mdy2julian inp.month (inp.day : ℝ) inp.year + (inp.hour - inp.tzone) / 24) / 24)) < PanchangUtils.fix360 l then PanchangUtils.fix360 (PanchangUtils.moonRaw (PanchangUtils.mdy2julian inp.month (inp.day : ℝ) inp.year + (inp.hour - inp.tzone) / 24 + PanchangUtils.dTimeVal (PanchangUtils.mdy2julian inp.month (inp.day : ℝ) inp.year + (inp.hour - inp.tzone) / 24) / 24)) + 360 else PanchangUtils.fix360 (PanchangUtils.moonRaw (PanchangUtils.mdy2julian inp.month (inp.day : ℝ) inp.year + (inp.hour - inp.tzone) / 24 + PanchangUtils.dTimeVal (PanchangUtils.mdy2julian inp.month (inp.day : ℝ) inp.year + (inp.hour - inp.tzone) / 24) / 24))) - PanchangUtils.fix360 l) / 6⌋ inp.tzone 6 st)
          (fun a b c d ay4 ay5 ay8 => 
      { weekdayIndex := PanchangUtils.weekDay (PanchangUtils.mdy2julian inp.month ((inp.day : ℝ) + inp.hour / 24) inp.year)
        ayanamsaValue := ay8
        zodiacIndex := ⌊|PanchangUtils.fix360 (PanchangUtils.fix360 (PanchangUtils.moonRaw (PanchangUtils.mdy2julian inp.month (inp.day : ℝ) inp.year + (inp.hour - inp.tzone) / 24 + PanchangUtils.dTimeVal (PanchangUtils.mdy2julian inp.month (inp.day : ℝ) inp.year + (inp.hour - inp.tzone) / 24) / 24)) + ay8)| / 30⌋
        nakshatraIndex := ⌊(PanchangUtils.fix360 (PanchangUtils.fix360 (PanchangUtils.moonRaw (PanchangUtils.mdy2julian inp.month (inp.day : ℝ) inp.year + (inp.hour - inp.tzone) / 24 + PanchangUtils.dTimeVal (PanchangUtils.mdy2julian inp.month (inp.day : ℝ) inp.year + (inp.hour - inp.tzone) / 24) / 24)) + ay5) * 6) / 80⌋
        nakshatraSeg := b
        karanaIndex := karanaIndexOf ⌊((if PanchangUtils.fix360 (PanchangUtils.moonRaw (PanchangUtils.mdy2julian inp.month (inp.day : ℝ) inp.year + (inp.hour - inp.tzone) / 24 + PanchangUtils.dTimeVal (PanchangUtils.mdy2julian inp.month (inp.day : ℝ) inp.year + (inp.hour - inp.tzone) / 24) / 24)) < PanchangUtils.fix360 l then PanchangUtils.fix360 (PanchangUtils.moonRaw (PanchangUtils.mdy2julian inp.month (inp.day : ℝ) inp.year + (inp.hour - inp.tzone) / 24 + PanchangUtils.dTimeVal (PanchangUtils.mdy2julian inp.month (inp.day : ℝ) inp.year + (inp.hour - inp.tzone) / 24) / 24)) + 360 else PanchangUtils.fix360 (PanchangUtils.moonRaw (PanchangUtils.mdy2julian inp.month (inp.day : ℝ) inp.year + (inp.hour - inp.tzone) / 24 + PanchangUtils.dTimeVal (PanchangUtils.mdy2julian inp.month (inp.day : ℝ) inp.year + (inp.hour - inp.tzone) / 24) / 24))) - PanchangUtils.fix360 l) / 6⌋
        karanaSeg := d
        yogaIndex := ⌊yogaRealSubLoop (yogaRealAddLoop (((PanchangUtils.moonRaw (PanchangUtils.mdy2julian inp.month (inp.day : ℝ) inp.year + (inp.hour - inp.tzone) / 24 + PanchangUtils.dTimeVal (PanchangUtils.mdy2julian inp.month (inp.day : ℝ) inp.year + (inp.hour - inp.tzone) / 24) / 24) + ay4 - 491143.07698973856 + (l + ay4 - 36976.91240579201)) * 6) / 80))⌋
        yogaSeg := a
        tithiIndex := ⌊((if PanchangUtils.fix360 (PanchangUtils.moonRaw (PanchangUtils.mdy2julian inp.month (inp.day : ℝ) inp.year + (inp.hour - inp.tzone) / 24 + PanchangUtils.dTimeVal (PanchangUtils.mdy2julian inp.month (inp.day : ℝ) inp.year + (inp.hour - inp.tzone) / 24) / 24)) < PanchangUtils.fix360 l then PanchangUtils.fix360 (PanchangUtils.moonRaw (PanchangUtils.mdy2julian inp.month (inp.day : ℝ) inp.year + (inp.hour - inp.tzone) / 24 + PanchangUtils.dTimeVal (PanchangUtils.mdy2julian inp.month (inp.day : ℝ) inp.year + (inp.hour - inp.tzone) / 24) / 24)) + 360 else PanchangUtils.fix360 (PanchangUtils.moonRaw (PanchangUtils.mdy2julian inp.month (inp.day : ℝ) inp.year + (inp.hour - inp.tzone) / 24 + PanchangUtils.dTimeVal (PanchangUtils.mdy2julian inp.month (inp.day : ℝ) inp.year + (inp.hour - inp.tzone) / 24) / 24))) - PanchangUtils.fix360 l) / 12⌋
        tithiSeg := c })
          ({ (PanchangUtils.calData (PanchangUtils.mdy2julian inp.month (inp.day : ℝ) inp.year + (inp.hour - inp.tzone) / 24) u).2 with dt := PanchangUtils.dTimeVal (PanchangUtils.mdy2julian inp.month (inp.day : ℝ) inp.year + (inp.hour - inp.tzone) / 24), ayanamsa := PanchangUtils.calcayan (PanchangUtils.mdy2julian inp.month (inp.day : ℝ) inp.year + (inp.hour - inp.tzone) / 24 + PanchangUtils.dTimeVal (PanchangUtils.mdy2julian inp.month (inp.day : ℝ) inp.year + (inp.hour - inp.tzone) / 24) / 24), LmoonYoga := PanchangUtils.moonRaw (PanchangUtils.mdy2julian inp.month (inp.day : ℝ) inp.year + (inp.hour - inp.tzone) / 24 + PanchangUtils.dTimeVal (PanchangUtils.mdy2julian inp.month (inp.day : ℝ) inp.year + (inp.hour - inp.tzone) / 24) / 24), LsunYoga := l }) := by
    intro u
    simp only [Panchang.calculate, PanchangUtils.dTime]
    rw [sun_eq]
    cases hx : sunLsOpt kfuel (PanchangUtils.mdy2julian inp.month (inp.day : ℝ) inp.year + (inp.hour - inp.tzone) / 24 + PanchangUtils.dTimeVal (PanchangUtils.mdy2julian inp.month (inp.day : ℝ) inp.year + (inp.hour - inp.tzone) / 24) / 24) with
    | none => rfl
    | some l => rfl
  rw [hcalc s0, hcalc t0]
  cases hx : sunLsOpt kfuel (PanchangUtils.mdy2julian inp.month (inp.day : ℝ) inp.year + (inp.hour - inp.tzone) / 24 + PanchangUtils.dTimeVal (PanchangUtils.mdy2julian inp.month (inp.day : ℝ) inp.year + (inp.hour - inp.tzone) / 24) / 24) with
  | none => rfl
  | some l =>
      dsimp only
      apply chain4_rel
      · intro s p hp
        exact (yoga_facts _ _ _ _ _).1 _ _ hp
      · intro s t hst
        have hay : s.ayanamsa = t.ayanamsa := ((stateSig_eq_iff _ _).mp hst).2.2
        rw [hay]
        exact (yoga_facts _ _ _ _ _).2 _ _ hst
      · intro s p hp
        exact (nakshatra_facts _ _ _ _).1 _ _ hp
      · intro s t hst
        have hay : s.ayanamsa = t.ayanamsa := ((stateSig_eq_iff _ _).mp hst).2.2
        rw [hay]
        exact (nakshatra_facts _ _ _ _).2 _ _ hst
      · intro s p hp
        exact (tithi_facts _ _ _ _ _ _).1 _ _ hp
      · intro s t hst
        exact (tithi_facts _ _ _ _ _ _).2 _ _ hst
      · intro s p hp
        exact (tithi_facts _ _ _ _ _ _).1 _ _ hp
      · intro s t hst
        exact (tithi_facts _ _ _ _ _ _).2 _ _ hst
      · exact (stateSig_eq_iff _ _).mpr ⟨h, rfl, rfl⟩

/-- C7: the class `calculate` is deterministic.  The only module-level
mutable variable it ever reads back is `skor` (every other global is
rewritten from the input before use), the result is the same for any two
states that agree on `skor`, and no invocation ever changes `skor`; hence
any sequence of `calculate` calls gives, for the same input instant, the
identical result, and no state observable in the result leaks from one
invocation to another.  (The rewritten `PanchangCalculator.calculate` takes
no state at all in this embedding, so its determinism is definitional.) -/
theorem panchang_claim_C7 (kfuel fuel : ℕ) (inp : DateInput) (s₁ s₂ : PUState)
    (h : s₁.skor = s₂.skor) :
    (Panchang.calculate kfuel fuel inp s₁).map Prod.fst =
      (Panchang.calculate kfuel fuel inp s₂).map Prod.fst ∧
    (Panchang.calculate kfuel fuel inp s₁).map (fun p => p.2.skor) =
      (Panchang.calculate kfuel fuel inp s₁).map (fun _ => s₁.skor) := by
  constructor
  · exact calculate_rel kfuel fuel inp s₁ s₂ h
  · cases hc : Panchang.calculate kfuel fuel inp s₁ with
    | none => rfl
    | some p =>
        obtain ⟨r, s⟩ := p
        simp only [Option.map_some']
        rw [calculate_skor kfuel fuel inp s₁ r s hc]

/-- C7 witness: the determinism statement applied at 1 January 2000 from
the initial module state. -/
theorem panchang_claim_C7_witness :
    (Panchang.calculate 0 0 ⟨1, 1, 2000, 0, 0⟩ PUState.init).map Prod.fst =
      (Panchang.calculate 0 0 ⟨1, 1, 2000, 0, 0⟩ PUState.init).map Prod.fst ∧
    (Panchang.calculate 0 0 ⟨1, 1, 2000, 0, 0⟩ PUState.init).map (fun p => p.2.skor) =
      (Panchang.calculate 0 0 ⟨1, 1, 2000, 0, 0⟩ PUState.init).map
        (fun _ => PUState.init.skor) :=
  panchang_claim_C7 0 0 ⟨1, 1, 2000, 0, 0⟩ PUState.init PUState.init rfl
